import Mathlib

/-!
# MCP2515 CAN controller driver (`mcp2515-SUN.h`)

A shallow embedding of the driver class `MCP2515` and proofs about it.

* C arrays (`byte m_nDta[8]`, `byte tbufdata[4]`, `byte *buf`) are functions `Nat → Nat`
  from index to byte.
* Machine integers are `Nat` with an explicit `% 2^w` wherever the C type truncates.
* The board is a parameter: `Hw σ` gives the answers of `_spi->transfer`, `digitalWrite`,
  `micros` and `millis` over an arbitrary board state `σ`.  The `World` additionally
  records, in order, what the driver drives onto the bus (chip-select edges, MOSI bytes).
* The three polling loops take a fuel argument that bounds the number of iterations.
-/

namespace MCP2515

/-! ## Enumerations of the class -/

-- enum RESPONSE
def RSPN_OK : Nat := 0
def RSPN_FAIL : Nat := 1
def RSPN_FAILTX : Nat := 2
def RSPN_MSGAVAIL : Nat := 3
def RSPN_NOMSG : Nat := 4
def RSPN_GETTXBFTIMEOUT : Nat := 6
def RSPN_SENDMSGTIMEOUT : Nat := 7
def RSPN_ALLTXBUSSY : Nat := 10

-- enum REGBIT
def BIT_RX0IF : Nat := 0x01
def BIT_RX1IF : Nat := 0x02

-- enum TAEK
def MCP_TXB_EXIDE_M : Nat := 0x08
def DLC_MASK : Nat := 0x0F
def RTR_MASK : Nat := 0x40

-- enum CMDSET
def CMD_RESET : Nat := 0xC0
def CMD_READ : Nat := 0x03
def CMD_BITMODIF : Nat := 0x05
def CMD_WRITE : Nat := 0x02
def CMD_READ_STATUS : Nat := 0xA0

-- enum TXBTX
def TXB_TXREQ_M : Nat := 0x08

-- enum REGCANT
def CTR_CANCTRL : Nat := 0x0F
def CTR_CANSTAT : Nat := 0x0E
def CTR_CANINTE : Nat := 0x2B
def CTR_CANINTF : Nat := 0x2C
def CTR_TXB0CTRL : Nat := 0x30
def CTR_TXB1CTRL : Nat := 0x40
def CTR_TXB2CTRL : Nat := 0x50
def CTR_RXB0CTRL : Nat := 0x60
def CTR_RXB1CTRL : Nat := 0x70
def CTR_RXB0SIDH : Nat := 0x61
def CTR_RXB1SIDH : Nat := 0x71

-- enum OPSMOD
def REQ_NORMAL : Nat := 0x00
def REQ_SLEEP : Nat := 0x20
def REQ_LOOPBACK : Nat := 0x40
def REQ_LISTENONLY : Nat := 0x60
def REQ_CONFIG : Nat := 0x80

-- enum REGCANT, mask and filter registers
def CTR_RXM0SIDH : Nat := 0x20
def CTR_RXM1SIDH : Nat := 0x24

-- enum IDMOD
def IMOD_ALL : Nat := 0
def IMOD_STD : Nat := 1
def IMOD_EXT : Nat := 2
def IMOD_ANY : Nat := 3

-- enum MASKB
def MASK_BxBFS : Nat := 0x30
def MASK_BxBFE : Nat := 0x0C

-- enum RXBRX
def RXB_RX_MASK : Nat := 0x60
def RXB_RX_ANY : Nat := 0x60
def RXB_RX_STDEXT : Nat := 0x00

-- enum CANINTF
def INTF_RX0IF : Nat := 0x01
def INTF_RX1IF : Nat := 0x02

-- enum REGCANT, filter, pin-control registers
def CTR_RXF5SIDH : Nat := 0x18
def CTR_RXF4SIDH : Nat := 0x14
def CTR_RXF3SIDH : Nat := 0x10
def CTR_RXF2SIDH : Nat := 0x08
def CTR_RXF1SIDH : Nat := 0x04
def CTR_RXF0SIDH : Nat := 0x00
def CTR_BFPCTRL : Nat := 0x0C
def CTR_TXRTSCTRL : Nat := 0x0D

-- enum SPEED
def SPD_8MHz_1000K : Nat := 0b000000001000000010000000
def SPD_8MHz_500K : Nat := 0b000000001101000110000001
def SPD_8MHz_250K : Nat := 0b000000001011000110000101
def SPD_8MHz_200K : Nat := 0b000000001011010010000110
def SPD_8MHz_125K : Nat := 0b000000011011000110000101
def SPD_8MHz_100K : Nat := 0b000000011011010010000110
def SPD_8MHz_80K : Nat := 0b000000011011111110000111
def SPD_8MHz_50K : Nat := 0b000000111011010010000110
def SPD_8MHz_40K : Nat := 0b000000111011111110000111
def SPD_8MHz_33K3 : Nat := 0b010001111110001010000101
def SPD_8MHz_31K25 : Nat := 0b000001111010010010000100
def SPD_8MHz_20K : Nat := 0b000001111011111110000111
def SPD_8MHz_10K : Nat := 0b000011111011111110000111
def SPD_8MHz_5K : Nat := 0b000111111011111110000111
def SPD_16MHz_1000K : Nat := 0b000000001101000010000010
def SPD_16MHz_500K : Nat := 0b000000001111000010000110
def SPD_16MHz_250K : Nat := 0b010000011111000110000101
def SPD_16MHz_200K : Nat := 0b000000011111101010000111
def SPD_16MHz_125K : Nat := 0b000000111111000010000110
def SPD_16MHz_100K : Nat := 0b000000111111101010000111
def SPD_16MHz_95K : Nat := 0b000000111010110100000111
def SPD_16MHz_83K3 : Nat := 0b000000111011111000000111
def SPD_16MHz_80K : Nat := 0b000000111111111110000111
def SPD_16MHz_50K : Nat := 0b000001111111101010000111
def SPD_16MHz_40K : Nat := 0b000001111111111110000111
def SPD_16MHz_33K3 : Nat := 0b010011101111000110000101
def SPD_16MHz_20K : Nat := 0b000011111111111110000111
def SPD_16MHz_10K : Nat := 0b000111111111111110000111
def SPD_16MHz_5K : Nat := 0b001111111111111110000111
def SPD_20MHz_1000K : Nat := 0b000000001101100110000010
def SPD_20MHz_500K : Nat := 0b000000001111101010000111
def SPD_20MHz_250K : Nat := 0b010000011111101110000110
def SPD_20MHz_200K : Nat := 0b000000011111111110000111
def SPD_20MHz_125K : Nat := 0b000000111111101010000111
def SPD_20MHz_100K : Nat := 0b000001001111101010000111
def SPD_20MHz_83K3 : Nat := 0b000001001111111010000111
def SPD_20MHz_80K : Nat := 0b000001001111111110000111
def SPD_20MHz_50K : Nat := 0b000010011111101010000111
def SPD_20MHz_40K : Nat := 0b000010011111111110000111
def SPD_20MHz_33K3 : Nat := 0b000010111111111110000111

/-- All enumerators of `enum SPEED`, in source order. -/
def SPEED : List Nat :=
  [SPD_8MHz_1000K, SPD_8MHz_500K, SPD_8MHz_250K, SPD_8MHz_200K, SPD_8MHz_125K, SPD_8MHz_100K,
    SPD_8MHz_80K, SPD_8MHz_50K, SPD_8MHz_40K, SPD_8MHz_33K3, SPD_8MHz_31K25, SPD_8MHz_20K,
    SPD_8MHz_10K, SPD_8MHz_5K, SPD_16MHz_1000K, SPD_16MHz_500K, SPD_16MHz_250K, SPD_16MHz_200K,
    SPD_16MHz_125K, SPD_16MHz_100K, SPD_16MHz_95K, SPD_16MHz_83K3, SPD_16MHz_80K,
    SPD_16MHz_50K, SPD_16MHz_40K, SPD_16MHz_33K3, SPD_16MHz_20K, SPD_16MHz_10K, SPD_16MHz_5K,
    SPD_20MHz_1000K, SPD_20MHz_500K, SPD_20MHz_250K, SPD_20MHz_200K, SPD_20MHz_125K,
    SPD_20MHz_100K, SPD_20MHz_83K3, SPD_20MHz_80K, SPD_20MHz_50K, SPD_20MHz_40K, SPD_20MHz_33K3]

/-! ## C arrays -/

/-- Assignment `a[i] = v`. -/
def arrSet (a : Nat → Nat) (i v : Nat) : Nat → Nat :=
  fun j => if j = i then v else a j

/-- The elements `a[0], …, a[n-1]`. -/
def arrTake (a : Nat → Nat) (n : Nat) : List Nat :=
  (List.range n).map a

/-- An array holding the given elements (and 0 past their end). -/
def arrOf (l : List Nat) : Nat → Nat :=
  fun i => l.getD i 0

/-! ## Identifier codec: the computations of `_writeIDs` and `_readIDs` -/

/-- The local `tbufdata[4]` of `_writeIDs(mcp_addr, ext, id)` when it is handed to
`__writeRegisters`.  `ext` is a `byte`, `id` a `uint32_t`, `canid` a `uint16_t`. -/
def _writeIDs_tbufdata (ext id : Nat) : Nat → Nat :=
  let ext := ext % 256
  let id := id % 2 ^ 32
  let tbufdata : Nat → Nat := fun _ => 0
  let canid := (id &&& 0x0FFFF) % 65536
  if ext = 1 then
    let tbufdata := arrSet tbufdata 3 ((canid &&& 0xFF) % 256)
    let tbufdata := arrSet tbufdata 2 ((canid >>> 8) % 256)
    let canid := (id >>> 16) % 65536
    let tbufdata := arrSet tbufdata 1 ((canid &&& 0x03) % 256)
    let tbufdata := arrSet tbufdata 1 ((tbufdata 1 + ((canid &&& 0x1C) <<< 3) % 256) % 256)
    let tbufdata := arrSet tbufdata 1 (tbufdata 1 ||| MCP_TXB_EXIDE_M)
    let tbufdata := arrSet tbufdata 0 ((canid >>> 5) % 256)
    tbufdata
  else
    let tbufdata := arrSet tbufdata 0 ((canid >>> 3) % 256)
    let tbufdata := arrSet tbufdata 1 (((canid &&& 0x07) <<< 5) % 256)
    let tbufdata := arrSet tbufdata 3 0
    let tbufdata := arrSet tbufdata 2 0
    tbufdata

/-- The pair `(*ext, *id)` that `_readIDs` computes from the four bytes `tbufdata` it has
read. -/
def _readIDs_decode (tbufdata : Nat → Nat) : Nat × Nat :=
  let ext := 0
  let id := ((tbufdata 0 <<< 3) + (tbufdata 1 >>> 5)) % 2 ^ 32
  if tbufdata 1 &&& MCP_TXB_EXIDE_M = MCP_TXB_EXIDE_M then
    let id := ((id <<< 2) + (tbufdata 1 &&& 0x03)) % 2 ^ 32
    let id := ((id <<< 8) + tbufdata 2) % 2 ^ 32
    let id := ((id <<< 8) + tbufdata 3) % 2 ^ 32
    let ext := 1
    (ext, id)
  else
    (ext, id)

/-- The identifier layout as the specification words it (4.3 Frame Codec), in the register
order SIDH, SIDL, EID8, EID0. -/
def specLayout (extended : Bool) (id : Nat) : List Nat :=
  if extended then
    let high13 := id >>> 16
    let low16 := id &&& 0xFFFF
    [high13 >>> 5, ((high13 &&& 0b11100) <<< 3) ||| (high13 &&& 0b11) ||| 0x08,
      low16 >>> 8, low16 &&& 0xFF]
  else
    [id >>> 3, (id &&& 0b111) <<< 5, 0, 0]

/-! ## The board and the bus -/

/-- What the driver needs from the platform: the SPI byte exchange `_spi->transfer`, the
chip-select pin `digitalWrite(_cs, ·)`, and the two clocks. `σ` is the state of everything
outside the driver (the controller chip, the wires, the timers). -/
structure Hw (σ : Type) where
  transfer : σ → Nat → Nat × σ
  digitalWrite : σ → Bool → σ
  micros : σ → Nat × σ
  millis : σ → Nat × σ

/-- One thing the driver drives onto the bus: a level of the chip-select line (`true` is
HIGH, i.e. released), or one byte shifted out on MOSI. -/
inductive Ev where
  | cs (high : Bool)
  | mosi (data : Nat)
deriving DecidableEq

/-- The board state together with the record of everything driven onto the bus so far. -/
structure World (σ : Type) where
  board : σ
  bus : List Ev

variable {σ : Type}

/-- Source `__spi_unSelect`: `digitalWrite(_cs, HIGH)`. -/
def __spi_unSelect (hw : Hw σ) (w : World σ) : World σ :=
  { board := hw.digitalWrite w.board true, bus := w.bus ++ [Ev.cs true] }

/-- Source `__spi_select`: `digitalWrite(_cs, LOW)`. -/
def __spi_select (hw : Hw σ) (w : World σ) : World σ :=
  { board := hw.digitalWrite w.board false, bus := w.bus ++ [Ev.cs false] }

/-- Source `__spi_readWrite(uint8_t data)`: one byte out, one byte (`uint8_t`) in. -/
def __spi_readWrite (hw : Hw σ) (w : World σ) (data : Nat) : Nat × World σ :=
  let r := hw.transfer w.board (data % 256)
  (r.1 % 256, { board := r.2, bus := w.bus ++ [Ev.mosi (data % 256)] })

/-- Source `__spi_read()`. -/
def __spi_read (hw : Hw σ) (w : World σ) : Nat × World σ :=
  __spi_readWrite hw w 0x00

/-- Source `micros()`, an `unsigned long` of 32 bits. -/
def micros (hw : Hw σ) (w : World σ) : Nat × World σ :=
  let r := hw.micros w.board
  (r.1 % 2 ^ 32, { w with board := r.2 })

/-- Source `millis()`, an `unsigned long` of 32 bits. -/
def millis (hw : Hw σ) (w : World σ) : Nat × World σ :=
  let r := hw.millis w.board
  (r.1 % 2 ^ 32, { w with board := r.2 })

/-- Subtraction of two `uint32_t` values. -/
def u32sub (a b : Nat) : Nat :=
  (a % 2 ^ 32 + 2 ^ 32 - b % 2 ^ 32) % 2 ^ 32

/-! ## Register transport

`_spi->beginTransaction` and `_spi->endTransaction` configure and release the host's SPI
peripheral; they drive nothing onto the bus and are not represented. -/

/-- Source `__bitModify(address, mask, data)`. -/
def __bitModify (hw : Hw σ) (w : World σ) (address mask data : Nat) : World σ :=
  let w := __spi_select hw w
  let w := (__spi_readWrite hw w CMD_BITMODIF).2
  let w := (__spi_readWrite hw w address).2
  let w := (__spi_readWrite hw w mask).2
  let w := (__spi_readWrite hw w data).2
  __spi_unSelect hw w

/-- Source `__readRegister(address)`. -/
def __readRegister (hw : Hw σ) (w : World σ) (address : Nat) : Nat × World σ :=
  let w := __spi_select hw w
  let w := (__spi_readWrite hw w CMD_READ).2
  let w := (__spi_readWrite hw w address).2
  let r := __spi_read hw w
  let w := __spi_unSelect hw r.2
  (r.1, w)

/-- The loop `for (; i < n; i++) values[i] = __spi_read();` with `k = n - i` iterations
left. -/
def __readRegisters_for (hw : Hw σ) : Nat → Nat → World σ → (Nat → Nat) → (Nat → Nat) × World σ
  | 0, _, w, values => (values, w)
  | k + 1, i, w, values =>
    let r := __spi_read hw w
    __readRegisters_for hw k (i + 1) r.2 (arrSet values i r.1)

/-- Source `__readRegisters(address, values, n)`; returns the array `values` as it is afterwards. -/
def __readRegisters (hw : Hw σ) (w : World σ) (address : Nat) (values : Nat → Nat) (n : Nat) :
    (Nat → Nat) × World σ :=
  let n := n % 256
  let w := __spi_select hw w
  let w := (__spi_readWrite hw w CMD_READ).2
  let w := (__spi_readWrite hw w address).2
  let r := __readRegisters_for hw n 0 w values
  (r.1, __spi_unSelect hw r.2)

/-- Source `__writeRegister(address, value)`. -/
def __writeRegister (hw : Hw σ) (w : World σ) (address value : Nat) : World σ :=
  let w := __spi_select hw w
  let w := (__spi_readWrite hw w 0x02).2
  let w := (__spi_readWrite hw w address).2
  let w := (__spi_readWrite hw w value).2
  __spi_unSelect hw w

/-- The loop `for (; i < n; i++) __spi_readWrite(values[i]);` with `k = n - i` iterations
left. -/
def __writeRegisters_for (hw : Hw σ) : Nat → Nat → World σ → (Nat → Nat) → World σ
  | 0, _, w, _ => w
  | k + 1, i, w, values =>
    __writeRegisters_for hw k (i + 1) (__spi_readWrite hw w (values i)).2 values

/-- Source `__writeRegisters(address, values, n)`. -/
def __writeRegisters (hw : Hw σ) (w : World σ) (address : Nat) (values : Nat → Nat) (n : Nat) :
    World σ :=
  let n := n % 256
  let w := __spi_select hw w
  let w := (__spi_readWrite hw w CMD_WRITE).2
  let w := (__spi_readWrite hw w address).2
  let w := __writeRegisters_for hw n 0 w values
  __spi_unSelect hw w

/-- Source `_readStatus()`. -/
def _readStatus (hw : Hw σ) (w : World σ) : Nat × World σ :=
  let w := __spi_select hw w
  let w := (__spi_readWrite hw w CMD_READ_STATUS).2
  let r := __spi_read hw w
  (r.1, __spi_unSelect hw r.2)

/-! ### Bus traffic of one transaction -/

/-- A transaction on the wire: chip select low, the bytes, chip select high. -/
def frame (bytes : List Nat) : List Ev :=
  Ev.cs false :: (bytes.map Ev.mosi ++ [Ev.cs true])

/-- Wire form of a single register read. -/
def busRead (address : Nat) : List Ev := frame [CMD_READ, address, 0]

/-- Wire form of a read of `n` consecutive registers. -/
def busReadN (address n : Nat) : List Ev := frame (CMD_READ :: address :: List.replicate n 0)

/-- Wire form of a single register write. -/
def busWrite (address value : Nat) : List Ev := frame [CMD_WRITE, address, value]

/-- Wire form of a write of consecutive registers. -/
def busWriteN (address : Nat) (values : List Nat) : List Ev :=
  frame (CMD_WRITE :: address :: values)

/-- Wire form of a bit-modify. -/
def busBitModify (address mask data : Nat) : List Ev := frame [CMD_BITMODIF, address, mask, data]

/-- Wire form of the fast status read. -/
def busStatus : List Ev := frame [CMD_READ_STATUS, 0]

/-! ## Driver state -/

/-- The data members of `class MCP2515` that the operations read or write. -/
structure Drv where
  m_nExtFlg : Nat
  m_nID : Nat
  m_nDlc : Nat
  m_nDta : Nat → Nat
  m_nRtr : Nat
  canError : Nat
  _opsModeUse : Nat

/-- The caller's memory behind the three pointer arguments of `readData`. -/
structure RxArgs where
  id : Nat
  len : Nat
  buf : Nat → Nat

/-! ## Frame codec on the bus -/

/-- Source `_writeIDs(mcp_addr, ext, id)`. -/
def _writeIDs (hw : Hw σ) (w : World σ) (mcp_addr ext id : Nat) : World σ :=
  __writeRegisters hw w mcp_addr (_writeIDs_tbufdata ext id) 4

/-- Source `_readIDs(mcp_addr, &ext, &id)`; returns `((*ext, *id), world)`. -/
def _readIDs (hw : Hw σ) (w : World σ) (mcp_addr : Nat) : (Nat × Nat) × World σ :=
  let r := __readRegisters hw w mcp_addr (fun _ => 0) 4
  (_readIDs_decode r.1, r.2)

/-- Source `_readReceivMsg(buffer_sidh_addr)`. The address arguments are `byte`s, so `mcp_addr - 1`
is taken modulo 256. -/
def _readReceivMsg (hw : Hw σ) (d : Drv) (w : World σ) (buffer_sidh_addr : Nat) :
    Drv × World σ :=
  let mcp_addr := buffer_sidh_addr % 256
  let ids := _readIDs hw w mcp_addr
  let d := { d with m_nExtFlg := ids.1.1, m_nID := ids.1.2 }
  let ctrl := __readRegister hw ids.2 ((mcp_addr + 255) % 256)
  let dlc := __readRegister hw ctrl.2 ((mcp_addr + 4) % 256)
  let d := { d with m_nDlc := dlc.1 }
  let d := if d.m_nDlc > 8 then { d with m_nDlc := 8 } else d
  let d := if ctrl.1 &&& 0x08 ≠ 0 then { d with m_nRtr := 1 } else { d with m_nRtr := 0 }
  let d := { d with m_nDlc := d.m_nDlc &&& DLC_MASK }
  let r := __readRegisters hw dlc.2 ((mcp_addr + 5) % 256) d.m_nDta d.m_nDlc
  ({ d with m_nDta := r.1 }, r.2)

/-! ## Receive -/

/-- The loop `for (; i < n; i++) dst[i] = src[i];` with `k = n - i` iterations left (used
for `m_nDta[i] = *(buf + i)` in `writeData` and `buf[i] = m_nDta[i]` in `readData`). -/
def copy_for : Nat → Nat → (Nat → Nat) → (Nat → Nat) → (Nat → Nat)
  | 0, _, dst, _ => dst
  | k + 1, i, dst, src => copy_for k (i + 1) (arrSet dst i (src i)) src

/-- Source `readData(id, len, buf)`; returns the status code, the driver, the world and the
caller's memory behind the three pointers. -/
def readData (hw : Hw σ) (d : Drv) (w : World σ) (args : RxArgs) :
    Nat × Drv × World σ × RxArgs :=
  if d.canError ≠ 0 then (100, d, w, args)
  else
    let stat := _readStatus hw w
    let r : Nat × Drv × World σ :=
      if stat.1 &&& (1 <<< 0) ≠ 0 then
        let m := _readReceivMsg hw d stat.2 CTR_RXB0SIDH
        (RSPN_OK, m.1, __bitModify hw m.2 CTR_CANINTF BIT_RX0IF 0)
      else if stat.1 &&& (1 <<< 1) ≠ 0 then
        let m := _readReceivMsg hw d stat.2 CTR_RXB1SIDH
        (RSPN_OK, m.1, __bitModify hw m.2 CTR_CANINTF BIT_RX1IF 0)
      else (RSPN_NOMSG, d, stat.2)
    let res := r.1
    let d := r.2.1
    let w := r.2.2
    if res = RSPN_NOMSG then (RSPN_NOMSG, d, w, args)
    else
      let d := if d.m_nExtFlg ≠ 0 then { d with m_nID := (d.m_nID ||| 0x80000000) % 2 ^ 32 } else d
      let d := if d.m_nRtr ≠ 0 then { d with m_nID := (d.m_nID ||| 0x40000000) % 2 ^ 32 } else d
      let d := if d.m_nDlc > 8 then { d with m_nDlc := 8 } else d
      let args := { args with id := d.m_nID, len := d.m_nDlc }
      let args := { args with buf := copy_for d.m_nDlc 0 args.buf d.m_nDta }
      (RSPN_OK, d, w, args)

/-! ## Transmit -/

/-- The inlined `mcp2515_getNextFreeTXBuf`: one pass of the `for` loop over the remaining
control registers `ctrlregs[i..]`, carrying `res` and `txbuf_n`. -/
def getNextFreeTXBuf_for (hw : Hw σ) : List Nat → Nat → Nat → World σ → Nat × Nat × World σ
  | [], res, txbuf_n, w => (res, txbuf_n, w)
  | reg :: rest, res, txbuf_n, w =>
    let ctrlval := __readRegister hw w reg
    if ctrlval.1 &&& TXB_TXREQ_M = 0 then
      getNextFreeTXBuf_for hw rest RSPN_OK ((reg + 1) % 256) ctrlval.2
    else
      getNextFreeTXBuf_for hw rest res txbuf_n ctrlval.2

/-- The inlined `mcp2515_getNextFreeTXBuf`: returns `(res, txbuf_n, world)`. -/
def getNextFreeTXBuf (hw : Hw σ) (w : World σ) : Nat × Nat × World σ :=
  getNextFreeTXBuf_for hw [CTR_TXB0CTRL, CTR_TXB1CTRL, CTR_TXB2CTRL] RSPN_ALLTXBUSSY 0x00 w

/-- The first `do … while (res == RSPN_ALLTXBUSSY && (uiTimeOut < 2500))` of `writeData`.
Returns `some (res, txbuf_n, uiTimeOut)` when the loop is left, `none` when `fuel`
iterations did not suffice. -/
def waitFreeTXBuf (hw : Hw σ) (temp : Nat) : Nat → World σ → Option (Nat × Nat × Nat) × World σ
  | 0, w => (none, w)
  | fuel + 1, w =>
    let s := getNextFreeTXBuf hw w
    let now := micros hw s.2.2
    let uiTimeOut := u32sub now.1 temp
    if s.1 = RSPN_ALLTXBUSSY ∧ uiTimeOut < 2500 then waitFreeTXBuf hw temp fuel now.2
    else (some (s.1, s.2.1, uiTimeOut), now.2)

/-- The second `do … while (res1 && (uiTimeOut < 2500))` of `writeData`. Returns
`some uiTimeOut` when the loop is left, `none` when `fuel` iterations did not suffice. -/
def waitSent (hw : Hw σ) (txbuf_n temp : Nat) : Nat → World σ → Option Nat × World σ
  | 0, w => (none, w)
  | fuel + 1, w =>
    let r := __readRegister hw w ((txbuf_n + 255) % 256)
    let res1 := r.1 &&& 0x08
    let now := micros hw r.2
    let uiTimeOut := u32sub now.1 temp
    if res1 ≠ 0 ∧ uiTimeOut < 2500 then waitSent hw txbuf_n temp fuel now.2
    else (some uiTimeOut, now.2)

/-- The inlined `setMsg(id, 0, ext, len, buf)` at the head of `writeData`. -/
def setMsg (d : Drv) (id ext len : Nat) (buf : Nat → Nat) : Drv :=
  let d := { d with m_nID := id % 2 ^ 32, m_nRtr := 0, m_nExtFlg := ext % 256, m_nDlc := len % 256 }
  let d := if d.m_nDlc > 8 then { d with m_nDlc := 8 } else d
  { d with m_nDta := copy_for d.m_nDlc 0 d.m_nDta buf }

/-- The inlined `mcp2515_write_canMsg(txbuf_n)` followed by the transmit request
`__bitModify(txbuf_n - 1, TXB_TXREQ_M, TXB_TXREQ_M)`. -/
def write_canMsg (hw : Hw σ) (d : Drv) (w : World σ) (txbuf_n : Nat) : Drv × World σ :=
  let mcp_addr := txbuf_n
  let w := __writeRegisters hw w ((mcp_addr + 5) % 256) d.m_nDta d.m_nDlc
  let d := if d.m_nRtr = 1 then { d with m_nDlc := d.m_nDlc ||| RTR_MASK } else d
  let w := __writeRegister hw w ((mcp_addr + 4) % 256) d.m_nDlc
  let w := _writeIDs hw w mcp_addr d.m_nExtFlg d.m_nID
  (d, __bitModify hw w ((txbuf_n + 255) % 256) TXB_TXREQ_M TXB_TXREQ_M)

/-- Source `writeData(id, ext, len, buf)`. The result code is `none` when one of the two polling
loops was still running after `fuel` iterations; the driver and the world are then those
reached at that point. -/
def writeData (hw : Hw σ) (fuel : Nat) (d : Drv) (w : World σ) (id ext len : Nat)
    (buf : Nat → Nat) : Option Nat × Drv × World σ :=
  if d.canError ≠ 0 then (some 100, d, w)
  else
    let d := setMsg d id ext len buf
    let temp := micros hw w
    let p := waitFreeTXBuf hw temp.1 fuel temp.2
    match p.1 with
    | none => (none, d, p.2)
    | some (_, txbuf_n, uiTimeOut) =>
      if uiTimeOut ≥ 2500 then (some RSPN_GETTXBFTIMEOUT, d, p.2)
      else
        let m := write_canMsg hw d p.2 txbuf_n
        let temp := micros hw m.2
        let q := waitSent hw txbuf_n temp.1 fuel temp.2
        match q.1 with
        | none => (none, m.1, q.2)
        | some uiTimeOut =>
          if uiTimeOut ≥ 2500 then (some RSPN_SENDMSGTIMEOUT, m.1, q.2)
          else (some RSPN_OK, m.1, q.2)

/-! ## Mode controller -/

/-- The `while (1)` loop of `_toRequestMode(newMod)`, with `startTime` the `byte` taken
from `millis()` at entry. `millis()` is read only in an iteration whose status readback does
not match, and the difference to `startTime` is cast to `byte` before it is compared with
200. Returns `none` when `fuel` iterations did not suffice. -/
def _toRequestMode_loop (hw : Hw σ) (newMod startTime : Nat) :
    Nat → World σ → Option Nat × World σ
  | 0, w => (none, w)
  | fuel + 1, w =>
    let w := __bitModify hw w CTR_CANCTRL 0xE0 newMod
    let statReg := __readRegister hw w CTR_CANSTAT
    if statReg.1 &&& 0xE0 = newMod then (some RSPN_OK, statReg.2)
    else
      let now := millis hw statReg.2
      if u32sub now.1 startTime % 256 > 200 then (some RSPN_FAIL, now.2)
      else _toRequestMode_loop hw newMod startTime fuel now.2

/-- Source `_toRequestMode(newMod)`; `newMod` and `startTime` are `byte`s. -/
def _toRequestMode (hw : Hw σ) (fuel : Nat) (w : World σ) (newMod : Nat) :
    Option Nat × World σ :=
  let newMod := newMod % 256
  let t := millis hw w
  let startTime := t.1 % 256
  _toRequestMode_loop hw newMod startTime fuel t.2

/-- Source `_exitSleepMode(reqMode)`. The result code is `none` when the intermediate mode
request was still polling after `fuel` iterations. -/
def _exitSleepMode (hw : Hw σ) (fuel : Nat) (w : World σ) (reqMode : Nat) :
    Option Nat × World σ :=
  let reqMode := reqMode % 256
  let stat := __readRegister hw w CTR_CANSTAT
  if stat.1 &&& 0xE0 = REQ_SLEEP ∧ reqMode ≠ REQ_SLEEP then
    let inte := __readRegister hw stat.2 CTR_CANINTE
    let wakeIntEnabled := inte.1 &&& 0x40
    let w := if wakeIntEnabled = 0 then __bitModify hw inte.2 CTR_CANINTE 0x40 0x40 else inte.2
    let w := __bitModify hw w CTR_CANINTF 0x40 0x40
    let r := _toRequestMode hw fuel w REQ_LISTENONLY
    match r.1 with
    | none => (none, r.2)
    | some res =>
      if res ≠ RSPN_OK then (some RSPN_FAIL, r.2)
      else
        let w := if wakeIntEnabled = 0 then __bitModify hw r.2 CTR_CANINTE 0x40 0 else r.2
        (some RSPN_OK, __bitModify hw w CTR_CANINTF 0x40 0)
  else
    (some RSPN_OK, __bitModify hw stat.2 CTR_CANINTF 0x40 0)

/-- Source `_setCANCTRL(mode)`. -/
def _setCANCTRL (hw : Hw σ) (fuel : Nat) (w : World σ) (mode : Nat) : Option Nat × World σ :=
  let e := _exitSleepMode hw fuel w mode
  match e.1 with
  | none => (none, e.2)
  | some res =>
    if res ≠ RSPN_OK then (some RSPN_FAIL, e.2)
    else _toRequestMode hw fuel e.2 mode

/-! ## Filter and mask configuration -/

/-- Source `_setStdFilt(filterNumber, id)` with `uint8_t filterNumber`, `uint16_t id`; the
`switch` yields no base address for a filter number outside 0..5. -/
def _setStdFilt (hw : Hw σ) (w : World σ) (filterNumber id : Nat) : World σ :=
  let filterNumber := filterNumber % 256
  let id := id % 65536
  let sidh := ((id >>> 3) &&& 0xFF) % 256
  let sidl := ((id &&& 0x07) <<< 5) % 256
  let baseAddr : Option Nat :=
    match filterNumber with
    | 0 => some 0x00
    | 1 => some 0x04
    | 2 => some 0x08
    | 3 => some 0x10
    | 4 => some 0x14
    | 5 => some 0x18
    | _ => none
  match baseAddr with
  | none => w
  | some baseAddr =>
    let w := __writeRegister hw w baseAddr sidh
    __writeRegister hw w ((baseAddr + 1) % 256) sidl

/-- Source `_setStdMaskFilt(maskNumber, mask)` with `uint8_t maskNumber`, `uint16_t mask`. -/
def _setStdMaskFilt (hw : Hw σ) (w : World σ) (maskNumber mask : Nat) : World σ :=
  let maskNumber := maskNumber % 256
  let mask := mask % 65536
  let sidh := ((mask >>> 3) &&& 0xFF) % 256
  let sidl := ((mask &&& 0x07) <<< 5) % 256
  let baseAddr := if maskNumber = 0 then 0x20 else 0x24
  let w := __writeRegister hw w baseAddr sidh
  __writeRegister hw w ((baseAddr + 1) % 256) sidl

/-- The part of `setMaskFilt` between its two mode changes: `_setStdMaskFilt(0, mask0)` and
then `_setStdMaskFilt(1, mask0)` or `_setStdMaskFilt(1, mask1)`. -/
def setMaskFilt_masks (hw : Hw σ) (w : World σ) (mask0 mask1 : Nat) : World σ :=
  let w := _setStdMaskFilt hw w 0 mask0
  if mask1 = 0x0000 then _setStdMaskFilt hw w 1 mask0
  else _setStdMaskFilt hw w 1 mask1

/-- Source `setMaskFilt(mask0, mask1)` with `uint16_t` arguments. A failed switch to
Config mode only prints a diagnostic line (`Serial.println`, not represented) and the
function goes on. Returns the local `result` of the final `_setCANCTRL(_opsModeUse)`, which
the source discards; `none` when a mode request was still polling after `fuel` iterations. -/
def setMaskFilt (hw : Hw σ) (fuel : Nat) (d : Drv) (w : World σ) (mask0 mask1 : Nat) :
    Option Nat × World σ :=
  let mask0 := mask0 % 65536
  let mask1 := mask1 % 65536
  let r := _setCANCTRL hw fuel w REQ_CONFIG
  match r.1 with
  | none => (none, r.2)
  | some _ =>
    let w := setMaskFilt_masks hw r.2 mask0 mask1
    _setCANCTRL hw fuel w d._opsModeUse

/-! ## Initialization -/

/-- The local `tbufdata[4]` of `_writeMasknFilter(mcp_addr, ext, id)` when it is handed to
`__writeRegisters`. -/
def _writeMasknFilter_tbufdata (ext id : Nat) : Nat → Nat :=
  let ext := ext % 256
  let id := id % 2 ^ 32
  let tbufdata : Nat → Nat := fun _ => 0
  let canid := (id &&& 0x0FFFF) % 65536
  if ext = 1 then
    let tbufdata := arrSet tbufdata 3 ((canid &&& 0xFF) % 256)
    let tbufdata := arrSet tbufdata 2 ((canid >>> 8) % 256)
    let canid := (id >>> 16) % 65536
    let tbufdata := arrSet tbufdata 1 ((canid &&& 0x03) % 256)
    let tbufdata := arrSet tbufdata 1 ((tbufdata 1 + ((canid &&& 0x1C) <<< 3) % 256) % 256)
    let tbufdata := arrSet tbufdata 1 (tbufdata 1 ||| MCP_TXB_EXIDE_M)
    let tbufdata := arrSet tbufdata 0 ((canid >>> 5) % 256)
    tbufdata
  else
    let tbufdata := arrSet tbufdata 3 ((canid &&& 0xFF) % 256)
    let tbufdata := arrSet tbufdata 2 ((canid >>> 8) % 256)
    let canid := (id >>> 16) % 65536
    let tbufdata := arrSet tbufdata 1 (((canid &&& 0x07) <<< 5) % 256)
    let tbufdata := arrSet tbufdata 0 ((canid >>> 3) % 256)
    tbufdata

/-- Source `_writeMasknFilter(mcp_addr, ext, id)`. -/
def _writeMasknFilter (hw : Hw σ) (w : World σ) (mcp_addr ext id : Nat) : World σ :=
  __writeRegisters hw w mcp_addr (_writeMasknFilter_tbufdata ext id) 4

/-- The loop `for (; i < 14; i++)` of `_initCANBuffers` with `k = 14 - i` iterations left:
it writes 0 to `a1`, `a2`, `a3` and advances the three `byte` addresses. -/
def _initCANBuffers_for (hw : Hw σ) : Nat → Nat → Nat → Nat → World σ → World σ
  | 0, _, _, _, w => w
  | k + 1, a1, a2, a3, w =>
    let w := __writeRegister hw w a1 0
    let w := __writeRegister hw w a2 0
    let w := __writeRegister hw w a3 0
    _initCANBuffers_for hw k ((a1 + 1) % 256) ((a2 + 1) % 256) ((a3 + 1) % 256) w

/-- Source `_initCANBuffers()`. -/
def _initCANBuffers (hw : Hw σ) (w : World σ) : World σ :=
  let std := 0
  let ext := 1
  let ulMask := 0x00
  let ulFilt := 0x00
  let w := _writeMasknFilter hw w CTR_RXM0SIDH ext ulMask
  let w := _writeMasknFilter hw w CTR_RXM1SIDH ext ulMask
  let w := _writeMasknFilter hw w CTR_RXF0SIDH ext ulFilt
  let w := _writeMasknFilter hw w CTR_RXF1SIDH std ulFilt
  let w := _writeMasknFilter hw w CTR_RXF2SIDH ext ulFilt
  let w := _writeMasknFilter hw w CTR_RXF3SIDH std ulFilt
  let w := _writeMasknFilter hw w CTR_RXF4SIDH ext ulFilt
  let w := _writeMasknFilter hw w CTR_RXF5SIDH std ulFilt
  let w := _initCANBuffers_for hw 14 CTR_TXB0CTRL CTR_TXB1CTRL CTR_TXB2CTRL w
  let w := __writeRegister hw w CTR_RXB0CTRL 0
  __writeRegister hw w CTR_RXB1CTRL 0

/-- The `if (imod == IMOD_ANY) … else if (imod == IMOD_STD || imod == IMOD_EXT ||
imod == IMOD_ALL) …` of the driver's initialization: the two bit-modifies of the receive
control registers. -/
def initialize_rxMode (hw : Hw σ) (w : World σ) (imod : Nat) : World σ :=
  if imod = IMOD_ANY then
    let w := __bitModify hw w CTR_RXB0CTRL (RXB_RX_MASK ||| (1 <<< 2)) (RXB_RX_ANY ||| (1 <<< 2))
    __bitModify hw w CTR_RXB1CTRL RXB_RX_MASK RXB_RX_ANY
  else if imod = IMOD_STD ∨ imod = IMOD_EXT ∨ imod = IMOD_ALL then
    let w :=
      __bitModify hw w CTR_RXB0CTRL (RXB_RX_MASK ||| (1 <<< 2)) (RXB_RX_STDEXT ||| (1 <<< 2))
    __bitModify hw w CTR_RXB1CTRL RXB_RX_MASK RXB_RX_STDEXT
  else w

/-- The three writes of the bit-timing bytes in the driver's initialization: `cfg1` to 0x2A,
`cfg2` to 0x29, `cfg3` to 0x28. -/
def initialize_bitTiming (hw : Hw σ) (w : World σ) (canSpeed : Nat) : World σ :=
  let cfg1 := ((canSpeed >>> 16) &&& 0xFF) % 256
  let cfg2 := ((canSpeed >>> 8) &&& 0xFF) % 256
  let cfg3 := (canSpeed &&& 0xFF) % 256
  let w := __writeRegister hw w 0x2A cfg1
  let w := __writeRegister hw w 0x29 cfg2
  __writeRegister hw w 0x28 cfg3

/-- The block under `if (result == RSPN_OK)` of the driver's initialization, up to the
final mode change: buffers, interrupt enable, pin control, receive mode. -/
def initialize_buffers (hw : Hw σ) (w : World σ) (imod : Nat) : World σ :=
  let w := _initCANBuffers hw w
  let w := __writeRegister hw w CTR_CANINTE (INTF_RX0IF ||| INTF_RX1IF)
  let w := __writeRegister hw w CTR_BFPCTRL (MASK_BxBFS ||| MASK_BxBFE)
  let w := __writeRegister hw w CTR_TXRTSCTRL 0x00
  initialize_rxMode hw w imod

/-- Source `initialize(opsMod, imod, canSpeed)` of class `MCP2515`; the Lean name carries a
suffix. `pinMode(_cs, OUTPUT)` and `_spi->begin()`
set up the host's pin and SPI peripheral and are not represented; a failed switch to
Config mode only prints a diagnostic line. Returns `some 1` for `true`, `some 0` for
`false`, and `none` when a mode request was still polling after `fuel` iterations. -/
def initialize_mcp (hw : Hw σ) (fuel : Nat) (d : Drv) (w : World σ) (opsMod imod canSpeed : Nat) :
    Option Nat × Drv × World σ :=
  let w := __spi_unSelect hw w
  let r := _setCANCTRL hw fuel w REQ_CONFIG
  match r.1 with
  | none => (none, d, r.2)
  | some result =>
    let w := initialize_bitTiming hw r.2 canSpeed
    let r2 : Option Nat × World σ :=
      if result = RSPN_OK then
        _setCANCTRL hw fuel (initialize_buffers hw w imod) opsMod
      else (some result, w)
    match r2.1 with
    | none => (none, d, r2.2)
    | some result =>
      if result = RSPN_OK then (some 1, { d with _opsModeUse := opsMod }, r2.2)
      else (some 0, d, r2.2)

/-! ## Availability -/

/-- Source `available()`. -/
def available (hw : Hw σ) (d : Drv) (w : World σ) : Bool × World σ :=
  if d.canError ≠ 0 then (false, w)
  else
    let res := _readStatus hw w
    if res.1 &&& 0x03 ≠ 0 then (true, res.2) else (false, res.2)

/-! ## Observations used to state the properties -/

/-- The three control-register values that one scan of `mcp2515_getNextFreeTXBuf` reads, in
scan order (`TXB0CTRL`, `TXB1CTRL`, `TXB2CTRL`), and the world after the scan. -/
def scanReads (hw : Hw σ) (w : World σ) : List Nat × World σ :=
  let r0 := __readRegister hw w CTR_TXB0CTRL
  let r1 := __readRegister hw r0.2 CTR_TXB1CTRL
  let r2 := __readRegister hw r1.2 CTR_TXB2CTRL
  ([r0.1, r1.1, r2.1], r2.2)

/-- The world after `k` consecutive iterations of the free-slot polling loop in each of
which all three control registers read busy (bit 0x08 set) and the time elapsed since
`temp`, read after the scan, was below 2500 microseconds; `none` if some iteration among
them was not of that kind. -/
def afterBusyScans (hw : Hw σ) (temp : Nat) : Nat → World σ → Option (World σ)
  | 0, w => some w
  | k + 1, w =>
    let s := scanReads hw w
    let now := micros hw s.2
    if (∀ v ∈ s.1, v &&& 0x08 ≠ 0) ∧ u32sub now.1 temp < 2500 then
      afterBusyScans hw temp k now.2
    else none

/-- Bus traffic of one scan of the three transmit control registers. -/
def scanFrames : List Ev :=
  busRead 0x30 ++ busRead 0x40 ++ busRead 0x50

/-- Bus traffic that loads a frame into the transmit slot whose control register is `c` and
requests its transmission: `payload` to the registers from `c + 6`, `dlc` to `c + 5`, the
four identifier bytes `ids` to `c + 1 … c + 4`, then bit-modify of `c` with mask 0x08 and
value 0x08. -/
def loadFrames (c : Nat) (payload : List Nat) (dlc : Nat) (ids : List Nat) : List Ev :=
  busWriteN (c + 6) payload ++ busWrite (c + 5) dlc ++ busWriteN (c + 1) ids
    ++ busBitModify c 0x08 0x08

/-- The world right after `writeData` has loaded the slot with SIDH address `txbuf_n` and set
its transmit-request bit, before it reads the clock for the completion polling. -/
def sendRequested (hw : Hw σ) (fuel : Nat) (d : Drv) (w : World σ) (id ext len : Nat)
    (buf : Nat → Nat) (txbuf_n : Nat) : World σ :=
  (write_canMsg hw (setMsg d id ext len buf)
    (waitFreeTXBuf hw (micros hw w).1 fuel (micros hw w).2).2 txbuf_n).2

/-- One poll of the completion loop for the slot with SIDH address `txbuf_n`: the byte read
from the slot's control register, the time elapsed since `temp` as read right after it, and
the world after both. -/
def pollSent (hw : Hw σ) (txbuf_n temp : Nat) (w : World σ) : Nat × Nat × World σ :=
  let r := __readRegister hw w ((txbuf_n + 255) % 256)
  let now := micros hw r.2
  (r.1, u32sub now.1 temp, now.2)

/-- The world after `j` consecutive polls of the completion loop in each of which the busy
bit (0x08) read set and the time elapsed since `temp`, read after the poll, was below
2500 microseconds; `none` if some poll among them was not of that kind. -/
def afterBusyPolls (hw : Hw σ) (txbuf_n temp : Nat) : Nat → World σ → Option (World σ)
  | 0, w => some w
  | j + 1, w =>
    let p := pollSent hw txbuf_n temp w
    if p.1 &&& 0x08 ≠ 0 ∧ p.2.1 < 2500 then afterBusyPolls hw txbuf_n temp j p.2.2
    else none

/-- The transactions of a bus record, each as its list of MOSI bytes: a transaction starts
when chip select goes low and ends when it goes high; `cur` holds the bytes of the
transaction under way. -/
def transactionsFrom : List Nat → List Ev → List (List Nat)
  | _, [] => []
  | _, Ev.cs false :: es => transactionsFrom [] es
  | cur, Ev.mosi b :: es => transactionsFrom (cur ++ [b]) es
  | cur, Ev.cs true :: es => cur :: transactionsFrom [] es

/-- The register addresses that one transaction writes or bit-modifies: a WRITE (0x02) of
`k` data bytes starting at `address` touches `address … address + k - 1`, a BIT_MODIFY
(0x05) touches `address`, every other command touches none. -/
def modifiedRegs : List Nat → List Nat
  | cmd :: address :: rest =>
    if cmd = CMD_WRITE then (List.range rest.length).map (fun i => address + i)
    else if cmd = CMD_BITMODIF then [address]
    else []
  | _ => []

/-- All register addresses written or bit-modified by the transactions of a bus record. -/
def modifiedRegsOf (es : List Ev) : List Nat :=
  ((transactionsFrom [] es).map modifiedRegs).flatten

/-- The receive slot (its SIDH address) that `readData` services for the status byte it
reads: slot 0 when bit 0 is set, slot 1 otherwise. -/
def servicedSlot (hw : Hw σ) (w : World σ) : Nat :=
  if (_readStatus hw w).1 &&& 0x01 ≠ 0 then CTR_RXB0SIDH else CTR_RXB1SIDH

/-- A driver object as the constructor leaves it: `canError` and `_opsModeUse` carry their
member initialisers, the other members are not initialised and may hold anything. -/
def Constructed (d : Drv) : Prop :=
  d.canError = 0 ∧ d._opsModeUse = REQ_NORMAL

/-- The driver states that can be reached from a constructed driver by calls of the
operations that write driver members (`initialize`, `writeData`, `readData`), on any board,
in any world, with any arguments; `setMaskFilt`, the filter setters and `available` assign
no member and so leave the driver state as it is. -/
inductive Reachable : Drv → Prop where
  | constructed (d : Drv) : Constructed d → Reachable d
  | afterInitialize {σ : Type} (hw : Hw σ) (fuel : Nat) (d : Drv) (w : World σ)
      (opsMod imod canSpeed : Nat) :
      Reachable d → Reachable (initialize_mcp hw fuel d w opsMod imod canSpeed).2.1
  | afterWriteData {σ : Type} (hw : Hw σ) (fuel : Nat) (d : Drv) (w : World σ)
      (id ext len : Nat) (buf : Nat → Nat) :
      Reachable d → Reachable (writeData hw fuel d w id ext len buf).2.1
  | afterReadData {σ : Type} (hw : Hw σ) (d : Drv) (w : World σ) (args : RxArgs) :
      Reachable d → Reachable (readData hw d w args).2.1

/-- The world before the receive-mode step of the initialization block. -/
def initialize_beforeRxMode (hw : Hw σ) (w : World σ) : World σ :=
  __writeRegister hw (__writeRegister hw (__writeRegister hw (_initCANBuffers hw w) CTR_CANINTE
    (INTF_RX0IF ||| INTF_RX1IF)) CTR_BFPCTRL (MASK_BxBFS ||| MASK_BxBFE)) CTR_TXRTSCTRL 0x00

/-- The bus record of a sequence of complete transactions, each given by its MOSI bytes. -/
def busOf (txs : List (List Nat)) : List Ev := (txs.map frame).flatten

/-- Effect of one transaction on a register file: a WRITE (0x02) stores its data bytes at
consecutive addresses from `address`, a BIT_MODIFY (0x05) with its two bytes `mask`, `data`
changes only the masked bits of the addressed register, every other transaction changes
nothing (the wire protocol table of the specification, section 6). -/
def applyTransaction (regs : Nat → Nat) : List Nat → (Nat → Nat)
  | cmd :: address :: rest =>
    if cmd = CMD_WRITE then
      fun a => if address ≤ a ∧ a < address + rest.length then rest.getD (a - address) 0 else regs a
    else if cmd = CMD_BITMODIF then
      match rest with
      | [mask, data] =>
        arrSet regs address ((regs address &&& (255 ^^^ mask)) ||| (data &&& mask))
      | _ => regs
    else regs
  | _ => regs

/-- The register file after the transactions of a bus record have been applied to `regs`
in order. -/
def regsAfter (regs : Nat → Nat) (es : List Ev) : Nat → Nat :=
  (transactionsFrom [] es).foldl applyTransaction regs

/-- The transactions of the wake-up sequence of `_exitSleepMode`, for a chip that reported
Sleep: `enabled` tells whether the wake-enable bit was read set, `j` is the number of rounds
of the ListenOnly request, `ok` tells whether that request returned Ok. -/
def wakeTransactions (enabled : Bool) (j : Nat) (ok : Bool) : List (List Nat) :=
  [[CMD_READ, CTR_CANSTAT, 0], [CMD_READ, CTR_CANINTE, 0]]
    ++ (if enabled then [] else [[CMD_BITMODIF, CTR_CANINTE, 0x40, 0x40]])
    ++ [[CMD_BITMODIF, CTR_CANINTF, 0x40, 0x40]]
    ++ (List.replicate j
          [[CMD_BITMODIF, CTR_CANCTRL, 0xE0, REQ_LISTENONLY], [CMD_READ, CTR_CANSTAT, 0]]).flatten
    ++ (if ok then
          (if enabled then [] else [[CMD_BITMODIF, CTR_CANINTE, 0x40, 0]])
            ++ [[CMD_BITMODIF, CTR_CANINTF, 0x40, 0]]
        else [])

/-! ## Two concrete boards -/

/-- A register-file controller on the bus, following the wire protocol table of the
specification (section 6): READ 0x03 and WRITE 0x02 with auto-incrementing address,
BIT_MODIFY 0x05 changing only the masked bits, READ_STATUS 0xA0. `rx` holds the bytes
received since chip select went low. Each clock reading advances the time by `tick`
microseconds. -/
structure Sim where
  regs : Nat → Nat
  status : Nat
  clock : Nat
  tick : Nat
  selected : Bool
  rx : List Nat

/-- Answer of the register-file controller to one byte exchange. -/
def Sim.transfer (s : Sim) (data : Nat) : Nat × Sim :=
  if s.selected then
    match s.rx with
    | [] => (0, { s with rx := [data] })
    | [cmd] =>
      if cmd = CMD_READ_STATUS then (s.status, s)
      else (0, { s with rx := [cmd, data] })
    | cmd :: address :: rest =>
      if cmd = CMD_READ then
        (s.regs (address + rest.length), { s with rx := s.rx ++ [data] })
      else if cmd = CMD_WRITE then
        (0, { s with regs := arrSet s.regs (address + rest.length) data, rx := s.rx ++ [data] })
      else if cmd = CMD_BITMODIF then
        match rest with
        | [] => (0, { s with rx := s.rx ++ [data] })
        | [mask] =>
          (0, { s with
                  regs := arrSet s.regs address
                    ((s.regs address &&& (255 ^^^ mask)) ||| (data &&& mask)),
                  rx := s.rx ++ [data] })
        | _ => (0, s)
      else (0, s)
  else (0, s)

/-- The register-file controller as a board. -/
def simHw : Hw Sim where
  transfer := Sim.transfer
  digitalWrite := fun s high => { s with selected := !high, rx := [] }
  micros := fun s => (s.clock, { s with clock := s.clock + s.tick })
  millis := fun s => (s.clock / 1000, { s with clock := s.clock + s.tick })

/-- A scripted board: the chip answers the successive byte exchanges with the bytes of
`miso`, and the successive clock readings are the entries of `clock` (0 once a list is
used up). -/
structure Script where
  miso : List Nat
  clock : List Nat

/-- The scripted board. -/
def scriptHw : Hw Script where
  transfer := fun s _ => (s.miso.headD 0, { s with miso := s.miso.tail })
  digitalWrite := fun s _ => s
  micros := fun s => (s.clock.headD 0, { s with clock := s.clock.tail })
  millis := fun s => (s.clock.headD 0, { s with clock := s.clock.tail })

/-- The three answers of the scripted chip during one single-register read that returns
`v`. -/
def answer (v : Nat) : List Nat := [0, 0, v]

/-- A driver object right after construction. -/
def newDrv : Drv :=
  { m_nExtFlg := 0, m_nID := 0, m_nDlc := 0, m_nDta := fun _ => 0, m_nRtr := 0,
    canError := 0, _opsModeUse := 0 }

/-- An idle register-file controller with the given register contents and status byte. -/
def simIdle (regs : Nat → Nat) (status tick : Nat) : Sim :=
  { regs := regs, status := status, clock := 0, tick := tick, selected := false, rx := [] }

/-! ## Concrete scenarios -/

/-- A scripted board for C3: the first scan reads all three slots busy, the second reads
slot 0 free, slot 1 busy, slot 2 free; the clock reads 10, 500, 900, 1000, 1200. -/
def c3Board : World Script :=
  ⟨⟨answer 8 ++ answer 8 ++ answer 8 ++ answer 0 ++ answer 8 ++ answer 0,
    [10, 500, 900, 1000, 1200]⟩, []⟩

/-- A scripted board on which the first scan reads slot 0 free, slot 1 free and slot 2
busy, and every later read answers 0. -/
def c4Board : World Script :=
  ⟨⟨answer 0 ++ answer 0 ++ answer 8, [10, 500, 900, 1000]⟩, []⟩

/-- A scripted board on which every register reads 0 (all slots free). -/
def c7Board : World Script :=
  ⟨⟨[], [10, 500, 900, 1000]⟩, []⟩

/-- A scripted board on which all three slots read busy in three successive scans, read at
1010, 2010 and 3010 microseconds, the loop having started at 10. -/
def c10Board : World Script :=
  ⟨⟨answer 8 ++ answer 8 ++ answer 8 ++ answer 8 ++ answer 8 ++ answer 8
      ++ answer 8 ++ answer 8 ++ answer 8, [10, 1010, 2010, 3010]⟩, []⟩

/-- Register contents with receive slot 0 holding: control register 0x60 = `ctrl`,
identifier registers 0x61..0x64 = `ids`, DLC register 0x65 = `dlc`, payload registers from
0x66 = `payload`; every other register 0. -/
def rxSlot0 (ctrl : Nat) (ids : List Nat) (dlc : Nat) (payload : List Nat) : Nat → Nat :=
  fun a =>
    if a = 0x60 then ctrl
    else if 0x61 ≤ a ∧ a < 0x65 then ids.getD (a - 0x61) 0
    else if a = 0x65 then dlc
    else if 0x66 ≤ a then payload.getD (a - 0x66) 0
    else 0

/-- A scripted board on which every register reads 0 and the clock reads 10 at the start of
the free-slot polling and 2600 after the first scan. -/
def c11Board : World Script :=
  ⟨⟨[], [10, 2600]⟩, []⟩

/-- A scripted board on which every register reads 0; the clock reads 10 and 20 around the
first scan, 30 at the send request and 2600 after the first completion poll. -/
def c12Board : World Script :=
  ⟨⟨[], [10, 20, 30, 2600]⟩, []⟩

/-- A scripted board for the mode request: the status register reads 0 twice while Config
(0x80) is requested; the millisecond clock reads 1000 at the start, then 1300, then 1460. -/
def c14Board : World Script :=
  ⟨⟨[0, 0, 0, 0] ++ answer 0 ++ [0, 0, 0, 0] ++ answer 0, [1000, 1300, 1460]⟩, []⟩

/-- Register contents of a controller in Sleep mode (status register 0x0E = 0x20) with the
wake interrupt disabled (0x2B = 0) and no interrupt pending; the register file never leaves
Sleep. -/
def sleepRegs : Nat → Nat :=
  fun a => if a = 0x0E then 0x20 else 0

/-- A scripted board with the controller in Config mode (status 0x80, as after reset): the
request for Config matches at once, and the later request for Normal is answered with
status 0x00. -/
def c19Board : World Script :=
  ⟨⟨answer 0x80 ++ [0, 0, 0, 0] ++ [0, 0, 0, 0] ++ answer 0x80 ++ List.replicate 12 0
      ++ answer 0x80 ++ [0, 0, 0, 0] ++ [0, 0, 0, 0] ++ answer 0x00, [5, 6]⟩, []⟩

/-- A scripted board for the initialization: the controller is in Config mode (status 0x80)
and the final mode request is answered with status 0x00. -/
def c26Board : World Script :=
  ⟨⟨answer 0x80 ++ List.replicate 8 0 ++ answer 0x80 ++ List.replicate 206 0 ++ answer 0x80
      ++ List.replicate 8 0 ++ answer 0, [5, 6]⟩, []⟩

/-- A scripted board with the controller in Sleep (status 0x20) and the wake-enable bit clear
(register 0x2B reads 0); the intermediate ListenOnly request is answered with status 0x60 at
its first readback. -/
def c16Board : World Script :=
  ⟨⟨answer 0x20 ++ answer 0x00 ++ [0, 0, 0, 0] ++ [0, 0, 0, 0] ++ [0, 0, 0, 0] ++ answer 0x60
      ++ [0, 0, 0, 0] ++ [0, 0, 0, 0], [5]⟩, []⟩

/-! # Proofs -/

/-! ## Bit arithmetic -/

theorem land_low (x m k : Nat) (h : m < 2 ^ k) : x &&& m = x % 2 ^ k &&& m := by
  apply Nat.eq_of_testBit_eq
  intro i
  rw [Nat.testBit_and, Nat.testBit_and, Nat.testBit_mod_two_pow]
  by_cases hi : i < k
  · simp [hi]
  · have hm : m.testBit i = false := by
      apply Nat.testBit_lt_two_pow
      exact lt_of_lt_of_le h (Nat.pow_le_pow_right (by decide) (Nat.le_of_not_lt hi))
    simp [hm]

theorem land_65535 (x : Nat) : x &&& 65535 = x % 65536 := Nat.and_pow_two_sub_one_eq_mod x 16

theorem land_255 (x : Nat) : x &&& 255 = x % 256 := Nat.and_pow_two_sub_one_eq_mod x 8

theorem land_7 (x : Nat) : x &&& 7 = x % 8 := Nat.and_pow_two_sub_one_eq_mod x 3

/-- What the extended branch of `_writeIDs` stores in `tbufdata[1]`, as a function of the low
five bits `r` of the high half of the identifier. -/
theorem sidl_ext_facts : ∀ r, r < 32 →
    ((((r &&& 3) % 256 + ((r &&& 28) <<< 3) % 256) % 256 ||| 8) >>> 5 = r / 4
    ∧ (((r &&& 3) % 256 + ((r &&& 28) <<< 3) % 256) % 256 ||| 8) &&& 8 = 8
    ∧ (((r &&& 3) % 256 + ((r &&& 28) <<< 3) % 256) % 256 ||| 8) &&& 3 = r % 4
    ∧ (((r &&& 3) % 256 + ((r &&& 28) <<< 3) % 256) % 256 ||| 8) < 256
    ∧ (((r &&& 3) % 256 + ((r &&& 28) <<< 3) % 256) % 256 ||| 8)
        = ((r &&& 28) <<< 3) ||| (r &&& 3) ||| 8) := by
  decide

theorem sidl_std_facts : ∀ r, r < 8 →
    (((r <<< 5) % 256) >>> 5 = r ∧ ((r <<< 5) % 256) &&& 8 = 0 ∧ (r <<< 5) % 256 = r <<< 5) := by
  decide

/-! ## The codec -/

theorem tbufdata_ext (ext id : Nat) (he : ext % 256 = 1) :
    arrTake (_writeIDs_tbufdata ext id) 4
      = [((id % 2 ^ 32) >>> 16 % 65536) >>> 5 % 256,
         (((id % 2 ^ 32) >>> 16 % 65536 &&& 3) % 256
            + (((id % 2 ^ 32) >>> 16 % 65536 &&& 28) <<< 3) % 256) % 256 ||| 8,
         ((id % 2 ^ 32 &&& 65535) % 65536) >>> 8 % 256,
         ((id % 2 ^ 32 &&& 65535) % 65536 &&& 255) % 256] := by
  simp [_writeIDs_tbufdata, arrTake, arrSet, he, List.range_succ, MCP_TXB_EXIDE_M]

theorem tbufdata_std (ext id : Nat) (he : ext % 256 ≠ 1) :
    arrTake (_writeIDs_tbufdata ext id) 4
      = [((id % 2 ^ 32 &&& 65535) % 65536) >>> 3 % 256,
         (((id % 2 ^ 32 &&& 65535) % 65536 &&& 7) <<< 5) % 256, 0, 0] := by
  simp [_writeIDs_tbufdata, arrTake, arrSet, he, List.range_succ]

theorem arrTake_four (a : Nat → Nat) : arrTake a 4 = [a 0, a 1, a 2, a 3] := by
  simp [arrTake, List.range_succ]

theorem tbufdata_lt (ext id i : Nat) (hi : i < 4) : _writeIDs_tbufdata ext id i < 256 := by
  have hmem : _writeIDs_tbufdata ext id i ∈ arrTake (_writeIDs_tbufdata ext id) 4 := by
    simp only [arrTake, List.mem_map, List.mem_range]
    exact ⟨i, hi, rfl⟩
  by_cases he : ext % 256 = 1
  · rw [tbufdata_ext ext id he] at hmem
    simp only [List.mem_cons, List.mem_singleton, List.not_mem_nil, or_false] at hmem
    rcases hmem with h | h | h | h
    · rw [h]; exact Nat.mod_lt _ (by decide)
    · rw [h]
      exact Nat.or_lt_two_pow (n := 8) (Nat.mod_lt _ (by decide)) (by decide)
    · rw [h]; exact Nat.mod_lt _ (by decide)
    · rw [h]; exact Nat.mod_lt _ (by decide)
  · rw [tbufdata_std ext id he] at hmem
    simp only [List.mem_cons, List.mem_singleton, List.not_mem_nil, or_false] at hmem
    rcases hmem with h | h | h | h
    · rw [h]; exact Nat.mod_lt _ (by decide)
    · rw [h]; exact Nat.mod_lt _ (by decide)
    · rw [h]; decide
    · rw [h]; decide

theorem tbufdata_mod (ext id : Nat) :
    (arrTake (_writeIDs_tbufdata ext id) 4).map (· % 256) = arrTake (_writeIDs_tbufdata ext id) 4 := by
  simp only [arrTake_four, List.map_cons, List.map_nil]
  rw [Nat.mod_eq_of_lt (tbufdata_lt ext id 0 (by decide)),
    Nat.mod_eq_of_lt (tbufdata_lt ext id 1 (by decide)),
    Nat.mod_eq_of_lt (tbufdata_lt ext id 2 (by decide)),
    Nat.mod_eq_of_lt (tbufdata_lt ext id 3 (by decide))]

theorem decode_congr (t t' : Nat → Nat) (h : ∀ i, i < 4 → t i = t' i) :
    _readIDs_decode t = _readIDs_decode t' := by
  simp only [_readIDs_decode, h 0 (by decide), h 1 (by decide), h 2 (by decide), h 3 (by decide)]

theorem roundtrip_ext (id : Nat) (h : id < 2 ^ 29) :
    _readIDs_decode (_writeIDs_tbufdata 1 id) = (1, id) := by
  have h32 : id % 2 ^ 32 = id := Nat.mod_eq_of_lt (by omega)
  simp only [_writeIDs_tbufdata, _readIDs_decode, MCP_TXB_EXIDE_M, h32]
  simp only [Nat.reduceMod, if_true, Nat.reducePow, MCP2515.arrSet,
    Nat.reduceEqDiff, OfNat.ofNat_ne_zero, OfNat.zero_ne_ofNat, Nat.succ_ne_self, if_false]
  generalize hc : id >>> 16 % 65536 = c
  have hc' : c = id / 65536 := by
    rw [← hc, Nat.shiftRight_eq_div_pow]; omega
  obtain ⟨h1, h2, h3, _, _⟩ := sidl_ext_facts (c % 32) (Nat.mod_lt _ (by decide))
  rw [land_low c 3 5 (by decide), land_low c 28 5 (by decide)]
  simp only [Nat.reducePow]
  rw [h2, h1, h3]
  simp only [if_true, Nat.shiftRight_eq_div_pow, Nat.shiftLeft_eq, land_65535, land_255,
    Nat.reducePow]
  congr 1
  omega

theorem roundtrip_std (id : Nat) (h : id ≤ 2047) :
    _readIDs_decode (_writeIDs_tbufdata 0 id) = (0, id) := by
  have h32 : id % 2 ^ 32 = id := Nat.mod_eq_of_lt (by omega)
  simp only [_writeIDs_tbufdata, _readIDs_decode, MCP_TXB_EXIDE_M, h32]
  simp only [Nat.reduceMod, if_true, Nat.reducePow, MCP2515.arrSet,
    Nat.reduceEqDiff, OfNat.ofNat_ne_zero, OfNat.zero_ne_ofNat, Nat.succ_ne_self, if_false]
  generalize hc : (id &&& 65535) % 65536 = c
  have hc' : c = id := by
    rw [← hc, land_65535]; omega
  obtain ⟨h1, h2, _⟩ := sidl_std_facts (c % 8) (Nat.mod_lt _ (by decide))
  rw [land_7, h2, h1]
  simp only [Nat.shiftRight_eq_div_pow, Nat.shiftLeft_eq, Nat.reducePow]
  simp only [show (0 : Nat) = 8 ↔ False from by decide, if_false]
  congr 1
  omega

theorem roundtrip (ext id : Nat) (h : (ext = 0 ∧ id ≤ 2047) ∨ (ext = 1 ∧ id < 2 ^ 29)) :
    _readIDs_decode (_writeIDs_tbufdata ext id) = (ext, id) := by
  rcases h with ⟨he, hid⟩ | ⟨he, hid⟩
  · subst he; exact roundtrip_std id hid
  · subst he; exact roundtrip_ext id hid

theorem layout_std (id : Nat) (h : id ≤ 2047) :
    arrTake (_writeIDs_tbufdata 0 id) 4 = specLayout false id := by
  rw [tbufdata_std 0 id (by decide)]
  have h32 : id % 2 ^ 32 = id := Nat.mod_eq_of_lt (by omega)
  have hc : (id &&& 65535) % 65536 = id := by rw [land_65535]; omega
  obtain ⟨_, _, h3⟩ := sidl_std_facts (id % 8) (Nat.mod_lt _ (by decide))
  simp only [specLayout, h32, hc, land_7, h3, Bool.false_eq_true, if_false]
  congr 1
  rw [Nat.shiftRight_eq_div_pow]
  omega

theorem layout_ext (id : Nat) (h : id < 2 ^ 29) :
    arrTake (_writeIDs_tbufdata 1 id) 4 = specLayout true id := by
  rw [tbufdata_ext 1 id (by decide)]
  have h32 : id % 2 ^ 32 = id := Nat.mod_eq_of_lt (by omega)
  have hc : id >>> 16 % 65536 = id >>> 16 := by
    rw [Nat.shiftRight_eq_div_pow]; omega
  obtain ⟨_, _, _, _, h5⟩ := sidl_ext_facts (id >>> 16 % 32) (Nat.mod_lt _ (by decide))
  simp only [specLayout, h32, hc, if_true]
  rw [land_low (id >>> 16) 3 5 (by decide), land_low (id >>> 16) 28 5 (by decide)]
  simp only [Nat.reducePow]
  rw [h5]
  simp only [land_65535, land_255, Nat.shiftRight_eq_div_pow, Nat.reducePow]
  congr 1
  · omega
  · congr 1
    congr 1
    · omega
    · congr 1; omega

/-! ## Bus traffic of the register transport -/

theorem micros_bus (hw : Hw σ) (w : World σ) : (micros hw w).2.bus = w.bus := rfl

theorem __readRegister_bus (hw : Hw σ) (w : World σ) (a : Nat) :
    (__readRegister hw w a).2.bus = w.bus ++ busRead (a % 256) := by
  simp [__readRegister, __spi_select, __spi_unSelect, __spi_readWrite, __spi_read, busRead, frame,
    CMD_READ]

theorem __writeRegister_bus (hw : Hw σ) (w : World σ) (a v : Nat) :
    (__writeRegister hw w a v).bus = w.bus ++ busWrite (a % 256) (v % 256) := by
  simp [__writeRegister, __spi_select, __spi_unSelect, __spi_readWrite, busWrite, frame, CMD_WRITE]

theorem __bitModify_bus (hw : Hw σ) (w : World σ) (a m v : Nat) :
    (__bitModify hw w a m v).bus = w.bus ++ busBitModify (a % 256) (m % 256) (v % 256) := by
  simp [__bitModify, __spi_select, __spi_unSelect, __spi_readWrite, busBitModify, frame,
    CMD_BITMODIF]

theorem _readStatus_bus (hw : Hw σ) (w : World σ) :
    (_readStatus hw w).2.bus = w.bus ++ busStatus := by
  simp [_readStatus, __spi_select, __spi_unSelect, __spi_readWrite, __spi_read, busStatus, frame,
    CMD_READ_STATUS]

theorem __readRegisters_for_bus (hw : Hw σ) (k : Nat) : ∀ (i : Nat) (w : World σ) (values : Nat → Nat),
    (__readRegisters_for hw k i w values).2.bus = w.bus ++ List.replicate k (Ev.mosi 0) := by
  induction k with
  | zero => intro i w values; simp [__readRegisters_for]
  | succ k ih =>
    intro i w values
    simp [__readRegisters_for, ih, __spi_read, __spi_readWrite, List.replicate_succ]

theorem __readRegisters_bus (hw : Hw σ) (w : World σ) (a : Nat) (values : Nat → Nat) (n : Nat) :
    (__readRegisters hw w a values n).2.bus = w.bus ++ busReadN (a % 256) (n % 256) := by
  simp [__readRegisters, __readRegisters_for_bus, __spi_select, __spi_unSelect, __spi_readWrite,
    busReadN, frame, CMD_READ]

theorem __writeRegisters_for_bus (hw : Hw σ) (values : Nat → Nat) (k : Nat) : ∀ (i : Nat) (w : World σ),
    (__writeRegisters_for hw k i w values).bus
      = w.bus ++ (List.range k).map (fun j => Ev.mosi (values (i + j) % 256)) := by
  induction k with
  | zero => intro i w; simp [__writeRegisters_for]
  | succ k ih =>
    intro i w
    simp [__writeRegisters_for, ih, __spi_readWrite, List.range_succ_eq_map, Function.comp_def]
    intro a _
    congr 2
    omega

theorem __writeRegisters_bus (hw : Hw σ) (w : World σ) (a : Nat) (values : Nat → Nat) (n : Nat) :
    (__writeRegisters hw w a values n).bus
      = w.bus ++ busWriteN (a % 256) ((arrTake values (n % 256)).map (· % 256)) := by
  simp [__writeRegisters, __writeRegisters_for_bus, __spi_select, __spi_unSelect, __spi_readWrite,
    busWriteN, frame, CMD_WRITE, arrTake, Function.comp_def]

/-! ## The free-slot scan -/

theorem scanReads_bus (hw : Hw σ) (w : World σ) : (scanReads hw w).2.bus = w.bus ++ scanFrames := by
  simp [scanReads, scanFrames, __readRegister_bus, CTR_TXB0CTRL, CTR_TXB1CTRL, CTR_TXB2CTRL]

theorem scanReads_length (hw : Hw σ) (w : World σ) : (scanReads hw w).1.length = 3 := rfl

theorem getNextFreeTXBuf_world (hw : Hw σ) (w : World σ) :
    (getNextFreeTXBuf hw w).2.2 = (scanReads hw w).2 := by
  simp only [getNextFreeTXBuf, getNextFreeTXBuf_for, scanReads]
  split_ifs <;> rfl

theorem getNextFreeTXBuf_busy (hw : Hw σ) (w : World σ)
    (h : ∀ v ∈ (scanReads hw w).1, v &&& 0x08 ≠ 0) :
    (getNextFreeTXBuf hw w).1 = RSPN_ALLTXBUSSY ∧ (getNextFreeTXBuf hw w).2.1 = 0 := by
  simp only [scanReads, List.mem_cons, List.mem_singleton, List.not_mem_nil, or_false,
    forall_eq_or_imp, forall_eq] at h
  obtain ⟨h0, h1, h2⟩ := h
  simp only [getNextFreeTXBuf, getNextFreeTXBuf_for, TXB_TXREQ_M]
  rw [if_neg h0, if_neg h1, if_neg h2]
  exact ⟨rfl, rfl⟩

theorem getNextFreeTXBuf_free (hw : Hw σ) (w : World σ) (i : Nat) (hi : i < 3)
    (hfree : (scanReads hw w).1.getD i 0 &&& 0x08 = 0)
    (hbusy : ∀ j, i < j → j < 3 → (scanReads hw w).1.getD j 0 &&& 0x08 ≠ 0) :
    (getNextFreeTXBuf hw w).1 = RSPN_OK ∧ (getNextFreeTXBuf hw w).2.1 = 0x30 + 0x10 * i + 1 := by
  simp only [getNextFreeTXBuf, getNextFreeTXBuf_for, TXB_TXREQ_M, CTR_TXB0CTRL, CTR_TXB1CTRL,
    CTR_TXB2CTRL]
  have hi' : i = 0 ∨ i = 1 ∨ i = 2 := by omega
  rcases hi' with rfl | rfl | rfl
  · have h1 := hbusy 1 (by decide) (by decide)
    have h2 := hbusy 2 (by decide) (by decide)
    simp only [scanReads, List.getD_cons_zero, List.getD_cons_succ, CTR_TXB0CTRL, CTR_TXB1CTRL,
      CTR_TXB2CTRL] at hfree h1 h2
    rw [if_pos hfree, if_neg h1, if_neg h2]
    exact ⟨rfl, rfl⟩
  · have h2 := hbusy 2 (by decide) (by decide)
    simp only [scanReads, List.getD_cons_zero, List.getD_cons_succ, CTR_TXB0CTRL, CTR_TXB1CTRL,
      CTR_TXB2CTRL] at hfree h2
    split_ifs <;> exact ⟨rfl, rfl⟩
  · simp only [scanReads, List.getD_cons_zero, List.getD_cons_succ, CTR_TXB0CTRL, CTR_TXB1CTRL,
      CTR_TXB2CTRL] at hfree
    split_ifs <;> exact ⟨rfl, rfl⟩

/-! ## The polling loops -/

theorem waitFreeTXBuf_skip (hw : Hw σ) (temp fuel : Nat) :
    ∀ (k : Nat) (w wk : World σ), afterBusyScans hw temp k w = some wk →
      waitFreeTXBuf hw temp (k + fuel) w = waitFreeTXBuf hw temp fuel wk := by
  intro k
  induction k with
  | zero =>
    intro w wk h
    simp only [afterBusyScans, Option.some.injEq] at h
    subst h
    simp
  | succ k ih =>
    intro w wk h
    simp only [afterBusyScans] at h
    split_ifs at h with hc
    have hb := getNextFreeTXBuf_busy hw w hc.1
    have hw' := getNextFreeTXBuf_world hw w
    rw [show k + 1 + fuel = (k + fuel) + 1 from by omega]
    simp only [waitFreeTXBuf, hb.1, hw', hc.2, and_self, if_true]
    exact ih _ _ h

theorem afterBusyScans_bus (hw : Hw σ) (temp : Nat) :
    ∀ (k : Nat) (w wk : World σ), afterBusyScans hw temp k w = some wk →
      wk.bus = w.bus ++ (List.replicate k scanFrames).flatten := by
  intro k
  induction k with
  | zero =>
    intro w wk h
    simp only [afterBusyScans, Option.some.injEq] at h
    subst h
    simp
  | succ k ih =>
    intro w wk h
    simp only [afterBusyScans] at h
    split_ifs at h with hc
    rw [ih _ _ h, micros_bus, scanReads_bus]
    simp [List.replicate_succ]

/-- The free-slot loop leaves at the first scan that is not "all busy and in time". -/
theorem waitFreeTXBuf_leave (hw : Hw σ) (temp fuel : Nat) (w : World σ)
    (h : ¬ ((getNextFreeTXBuf hw w).1 = RSPN_ALLTXBUSSY
          ∧ u32sub (micros hw (scanReads hw w).2).1 temp < 2500)) :
    waitFreeTXBuf hw temp (fuel + 1) w
      = (some ((getNextFreeTXBuf hw w).1, (getNextFreeTXBuf hw w).2.1,
          u32sub (micros hw (scanReads hw w).2).1 temp), (micros hw (scanReads hw w).2).2) := by
  simp only [waitFreeTXBuf, getNextFreeTXBuf_world]
  rw [if_neg h]

theorem waitSent_bus (hw : Hw σ) (txbuf_n temp : Nat) :
    ∀ (fuel : Nat) (w : World σ), w.bus <+: (waitSent hw txbuf_n temp fuel w).2.bus := by
  intro fuel
  induction fuel with
  | zero => intro w; exact List.prefix_refl _
  | succ fuel ih =>
    intro w
    simp only [waitSent]
    split_ifs
    · refine List.IsPrefix.trans ?_ (ih _)
      rw [micros_bus, __readRegister_bus]
      exact List.prefix_append _ _
    · rw [micros_bus, __readRegister_bus]
      exact List.prefix_append _ _

/-! ## Loading the slot -/

theorem copy_for_apply : ∀ (k i : Nat) (dst src : Nat → Nat) (j : Nat),
    copy_for k i dst src j = if i ≤ j ∧ j < i + k then src j else dst j := by
  intro k
  induction k with
  | zero =>
    intro i dst src j
    rw [if_neg (by omega)]
    rfl
  | succ k ih =>
    intro i dst src j
    simp only [copy_for, ih, arrSet]
    by_cases h1 : i + 1 ≤ j ∧ j < i + 1 + k
    · rw [if_pos h1, if_pos (by omega)]
    · rw [if_neg h1]
      by_cases h2 : j = i
      · rw [if_pos h2, if_pos (by omega), h2]
      · rw [if_neg h2, if_neg (by omega)]

theorem arrTake_copy_for (k : Nat) (dst src : Nat → Nat) :
    arrTake (copy_for k 0 dst src) k = arrTake src k := by
  simp only [arrTake]
  apply List.map_congr_left
  intro j hj
  rw [List.mem_range] at hj
  rw [copy_for_apply, if_pos (by omega)]

theorem setMsg_dlc (d : Drv) (id ext len : Nat) (buf : Nat → Nat) :
    (setMsg d id ext len buf).m_nDlc = min (len % 256) 8 := by
  simp only [setMsg]
  split_ifs with h
  · simp only [] at h ⊢; omega
  · simp only [] at h ⊢; omega

theorem setMsg_payload (d : Drv) (id ext len : Nat) (buf : Nat → Nat) :
    arrTake (setMsg d id ext len buf).m_nDta (min (len % 256) 8) = arrTake buf (min (len % 256) 8) := by
  have h := setMsg_dlc d id ext len buf
  simp only [setMsg] at h ⊢
  split_ifs at h ⊢ with hc
  · simp only [] at h ⊢
    rw [← h]; exact arrTake_copy_for _ _ _
  · simp only [] at h ⊢
    rw [← h]; exact arrTake_copy_for _ _ _

theorem setMsg_fields (d : Drv) (id ext len : Nat) (buf : Nat → Nat) :
    (setMsg d id ext len buf).m_nRtr = 0 ∧ (setMsg d id ext len buf).m_nExtFlg = ext % 256
      ∧ (setMsg d id ext len buf).m_nID = id % 2 ^ 32 := by
  simp only [setMsg]
  split_ifs <;> exact ⟨rfl, rfl, rfl⟩

theorem tbufdata_trunc (ext id : Nat) :
    _writeIDs_tbufdata (ext % 256) (id % 2 ^ 32) = _writeIDs_tbufdata ext id := by
  simp [_writeIDs_tbufdata]

theorem write_canMsg_bus (hw : Hw σ) (d : Drv) (w : World σ) (c : Nat) (hc : c + 6 < 256)
    (hrtr : d.m_nRtr = 0) (hdlc : d.m_nDlc ≤ 8) :
    (write_canMsg hw d w (c + 1)).2.bus
      = w.bus ++ loadFrames c ((arrTake d.m_nDta d.m_nDlc).map (· % 256)) d.m_nDlc
          (arrTake (_writeIDs_tbufdata d.m_nExtFlg d.m_nID) 4) := by
  have h1 : (c + 1 + 5) % 256 = c + 6 := by omega
  have h2 : (c + 1 + 4) % 256 = c + 5 := by omega
  have h3 : (c + 1 + 255) % 256 = c := by omega
  have h4 : (c + 1) % 256 = c + 1 := by omega
  have h5 : d.m_nDlc % 256 = d.m_nDlc := by omega
  have h6 : c % 256 = c := by omega
  simp only [write_canMsg, _writeIDs, hrtr, __bitModify_bus, __writeRegisters_bus,
    __writeRegister_bus, loadFrames, h1, h2, h3, h4, h5, h6, TXB_TXREQ_M, tbufdata_mod]
  simp [h5, h6, tbufdata_mod]

/-! ## `writeData` after the free-slot loop -/

theorem getNextFreeTXBuf_cases (hw : Hw σ) (w : World σ) :
    (getNextFreeTXBuf hw w).1 = RSPN_ALLTXBUSSY
      ∨ (getNextFreeTXBuf hw w).2.1 = 0x31 ∨ (getNextFreeTXBuf hw w).2.1 = 0x41
      ∨ (getNextFreeTXBuf hw w).2.1 = 0x51 := by
  simp only [getNextFreeTXBuf, getNextFreeTXBuf_for, CTR_TXB0CTRL, CTR_TXB1CTRL, CTR_TXB2CTRL]
  split_ifs <;> simp

theorem waitFreeTXBuf_slot (hw : Hw σ) (temp : Nat) :
    ∀ (fuel : Nat) (w : World σ) (res n t : Nat),
      (waitFreeTXBuf hw temp fuel w).1 = some (res, n, t) → t < 2500 →
      n = 0x31 ∨ n = 0x41 ∨ n = 0x51 := by
  intro fuel
  induction fuel with
  | zero => intro w res n t h; simp [waitFreeTXBuf] at h
  | succ fuel ih =>
    intro w res n t h ht
    simp only [waitFreeTXBuf] at h
    split_ifs at h with hc
    · exact ih _ _ _ _ h ht
    · simp only [Option.some.injEq, Prod.mk.injEq] at h
      obtain ⟨h1, h2, h3⟩ := h
      rw [h3] at hc
      have hres : (getNextFreeTXBuf hw w).1 ≠ RSPN_ALLTXBUSSY := fun hb => hc ⟨hb, ht⟩
      rcases getNextFreeTXBuf_cases hw w with hb | hn
      · exact absurd hb hres
      · rw [h2] at hn; exact hn

/-- When the free-slot loop is left in time with slot address `n`, `writeData` goes on to
load the staged frame into that slot. -/
theorem writeData_load (hw : Hw σ) (fuel : Nat) (d : Drv) (w : World σ) (id ext len : Nat)
    (buf : Nat → Nat) (res n t : Nat) (hE : d.canError = 0)
    (hp : (waitFreeTXBuf hw (micros hw w).1 fuel (micros hw w).2).1 = some (res, n, t))
    (ht : t < 2500) :
    ((waitFreeTXBuf hw (micros hw w).1 fuel (micros hw w).2).2.bus
        ++ loadFrames (n - 1) ((arrTake buf (min (len % 256) 8)).map (· % 256))
            (min (len % 256) 8) (arrTake (_writeIDs_tbufdata ext id) 4))
      <+: (writeData hw fuel d w id ext len buf).2.2.bus := by
  have hn := waitFreeTXBuf_slot hw _ fuel _ res n t hp ht
  obtain ⟨c, hcn, hc⟩ : ∃ c, n = c + 1 ∧ c + 6 < 256 := ⟨n - 1, by omega, by omega⟩
  subst hcn
  obtain ⟨hr, he, hi⟩ := setMsg_fields d id ext len buf
  have hl := write_canMsg_bus hw (setMsg d id ext len buf)
    (waitFreeTXBuf hw (micros hw w).1 fuel (micros hw w).2).2 c hc hr
    (by rw [setMsg_dlc]; omega)
  rw [setMsg_dlc, setMsg_payload, he, hi, tbufdata_trunc] at hl
  simp only [writeData]
  rw [if_neg (by simp [hE])]
  simp only [hp]
  rw [if_neg (by omega)]
  simp only [Nat.add_sub_cancel]
  rw [← hl]
  have hs := waitSent_bus hw (c + 1)
    (micros hw (write_canMsg hw (setMsg d id ext len buf)
      (waitFreeTXBuf hw (micros hw w).1 fuel (micros hw w).2).2 (c + 1)).2).1 fuel
    (micros hw (write_canMsg hw (setMsg d id ext len buf)
      (waitFreeTXBuf hw (micros hw w).1 fuel (micros hw w).2).2 (c + 1)).2).2
  rw [micros_bus] at hs
  split
  · exact hs
  · split_ifs <;> exact hs

/-- When the free-slot loop is left with 2500 microseconds or more elapsed, `writeData`
returns `RSPN_GETTXBFTIMEOUT` at once. -/
theorem writeData_timeout (hw : Hw σ) (fuel : Nat) (d : Drv) (w : World σ) (id ext len : Nat)
    (buf : Nat → Nat) (res n t : Nat) (hE : d.canError = 0)
    (hp : (waitFreeTXBuf hw (micros hw w).1 fuel (micros hw w).2).1 = some (res, n, t))
    (ht : 2500 ≤ t) :
    writeData hw fuel d w id ext len buf
      = (some RSPN_GETTXBFTIMEOUT, setMsg d id ext len buf,
          (waitFreeTXBuf hw (micros hw w).1 fuel (micros hw w).2).2) := by
  simp only [writeData]
  rw [if_neg (by simp [hE])]
  simp only [hp]
  rw [if_pos ht]

/-- The free-slot loop, started `k` all-busy in-time scans before a scan that finds the
highest free slot `i` in time. -/
theorem waitFreeTXBuf_found (hw : Hw σ) (temp fuel k i : Nat) (w wk : World σ)
    (hk : afterBusyScans hw temp k w = some wk) (hfuel : k < fuel) (hi : i < 3)
    (hfree : (scanReads hw wk).1.getD i 0 &&& 0x08 = 0)
    (hbusy : ∀ j, i < j → j < 3 → (scanReads hw wk).1.getD j 0 &&& 0x08 ≠ 0) :
    waitFreeTXBuf hw temp fuel w
      = (some (RSPN_OK, 0x30 + 0x10 * i + 1, u32sub (micros hw (scanReads hw wk).2).1 temp),
          (micros hw (scanReads hw wk).2).2) := by
  obtain ⟨f, rfl⟩ : ∃ f, fuel = k + (f + 1) := ⟨fuel - k - 1, by omega⟩
  rw [waitFreeTXBuf_skip hw temp (f + 1) k w wk hk]
  obtain ⟨hres, hn⟩ := getNextFreeTXBuf_free hw wk i hi hfree hbusy
  rw [waitFreeTXBuf_leave hw temp f wk (by rw [hres]; simp [RSPN_OK, RSPN_ALLTXBUSSY]), hres, hn]

/-! ## The register-file controller -/

theorem simHw_transfer (s : Sim) (data : Nat) : simHw.transfer s data = Sim.transfer s data :=
  rfl

theorem simHw_digitalWrite (s : Sim) (high : Bool) :
    simHw.digitalWrite s high = { s with selected := !high, rx := [] } := rfl

theorem sim_readRegister (s : Sim) (b : List Ev) (a : Nat) (hs : s.selected = false)
    (hrx : s.rx = []) :
    __readRegister simHw ⟨s, b⟩ a = (s.regs (a % 256) % 256, ⟨s, b ++ busRead (a % 256)⟩) := by
  cases s
  simp only at hs hrx
  subst hs hrx
  simp [__readRegister, __spi_select, __spi_unSelect, __spi_read, __spi_readWrite, simHw_transfer, simHw_digitalWrite,
    Sim.transfer, busRead, frame, CMD_READ, CMD_READ_STATUS]

theorem sim_readStatus (s : Sim) (b : List Ev) (hs : s.selected = false) (hrx : s.rx = []) :
    _readStatus simHw ⟨s, b⟩ = (s.status % 256, ⟨s, b ++ busStatus⟩) := by
  cases s
  simp only at hs hrx
  subst hs hrx
  simp [_readStatus, __spi_select, __spi_unSelect, __spi_read, __spi_readWrite, simHw_transfer, simHw_digitalWrite,
    Sim.transfer, busStatus, frame, CMD_READ_STATUS]

theorem sim_bitModify_regs (s : Sim) (b : List Ev) (a m v : Nat) (hs : s.selected = false)
    (hrx : s.rx = []) :
    (__bitModify simHw ⟨s, b⟩ a m v).board
      = { s with
          regs := arrSet s.regs (a % 256)
                    ((s.regs (a % 256) &&& (255 ^^^ (m % 256))) ||| (v % 256 &&& m % 256)) } := by
  cases s
  simp only at hs hrx
  subst hs hrx
  simp [__bitModify, __spi_select, __spi_unSelect, __spi_readWrite, simHw_transfer, simHw_digitalWrite,
    Sim.transfer, CMD_BITMODIF, CMD_READ_STATUS, CMD_READ, CMD_WRITE]

theorem sim_readRegisters_for (regs : Nat → Nat) (status clock tick a : Nat) :
    ∀ (k i : Nat) (rest : List Nat) (b : List Ev) (values : Nat → Nat),
      __readRegisters_for simHw k i
          ⟨⟨regs, status, clock, tick, true, CMD_READ :: a :: rest⟩, b⟩ values
        = (fun j => if i ≤ j ∧ j < i + k then regs (a + rest.length + (j - i)) % 256
                    else values j,
            ⟨⟨regs, status, clock, tick, true, CMD_READ :: a :: (rest ++ List.replicate k 0)⟩,
              b ++ List.replicate k (Ev.mosi 0)⟩) := by
  intro k
  induction k with
  | zero =>
    intro i rest b values
    simp only [__readRegisters_for, List.replicate_zero, List.append_nil, Prod.mk.injEq, and_true]
    funext j
    rw [if_neg (by omega)]
  | succ k ih =>
    intro i rest b values
    simp only [__readRegisters_for, __spi_read, __spi_readWrite, simHw_transfer, Sim.transfer, if_true,
      Nat.zero_mod, List.cons_append]
    rw [ih]
    simp only [List.append_assoc, List.length_append, List.length_singleton,
      List.replicate_succ, List.singleton_append, Prod.mk.injEq, and_true]
    funext j
    simp only [arrSet]
    by_cases h1 : i + 1 ≤ j ∧ j < i + 1 + k
    · rw [if_pos h1, if_pos (by omega)]
      congr 2
      omega
    · rw [if_neg h1]
      by_cases h2 : j = i
      · rw [if_pos h2, if_pos (by omega), h2]
        simp
      · rw [if_neg h2, if_neg (by omega)]

theorem sim_readRegisters (s : Sim) (b : List Ev) (a n : Nat) (values : Nat → Nat)
    (hs : s.selected = false) (hrx : s.rx = []) :
    __readRegisters simHw ⟨s, b⟩ a values n
      = (fun j => if j < n % 256 then s.regs (a % 256 + j) % 256 else values j,
          ⟨s, b ++ busReadN (a % 256) (n % 256)⟩) := by
  cases s
  simp only at hs hrx
  subst hs hrx
  simp only [__readRegisters, __spi_select, __spi_unSelect, __spi_readWrite, simHw_transfer, simHw_digitalWrite, Sim.transfer,
    Bool.not_false, if_true, CMD_READ, CMD_READ_STATUS, Nat.reduceMod, Nat.reduceEqDiff,
    if_false]
  have h := sim_readRegisters_for
  simp only [CMD_READ] at h
  rw [h]
  simp [busReadN, frame, CMD_READ]

/-! ## Receive -/

theorem land_byte (x m : Nat) (h : m < 256) : x % 256 &&& m = x &&& m :=
  (land_low x m 8 h).symm

/-- Closed form of `_readReceivMsg`: the stored length is the DLC byte clamped to 8 (the
mask with `DLC_MASK` that follows the clamp changes nothing), and the remote-request flag
is bit 0x08 of the byte read from the register before SIDH. -/
theorem _readReceivMsg_eq (hw : Hw σ) (d : Drv) (w : World σ) (a : Nat) :
    _readReceivMsg hw d w a
      = ({ d with
            m_nExtFlg := (_readIDs hw w (a % 256)).1.1,
            m_nID := (_readIDs hw w (a % 256)).1.2,
            m_nDlc := min (__readRegister hw
              (__readRegister hw (_readIDs hw w (a % 256)).2 ((a % 256 + 255) % 256)).2
              ((a % 256 + 4) % 256)).1 8,
            m_nRtr :=
              if (__readRegister hw (_readIDs hw w (a % 256)).2
                    ((a % 256 + 255) % 256)).1 &&& 0x08 ≠ 0 then 1 else 0,
            m_nDta := (__readRegisters hw (__readRegister hw
              (__readRegister hw (_readIDs hw w (a % 256)).2 ((a % 256 + 255) % 256)).2
              ((a % 256 + 4) % 256)).2 ((a % 256 + 5) % 256) d.m_nDta
                (min (__readRegister hw
                  (__readRegister hw (_readIDs hw w (a % 256)).2 ((a % 256 + 255) % 256)).2
                  ((a % 256 + 4) % 256)).1 8)).1 },
          (__readRegisters hw (__readRegister hw
              (__readRegister hw (_readIDs hw w (a % 256)).2 ((a % 256 + 255) % 256)).2
              ((a % 256 + 4) % 256)).2 ((a % 256 + 5) % 256) d.m_nDta
                (min (__readRegister hw
                  (__readRegister hw (_readIDs hw w (a % 256)).2 ((a % 256 + 255) % 256)).2
                  ((a % 256 + 4) % 256)).1 8)).2) := by
  simp only [_readReceivMsg, DLC_MASK]
  generalize (__readRegister hw
    (__readRegister hw (_readIDs hw w (a % 256)).2 ((a % 256 + 255) % 256)).2
    ((a % 256 + 4) % 256)) = raw
  generalize (__readRegister hw (_readIDs hw w (a % 256)).2 ((a % 256 + 255) % 256)).1 = ctrl
  have hsmall : ∀ x, x ≤ 8 → x &&& 15 = x := by decide
  by_cases h : raw.1 > 8
  · have hm : min raw.1 8 = 8 := by omega
    rw [hm]
    by_cases h' : ctrl &&& 8 ≠ 0
    · simp only [h, h', if_true, ne_eq, not_false_eq_true, hsmall 8 (by decide)]
    · simp only [h, h', if_true, if_false, hsmall 8 (by decide)]
  · have hm : min raw.1 8 = raw.1 := by omega
    rw [hm]
    by_cases h' : ctrl &&& 8 ≠ 0
    · simp only [h, h', if_true, if_false, ne_eq, not_false_eq_true, hsmall raw.1 (by omega)]
    · simp only [h, h', if_false, hsmall raw.1 (by omega)]

theorem _readReceivMsg_bus (hw : Hw σ) (d : Drv) (w : World σ) (a : Nat) (h1 : 1 ≤ a)
    (h2 : a + 5 ≤ 255) :
    (_readReceivMsg hw d w a).2.bus
      = w.bus ++ busReadN a 4 ++ busRead (a - 1) ++ busRead (a + 4)
          ++ busReadN (a + 5) (_readReceivMsg hw d w a).1.m_nDlc := by
  have e0 : a % 256 = a := by omega
  have e1 : (a + 255) % 256 = a - 1 := by omega
  have e2 : (a + 4) % 256 = a + 4 := by omega
  have e3 : (a + 5) % 256 = a + 5 := by omega
  have e4 : (a - 1) % 256 = a - 1 := by omega
  rw [_readReceivMsg_eq]
  simp only [e0, e1, e2, e3]
  generalize (__readRegister hw (__readRegister hw (_readIDs hw w a).2 (a - 1)).2 (a + 4)).1
    = raw
  have e5 : min raw 8 % 256 = min raw 8 := by omega
  simp only [__readRegisters_bus, __readRegister_bus, _readIDs, e0, e2, e3, e4, e5, Nat.reduceMod,
    List.append_assoc]

/-- What `readData` does when the status byte has bit 0 set. -/
theorem readData_slot0 (hw : Hw σ) (d : Drv) (w : World σ) (args : RxArgs)
    (hE : d.canError = 0) (hstat : (_readStatus hw w).1 &&& 1 ≠ 0) :
    (readData hw d w args).1 = RSPN_OK
      ∧ (readData hw d w args).2.2.1
          = __bitModify hw (_readReceivMsg hw d (_readStatus hw w).2 CTR_RXB0SIDH).2
              CTR_CANINTF BIT_RX0IF 0
      ∧ (readData hw d w args).2.1.m_nDlc
          = (_readReceivMsg hw d (_readStatus hw w).2 CTR_RXB0SIDH).1.m_nDlc
      ∧ (readData hw d w args).2.2.2.len
          = (_readReceivMsg hw d (_readStatus hw w).2 CTR_RXB0SIDH).1.m_nDlc
      ∧ (readData hw d w args).2.2.2.id
          = (if (_readReceivMsg hw d (_readStatus hw w).2 CTR_RXB0SIDH).1.m_nRtr ≠ 0 then
              ((if (_readReceivMsg hw d (_readStatus hw w).2 CTR_RXB0SIDH).1.m_nExtFlg ≠ 0 then
                ((_readReceivMsg hw d (_readStatus hw w).2 CTR_RXB0SIDH).1.m_nID
                  ||| 0x80000000) % 2 ^ 32
                else (_readReceivMsg hw d (_readStatus hw w).2 CTR_RXB0SIDH).1.m_nID)
                ||| 0x40000000) % 2 ^ 32
             else
              (if (_readReceivMsg hw d (_readStatus hw w).2 CTR_RXB0SIDH).1.m_nExtFlg ≠ 0 then
                ((_readReceivMsg hw d (_readStatus hw w).2 CTR_RXB0SIDH).1.m_nID
                  ||| 0x80000000) % 2 ^ 32
                else (_readReceivMsg hw d (_readStatus hw w).2 CTR_RXB0SIDH).1.m_nID))
      ∧ arrTake (readData hw d w args).2.2.2.buf
            (_readReceivMsg hw d (_readStatus hw w).2 CTR_RXB0SIDH).1.m_nDlc
          = arrTake (_readReceivMsg hw d (_readStatus hw w).2 CTR_RXB0SIDH).1.m_nDta
              (_readReceivMsg hw d (_readStatus hw w).2 CTR_RXB0SIDH).1.m_nDlc := by
  have hstat' : (_readStatus hw w).1 &&& 1 <<< 0 ≠ 0 := hstat
  have hle : (_readReceivMsg hw d (_readStatus hw w).2 CTR_RXB0SIDH).1.m_nDlc ≤ 8 := by
    rw [_readReceivMsg_eq]; exact Nat.min_le_right _ _
  generalize hm : _readReceivMsg hw d (_readStatus hw w).2 CTR_RXB0SIDH = m at hle
  simp only [readData]
  rw [if_neg (by simp [hE]), if_pos hstat']
  simp only [hm]
  rw [if_neg (by decide)]
  rcases m with ⟨⟨e, i, l, dta, r, ce, om⟩, w'⟩
  simp only at hle
  have hnot : ¬ l > 8 := by omega
  by_cases hx : e ≠ 0
  · by_cases hr : r ≠ 0
    · simp only [if_pos hx, if_pos hr, if_neg hnot, true_and]
      exact arrTake_copy_for _ _ _
    · simp only [if_pos hx, if_neg hr, if_neg hnot, true_and]
      exact arrTake_copy_for _ _ _
  · by_cases hr : r ≠ 0
    · simp only [if_neg hx, if_pos hr, if_neg hnot, true_and]
      exact arrTake_copy_for _ _ _
    · simp only [if_neg hx, if_neg hr, if_neg hnot, true_and]
      exact arrTake_copy_for _ _ _

/-! ## Completion polling -/

theorem waitSent_skip (hw : Hw σ) (txbuf_n temp fuel : Nat) :
    ∀ (j : Nat) (w wj : World σ), afterBusyPolls hw txbuf_n temp j w = some wj →
      waitSent hw txbuf_n temp (j + fuel) w = waitSent hw txbuf_n temp fuel wj := by
  intro j
  induction j with
  | zero =>
    intro w wj h
    simp only [afterBusyPolls, Option.some.injEq] at h
    subst h
    simp
  | succ j ih =>
    intro w wj h
    simp only [afterBusyPolls, pollSent] at h
    split_ifs at h with hc
    rw [show j + 1 + fuel = (j + fuel) + 1 from by omega]
    simp only [waitSent]
    rw [if_pos hc]
    exact ih _ _ h

theorem waitSent_leave (hw : Hw σ) (txbuf_n temp fuel : Nat) (w : World σ)
    (h : ¬ ((pollSent hw txbuf_n temp w).1 &&& 0x08 ≠ 0 ∧ (pollSent hw txbuf_n temp w).2.1 < 2500)) :
    waitSent hw txbuf_n temp (fuel + 1) w
      = (some (pollSent hw txbuf_n temp w).2.1, (pollSent hw txbuf_n temp w).2.2) := by
  simp only [pollSent] at h
  simp only [waitSent, pollSent]
  rw [if_neg h]

/-- The value `writeData` returns once the slot is loaded: decided by the completion loop
alone. -/
theorem writeData_after_load (hw : Hw σ) (fuel : Nat) (d : Drv) (w : World σ) (id ext len : Nat)
    (buf : Nat → Nat) (res n t : Nat) (hE : d.canError = 0)
    (hp : (waitFreeTXBuf hw (micros hw w).1 fuel (micros hw w).2).1 = some (res, n, t))
    (ht : t < 2500) :
    (writeData hw fuel d w id ext len buf).1
      = (waitSent hw n (micros hw (sendRequested hw fuel d w id ext len buf n)).1 fuel
          (micros hw (sendRequested hw fuel d w id ext len buf n)).2).1.map
          (fun uiTimeOut => if uiTimeOut ≥ 2500 then RSPN_SENDMSGTIMEOUT else RSPN_OK) := by
  simp only [writeData, sendRequested]
  rw [if_neg (by simp [hE])]
  simp only [hp]
  rw [if_neg (by omega)]
  split
  · next h => rw [h]; rfl
  · next u h =>
    rw [h]
    simp only [Option.map_some']
    split_ifs <;> rfl

/-! ## Mode controller, masks and filters -/

theorem millis_bus (hw : Hw σ) (w : World σ) : (millis hw w).2.bus = w.bus := rfl

/-- A mode request whose first status readback matches returns at once. -/
theorem _toRequestMode_match (hw : Hw σ) (fuel : Nat) (w : World σ) (m : Nat) (hm : m < 256)
    (hstat : (__readRegister hw (__bitModify hw (millis hw w).2 CTR_CANCTRL 0xE0 m)
        CTR_CANSTAT).1 &&& 0xE0 = m) :
    _toRequestMode hw (fuel + 1) w m
      = (some RSPN_OK,
          (__readRegister hw (__bitModify hw (millis hw w).2 CTR_CANCTRL 0xE0 m) CTR_CANSTAT).2) := by
  have e : m % 256 = m := Nat.mod_eq_of_lt hm
  simp only [_toRequestMode, _toRequestMode_loop, e]
  rw [if_pos hstat]

theorem byte_sidh (x : Nat) : ((x >>> 3) &&& 0xFF) % 256 = (x >>> 3) &&& 0xFF := by
  apply Nat.mod_eq_of_lt
  exact lt_of_le_of_lt Nat.and_le_right (by decide)

theorem byte_sidl (x : Nat) : ((x &&& 0x07) <<< 5) % 256 = (x &&& 0x07) <<< 5 := by
  apply Nat.mod_eq_of_lt
  rw [land_7, Nat.shiftLeft_eq]
  have := Nat.mod_lt x (show 8 > 0 by decide)
  omega

theorem _setStdMaskFilt_bus (hw : Hw σ) (w : World σ) (maskNumber mask : Nat)
    (hn : maskNumber < 256) (hmask : mask < 65536) :
    (_setStdMaskFilt hw w maskNumber mask).bus
      = w.bus ++ busWrite (if maskNumber = 0 then 0x20 else 0x24) ((mask >>> 3) &&& 0xFF)
          ++ busWrite ((if maskNumber = 0 then 0x20 else 0x24) + 1) ((mask &&& 0x07) <<< 5) := by
  have e1 : maskNumber % 256 = maskNumber := Nat.mod_eq_of_lt hn
  have e2 : mask % 65536 = mask := Nat.mod_eq_of_lt hmask
  simp only [_setStdMaskFilt, __writeRegister_bus, e1, e2, byte_sidh, byte_sidl, Nat.mod_mod]
  split_ifs <;> simp

theorem setMaskFilt_masks_bus (hw : Hw σ) (w : World σ) (mask0 mask1 : Nat)
    (h0 : mask0 < 65536) (h1 : mask1 < 65536) :
    (setMaskFilt_masks hw w mask0 mask1).bus
      = w.bus ++ busWrite 0x20 ((mask0 >>> 3) &&& 0xFF) ++ busWrite 0x21 ((mask0 &&& 0x07) <<< 5)
          ++ busWrite 0x24 (((if mask1 = 0 then mask0 else mask1) >>> 3) &&& 0xFF)
          ++ busWrite 0x25 (((if mask1 = 0 then mask0 else mask1) &&& 0x07) <<< 5) := by
  simp only [setMaskFilt_masks]
  split_ifs with h
  · rw [_setStdMaskFilt_bus hw _ 1 mask0 (by decide) h0,
      _setStdMaskFilt_bus hw _ 0 mask0 (by decide) h0]
    simp
  · rw [_setStdMaskFilt_bus hw _ 1 mask1 (by decide) h1,
      _setStdMaskFilt_bus hw _ 0 mask0 (by decide) h0]
    simp

theorem setMaskFilt_eq (hw : Hw σ) (fuel : Nat) (d : Drv) (w : World σ) (mask0 mask1 r : Nat)
    (h0 : mask0 < 65536) (h1 : mask1 < 65536)
    (hfirst : (_setCANCTRL hw fuel w REQ_CONFIG).1 = some r) :
    setMaskFilt hw fuel d w mask0 mask1
      = _setCANCTRL hw fuel
          (setMaskFilt_masks hw (_setCANCTRL hw fuel w REQ_CONFIG).2 mask0 mask1) d._opsModeUse := by
  have e0 : mask0 % 65536 = mask0 := Nat.mod_eq_of_lt h0
  have e1 : mask1 % 65536 = mask1 := Nat.mod_eq_of_lt h1
  simp only [setMaskFilt, hfirst, e0, e1]

/-- Bus traffic of one iteration of a mode request. -/
theorem _toRequestMode_loop_bus (hw : Hw σ) (m startTime : Nat) (hm : m < 256) :
    ∀ (fuel : Nat) (w : World σ), ∃ j, j ≤ fuel
      ∧ ((_toRequestMode_loop hw m startTime fuel w).1 ≠ none → 1 ≤ j)
      ∧ (_toRequestMode_loop hw m startTime fuel w).2.bus
          = w.bus ++ (List.replicate j (busBitModify 0x0F 0xE0 m ++ busRead 0x0E)).flatten := by
  have e : m % 256 = m := Nat.mod_eq_of_lt hm
  intro fuel
  induction fuel with
  | zero =>
    intro w
    exact ⟨0, le_refl _, fun h => absurd rfl h, by simp [_toRequestMode_loop]⟩
  | succ fuel ih =>
    intro w
    simp only [_toRequestMode_loop]
    split_ifs with h1 h2
    · refine ⟨1, by omega, fun _ => le_refl _, ?_⟩
      simp [__readRegister_bus, __bitModify_bus, CTR_CANCTRL, CTR_CANSTAT, e]
    · refine ⟨1, by omega, fun _ => le_refl _, ?_⟩
      simp [millis_bus, __readRegister_bus, __bitModify_bus, CTR_CANCTRL, CTR_CANSTAT, e]
    · obtain ⟨j, hj, _, hb⟩ := ih (millis hw (__readRegister hw
        (__bitModify hw w CTR_CANCTRL 0xE0 m) CTR_CANSTAT).2).2
      refine ⟨j + 1, by omega, fun _ => by omega, ?_⟩
      rw [hb]
      simp [millis_bus, __readRegister_bus, __bitModify_bus, CTR_CANCTRL, CTR_CANSTAT, e,
        List.replicate_succ]

theorem _toRequestMode_bus (hw : Hw σ) (fuel : Nat) (w : World σ) (m : Nat) :
    ∃ j, j ≤ fuel
      ∧ ((_toRequestMode hw fuel w m).1 ≠ none → 1 ≤ j)
      ∧ (_toRequestMode hw fuel w m).2.bus
          = w.bus
            ++ (List.replicate j (busBitModify 0x0F 0xE0 (m % 256) ++ busRead 0x0E)).flatten := by
  simp only [_toRequestMode]
  obtain ⟨j, h1, h2, h3⟩ := _toRequestMode_loop_bus hw (m % 256) ((millis hw w).1 % 256)
    (Nat.mod_lt _ (by decide)) fuel (millis hw w).2
  exact ⟨j, h1, h2, by rw [h3, millis_bus]⟩

theorem _setCANCTRL_awake (hw : Hw σ) (fuel : Nat) (w : World σ) (m : Nat)
    (he : (_exitSleepMode hw fuel w m).1 = some RSPN_OK) :
    _setCANCTRL hw fuel w m = _toRequestMode hw fuel (_exitSleepMode hw fuel w m).2 m := by
  simp only [_setCANCTRL, he]
  rw [if_neg (by simp)]

theorem _setStdFilt_bus (hw : Hw σ) (w : World σ) (filterNumber id : Nat)
    (hf : filterNumber ≤ 5) (hid : id < 65536) :
    (_setStdFilt hw w filterNumber id).bus
      = w.bus ++ busWrite ([0x00, 0x04, 0x08, 0x10, 0x14, 0x18].getD filterNumber 0)
            ((id >>> 3) &&& 0xFF)
          ++ busWrite ([0x00, 0x04, 0x08, 0x10, 0x14, 0x18].getD filterNumber 0 + 1)
            ((id &&& 0x07) <<< 5) := by
  have e2 : id % 65536 = id := Nat.mod_eq_of_lt hid
  have hcases : filterNumber = 0 ∨ filterNumber = 1 ∨ filterNumber = 2 ∨ filterNumber = 3
      ∨ filterNumber = 4 ∨ filterNumber = 5 := by omega
  rcases hcases with rfl | rfl | rfl | rfl | rfl | rfl <;>
    simp [_setStdFilt, __writeRegister_bus, e2, byte_sidh, byte_sidl]

theorem _setStdFilt_none (hw : Hw σ) (w : World σ) (filterNumber id : Nat)
    (h5 : 5 < filterNumber) (hf : filterNumber ≤ 255) :
    _setStdFilt hw w filterNumber id = w := by
  have e1 : filterNumber % 256 = filterNumber := by omega
  obtain ⟨k, rfl⟩ : ∃ k, filterNumber = k + 6 := ⟨filterNumber - 6, by omega⟩
  simp only [_setStdFilt, e1]

/-- Whenever `_exitSleepMode` returns Ok, the last transaction on the bus is the bit-modify
that clears the wake flag. -/
theorem _exitSleepMode_ok_bus (hw : Hw σ) (fuel : Nat) (w : World σ) (m : Nat)
    (h : (_exitSleepMode hw fuel w m).1 = some RSPN_OK) :
    busBitModify 0x2C 0x40 0 <:+ (_exitSleepMode hw fuel w m).2.bus := by
  revert h
  simp only [_exitSleepMode]
  split_ifs with hc hwie
  · split
    · intro h; simp at h
    · split_ifs with hr
      · intro h; simp [RSPN_FAIL, RSPN_OK] at h
      · intro _
        simp only [__bitModify_bus, CTR_CANINTF, Nat.reduceMod]
        exact List.suffix_append _ _
  · split
    · intro h; simp at h
    · split_ifs with hr
      · intro h; simp [RSPN_FAIL, RSPN_OK] at h
      · intro _
        simp only [__bitModify_bus, CTR_CANINTF, Nat.reduceMod]
        exact List.suffix_append _ _
  · intro _
    simp only [__bitModify_bus, CTR_CANINTF, Nat.reduceMod]
    exact List.suffix_append _ _

/-! ## Exact bus traffic of `writeData` -/

theorem waitFreeTXBuf_bus (hw : Hw σ) (temp : Nat) :
    ∀ (fuel : Nat) (w : World σ), ∃ k,
      (waitFreeTXBuf hw temp fuel w).2.bus = w.bus ++ (List.replicate k scanFrames).flatten := by
  intro fuel
  induction fuel with
  | zero => intro w; exact ⟨0, by simp [waitFreeTXBuf]⟩
  | succ fuel ih =>
    intro w
    simp only [waitFreeTXBuf]
    split_ifs
    · obtain ⟨k, hk⟩ := ih (micros hw (getNextFreeTXBuf hw w).2.2).2
      refine ⟨k + 1, ?_⟩
      rw [hk, micros_bus, getNextFreeTXBuf_world, scanReads_bus]
      simp [List.replicate_succ]
    · refine ⟨1, ?_⟩
      rw [micros_bus, getNextFreeTXBuf_world, scanReads_bus]
      simp

theorem waitSent_bus_exact (hw : Hw σ) (txbuf_n temp : Nat) :
    ∀ (fuel : Nat) (w : World σ), ∃ j,
      (waitSent hw txbuf_n temp fuel w).2.bus
        = w.bus ++ (List.replicate j (busRead ((txbuf_n + 255) % 256))).flatten := by
  intro fuel
  induction fuel with
  | zero => intro w; exact ⟨0, by simp [waitSent]⟩
  | succ fuel ih =>
    intro w
    simp only [waitSent]
    split_ifs
    · obtain ⟨j, hj⟩ := ih (micros hw (__readRegister hw w ((txbuf_n + 255) % 256)).2).2
      refine ⟨j + 1, ?_⟩
      rw [hj, micros_bus, __readRegister_bus]
      simp [List.replicate_succ]
    · refine ⟨1, ?_⟩
      rw [micros_bus, __readRegister_bus]
      simp

theorem sendRequested_bus (hw : Hw σ) (fuel : Nat) (d : Drv) (w : World σ) (id ext len : Nat)
    (buf : Nat → Nat) (c : Nat) (hc : c + 6 < 256) :
    (sendRequested hw fuel d w id ext len buf (c + 1)).bus
      = (waitFreeTXBuf hw (micros hw w).1 fuel (micros hw w).2).2.bus
        ++ loadFrames c ((arrTake buf (min (len % 256) 8)).map (· % 256)) (min (len % 256) 8)
            (arrTake (_writeIDs_tbufdata ext id) 4) := by
  obtain ⟨hr, he, hi⟩ := setMsg_fields d id ext len buf
  have hl := write_canMsg_bus hw (setMsg d id ext len buf)
    (waitFreeTXBuf hw (micros hw w).1 fuel (micros hw w).2).2 c hc hr
    (by rw [setMsg_dlc]; omega)
  rw [setMsg_dlc, setMsg_payload, he, hi, tbufdata_trunc] at hl
  exact hl

/-- The world `writeData` ends in once the slot is loaded: that of the completion loop. -/
theorem writeData_world_after_load (hw : Hw σ) (fuel : Nat) (d : Drv) (w : World σ)
    (id ext len : Nat) (buf : Nat → Nat) (res n t : Nat) (hE : d.canError = 0)
    (hp : (waitFreeTXBuf hw (micros hw w).1 fuel (micros hw w).2).1 = some (res, n, t))
    (ht : t < 2500) :
    (writeData hw fuel d w id ext len buf).2.2
      = (waitSent hw n (micros hw (sendRequested hw fuel d w id ext len buf n)).1 fuel
          (micros hw (sendRequested hw fuel d w id ext len buf n)).2).2 := by
  simp only [writeData, sendRequested]
  rw [if_neg (by simp [hE])]
  simp only [hp]
  rw [if_neg (by omega)]
  split
  · rfl
  · split_ifs <;> rfl

/-! ## Decoding a bus record -/

theorem transactionsFrom_mosi (bs : List Nat) :
    ∀ (cur : List Nat) (rest : List Ev),
      transactionsFrom cur (bs.map Ev.mosi ++ rest) = transactionsFrom (cur ++ bs) rest := by
  induction bs with
  | nil => intro cur rest; simp
  | cons b bs ih =>
    intro cur rest
    simp only [List.map_cons, List.cons_append, transactionsFrom, List.append_eq]
    rw [ih]
    simp

theorem transactionsFrom_frame (bs cur : List Nat) (rest : List Ev) :
    transactionsFrom cur (frame bs ++ rest) = bs :: transactionsFrom [] rest := by
  simp only [frame, List.cons_append, transactionsFrom, List.append_assoc, List.append_eq]
  rw [transactionsFrom_mosi]
  simp [transactionsFrom]

theorem modifiedRegsOf_frame (bs : List Nat) (rest : List Ev) :
    modifiedRegsOf (frame bs ++ rest) = modifiedRegs bs ++ modifiedRegsOf rest := by
  simp [modifiedRegsOf, transactionsFrom_frame]

theorem modifiedRegsOf_nil : modifiedRegsOf [] = [] := rfl

theorem modifiedRegsOf_reads (a : Nat) (rest : List Ev) :
    ∀ (j : Nat), modifiedRegsOf ((List.replicate j (busRead a)).flatten ++ rest)
      = modifiedRegsOf rest := by
  intro j
  induction j with
  | zero => simp
  | succ j ih =>
    simp only [List.replicate_succ, List.flatten_cons, List.append_assoc, busRead]
    rw [modifiedRegsOf_frame, ← busRead, ih]
    simp [modifiedRegs, CMD_READ, CMD_WRITE, CMD_BITMODIF]

theorem modifiedRegsOf_scans (rest : List Ev) :
    ∀ (k : Nat), modifiedRegsOf ((List.replicate k scanFrames).flatten ++ rest)
      = modifiedRegsOf rest := by
  intro k
  induction k with
  | zero => simp
  | succ k ih =>
    simp only [List.replicate_succ, List.flatten_cons, List.append_assoc, scanFrames, busRead]
    rw [modifiedRegsOf_frame, modifiedRegsOf_frame, modifiedRegsOf_frame]
    have h := ih
    simp only [scanFrames, busRead, List.append_assoc] at h
    rw [h]
    simp [modifiedRegs, CMD_READ, CMD_WRITE, CMD_BITMODIF]

theorem modifiedRegsOf_load (c : Nat) (payload ids : List Nat) (dlc : Nat) (rest : List Ev) :
    modifiedRegsOf (loadFrames c payload dlc ids ++ rest)
      = (List.range payload.length).map (fun i => c + 6 + i) ++ [c + 5]
        ++ (List.range ids.length).map (fun i => c + 1 + i) ++ [c] ++ modifiedRegsOf rest := by
  simp only [loadFrames, busWriteN, busWrite, busBitModify, List.append_assoc]
  rw [modifiedRegsOf_frame, modifiedRegsOf_frame, modifiedRegsOf_frame, modifiedRegsOf_frame]
  simp [modifiedRegs, CMD_WRITE, CMD_BITMODIF, List.range_succ]

/-! ## The identifier that `readData` hands out -/

theorem __readRegisters_for_lt (hw : Hw σ) :
    ∀ (k i : Nat) (w : World σ) (values : Nat → Nat) (j : Nat), i ≤ j → j < i + k →
      (__readRegisters_for hw k i w values).1 j < 256 := by
  intro k
  induction k with
  | zero => intro i w values j h1 h2; omega
  | succ k ih =>
    intro i w values j h1 h2
    simp only [__readRegisters_for]
    by_cases hj : j = i
    · subst hj
      have hkeep : ∀ (k i' : Nat) (w : World σ) (values : Nat → Nat), j < i' →
          (__readRegisters_for hw k i' w values).1 j = values j := by
        intro k
        induction k with
        | zero => intro i' w values _; rfl
        | succ k ih' =>
          intro i' w values hlt
          simp only [__readRegisters_for]
          rw [ih' (i' + 1) _ _ (by omega)]
          simp only [arrSet]
          rw [if_neg (by omega)]
      rw [hkeep k (j + 1) _ _ (by omega)]
      simp only [arrSet, if_true, __spi_read, __spi_readWrite]
      exact Nat.mod_lt _ (by decide)
    · exact ih (i + 1) _ _ j (by omega) (by omega)

theorem _readIDs_bytes_lt (hw : Hw σ) (w : World σ) (a : Nat) (j : Nat) (hj : j < 4) :
    (__readRegisters hw w a (fun _ => 0) 4).1 j < 256 := by
  simp only [__readRegisters, Nat.reduceMod]
  exact __readRegisters_for_lt hw 4 0 _ _ j (by omega) (by omega)

theorem _readIDs_decode_bound (t : Nat → Nat) (h : ∀ i, i < 4 → t i < 256) :
    (_readIDs_decode t).2 < 2 ^ 29 ∧ ((_readIDs_decode t).1 = 0 ∨ (_readIDs_decode t).1 = 1) := by
  have h0 := h 0 (by decide)
  have h1 := h 1 (by decide)
  have h2 := h 2 (by decide)
  have h3 := h 3 (by decide)
  have h13 : t 1 &&& 3 ≤ 3 := Nat.and_le_right
  simp only [_readIDs_decode, Nat.shiftLeft_eq, Nat.shiftRight_eq_div_pow]
  split_ifs
  · refine ⟨?_, Or.inr rfl⟩
    simp only []
    omega
  · refine ⟨?_, Or.inl rfl⟩
    simp only []
    omega

theorem _readIDs_bound (hw : Hw σ) (w : World σ) (a : Nat) :
    (_readIDs hw w a).1.2 < 2 ^ 29
      ∧ ((_readIDs hw w a).1.1 = 0 ∨ (_readIDs hw w a).1.1 = 1) := by
  simp only [_readIDs]
  exact _readIDs_decode_bound _ (fun i hi => _readIDs_bytes_lt hw w a i hi)

theorem lor_bit31 (x : Nat) (h : x < 2 ^ 29) : (x ||| 0x80000000) % 2 ^ 32 = 2 ^ 31 + x := by
  have e := Nat.mul_add_lt_is_or (i := 31) (b := x) (by omega) 1
  rw [Nat.lor_comm, show (0x80000000 : Nat) = 2 ^ 31 * 1 from by decide, ← e]
  omega

theorem lor_bit30 (x : Nat) (h : x < 2 ^ 29) : (x ||| 0x40000000) % 2 ^ 32 = 2 ^ 30 + x := by
  have e := Nat.mul_add_lt_is_or (i := 30) (b := x) (by omega) 1
  rw [Nat.lor_comm, show (0x40000000 : Nat) = 2 ^ 30 * 1 from by decide, ← e]
  omega

theorem lor_bit31_bit30 (x : Nat) (h : x < 2 ^ 29) :
    ((2 ^ 31 + x) ||| 0x40000000) % 2 ^ 32 = 2 ^ 31 + 2 ^ 30 + x := by
  have e2 := Nat.mul_add_lt_is_or (i := 30) (b := x) (by omega) 2
  have e3 := Nat.mul_add_lt_is_or (i := 30) (b := x) (by omega) 3
  have hc : (2 ^ 30 * 2 ||| 0x40000000 : Nat) = 2 ^ 30 * 3 := by decide
  rw [show 2 ^ 31 + x = 2 ^ 30 * 2 + x from by omega, e2, Nat.lor_assoc, Nat.lor_comm x,
    ← Nat.lor_assoc, hc, ← e3]
  omega

/-- The identifier `readData` stores and hands out when it returns Ok, in terms of what
`_readReceivMsg` decoded from the serviced slot. -/
theorem readData_ok_id (hw : Hw σ) (d : Drv) (w : World σ) (args : RxArgs)
    (hok : (readData hw d w args).1 = RSPN_OK) :
    (readData hw d w args).2.2.2.id
      = (if (_readReceivMsg hw d (_readStatus hw w).2 (servicedSlot hw w)).1.m_nRtr ≠ 0 then
          ((if (_readReceivMsg hw d (_readStatus hw w).2 (servicedSlot hw w)).1.m_nExtFlg ≠ 0
            then ((_readReceivMsg hw d (_readStatus hw w).2 (servicedSlot hw w)).1.m_nID
                    ||| 0x80000000) % 2 ^ 32
            else (_readReceivMsg hw d (_readStatus hw w).2 (servicedSlot hw w)).1.m_nID)
            ||| 0x40000000) % 2 ^ 32
         else
          (if (_readReceivMsg hw d (_readStatus hw w).2 (servicedSlot hw w)).1.m_nExtFlg ≠ 0
            then ((_readReceivMsg hw d (_readStatus hw w).2 (servicedSlot hw w)).1.m_nID
                    ||| 0x80000000) % 2 ^ 32
            else (_readReceivMsg hw d (_readStatus hw w).2 (servicedSlot hw w)).1.m_nID)) := by
  by_cases hE : d.canError ≠ 0
  · simp only [readData] at hok
    rw [if_pos hE] at hok
    simp [RSPN_OK] at hok
  · have hE0 : d.canError = 0 := not_not.mp hE
    by_cases hb0 : (_readStatus hw w).1 &&& 1 ≠ 0
    · have hs : servicedSlot hw w = CTR_RXB0SIDH := by
        simp only [servicedSlot]; rw [if_pos hb0]
      rw [hs]
      exact (readData_slot0 hw d w args hE0 hb0).2.2.2.2.1
    · have hs : servicedSlot hw w = CTR_RXB1SIDH := by
        simp only [servicedSlot]; rw [if_neg hb0]
      have hb0' : ¬ ((_readStatus hw w).1 &&& 1 <<< 0 ≠ 0) := hb0
      rw [hs]
      by_cases hb1 : (_readStatus hw w).1 &&& 1 <<< 1 ≠ 0
      · generalize hm : _readReceivMsg hw d (_readStatus hw w).2 CTR_RXB1SIDH = m
        simp only [readData]
        rw [if_neg hE, if_neg hb0', if_pos hb1]
        simp only [hm]
        rw [if_neg (by decide)]
        rcases m with ⟨⟨e, i, l, dta, r, ce, om⟩, w'⟩
        by_cases hx : e ≠ 0
        · by_cases hr : r ≠ 0
          · simp only [if_pos hx, if_pos hr]
            split_ifs <;> rfl
          · simp only [if_pos hx, if_neg hr]
            split_ifs <;> rfl
        · by_cases hr : r ≠ 0
          · simp only [if_neg hx, if_pos hr]
            split_ifs <;> rfl
          · simp only [if_neg hx, if_neg hr]
            split_ifs <;> rfl
      · simp only [readData] at hok
        rw [if_neg hE, if_neg hb0', if_neg hb1] at hok
        simp [RSPN_OK, RSPN_NOMSG] at hok

/-! ## The fault flag -/

theorem setMsg_canError (d : Drv) (id ext len : Nat) (buf : Nat → Nat) :
    (setMsg d id ext len buf).canError = d.canError := by
  simp only [setMsg]
  split_ifs <;> rfl

theorem write_canMsg_canError (hw : Hw σ) (d : Drv) (w : World σ) (n : Nat) :
    (write_canMsg hw d w n).1.canError = d.canError := by
  simp only [write_canMsg]
  split_ifs <;> rfl

theorem writeData_canError (hw : Hw σ) (fuel : Nat) (d : Drv) (w : World σ) (id ext len : Nat)
    (buf : Nat → Nat) : (writeData hw fuel d w id ext len buf).2.1.canError = d.canError := by
  simp only [writeData]
  split_ifs with hE
  · rfl
  · generalize waitFreeTXBuf hw (micros hw w).1 fuel (micros hw w).2 = p
    rcases p with ⟨_ | ⟨res, n, t⟩, w1⟩
    · exact setMsg_canError d id ext len buf
    · simp only []
      split_ifs with ht
      · exact setMsg_canError d id ext len buf
      · generalize waitSent hw n (micros hw (write_canMsg hw (setMsg d id ext len buf) w1 n).2).1
          fuel (micros hw (write_canMsg hw (setMsg d id ext len buf) w1 n).2).2 = q
        rcases q with ⟨_ | t2, w2⟩
        · simp only []
          rw [write_canMsg_canError, setMsg_canError]
        · simp only []
          split_ifs <;> simp only [] <;> rw [write_canMsg_canError, setMsg_canError]

theorem writeData_not_disabled (hw : Hw σ) (fuel : Nat) (d : Drv) (w : World σ)
    (id ext len : Nat) (buf : Nat → Nat) (hE : d.canError = 0) :
    (writeData hw fuel d w id ext len buf).1 ≠ some 100 := by
  simp only [writeData]
  rw [if_neg (not_not.mpr hE)]
  generalize waitFreeTXBuf hw (micros hw w).1 fuel (micros hw w).2 = p
  rcases p with ⟨_ | ⟨res, n, t⟩, w1⟩
  · simp
  · simp only []
    split_ifs with ht
    · simp [RSPN_GETTXBFTIMEOUT]
    · generalize waitSent hw n (micros hw (write_canMsg hw (setMsg d id ext len buf) w1 n).2).1
        fuel (micros hw (write_canMsg hw (setMsg d id ext len buf) w1 n).2).2 = q
      rcases q with ⟨_ | t2, w2⟩
      · simp
      · simp only []
        split_ifs <;> simp [RSPN_SENDMSGTIMEOUT, RSPN_OK]

theorem _readReceivMsg_canError (hw : Hw σ) (d : Drv) (w : World σ) (a : Nat) :
    (_readReceivMsg hw d w a).1.canError = d.canError := by
  rw [_readReceivMsg_eq]

theorem ite_canError (c : Prop) [Decidable c] (a b : Drv) (x : Nat)
    (ha : a.canError = x) (hb : b.canError = x) : (if c then a else b).canError = x := by
  split_ifs <;> assumption

theorem readData_flags_canError (m : Drv) :
    (if (if (if m.m_nExtFlg ≠ 0 then { m with m_nID := (m.m_nID ||| 0x80000000) % 2 ^ 32 }
              else m).m_nRtr ≠ 0 then
            { (if m.m_nExtFlg ≠ 0 then { m with m_nID := (m.m_nID ||| 0x80000000) % 2 ^ 32 }
                else m) with
              m_nID := ((if m.m_nExtFlg ≠ 0 then
                  { m with m_nID := (m.m_nID ||| 0x80000000) % 2 ^ 32 } else m).m_nID
                ||| 0x40000000) % 2 ^ 32 }
          else (if m.m_nExtFlg ≠ 0 then { m with m_nID := (m.m_nID ||| 0x80000000) % 2 ^ 32 }
              else m)).m_nDlc > 8 then
        { (if (if m.m_nExtFlg ≠ 0 then { m with m_nID := (m.m_nID ||| 0x80000000) % 2 ^ 32 }
              else m).m_nRtr ≠ 0 then
            { (if m.m_nExtFlg ≠ 0 then { m with m_nID := (m.m_nID ||| 0x80000000) % 2 ^ 32 }
                else m) with
              m_nID := ((if m.m_nExtFlg ≠ 0 then
                  { m with m_nID := (m.m_nID ||| 0x80000000) % 2 ^ 32 } else m).m_nID
                ||| 0x40000000) % 2 ^ 32 }
          else (if m.m_nExtFlg ≠ 0 then { m with m_nID := (m.m_nID ||| 0x80000000) % 2 ^ 32 }
              else m)) with m_nDlc := 8 }
      else
        (if (if m.m_nExtFlg ≠ 0 then { m with m_nID := (m.m_nID ||| 0x80000000) % 2 ^ 32 }
              else m).m_nRtr ≠ 0 then
            { (if m.m_nExtFlg ≠ 0 then { m with m_nID := (m.m_nID ||| 0x80000000) % 2 ^ 32 }
                else m) with
              m_nID := ((if m.m_nExtFlg ≠ 0 then
                  { m with m_nID := (m.m_nID ||| 0x80000000) % 2 ^ 32 } else m).m_nID
                ||| 0x40000000) % 2 ^ 32 }
          else (if m.m_nExtFlg ≠ 0 then { m with m_nID := (m.m_nID ||| 0x80000000) % 2 ^ 32 }
              else m))).canError = m.canError := by
  have h1 : (if m.m_nExtFlg ≠ 0 then { m with m_nID := (m.m_nID ||| 0x80000000) % 2 ^ 32 }
      else m).canError = m.canError := ite_canError _ _ _ _ rfl rfl
  generalize (if m.m_nExtFlg ≠ 0 then { m with m_nID := (m.m_nID ||| 0x80000000) % 2 ^ 32 }
      else m) = m1 at h1 ⊢
  have h2 : (if m1.m_nRtr ≠ 0 then { m1 with m_nID := (m1.m_nID ||| 0x40000000) % 2 ^ 32 }
      else m1).canError = m.canError := ite_canError _ _ _ _ h1 h1
  generalize (if m1.m_nRtr ≠ 0 then { m1 with m_nID := (m1.m_nID ||| 0x40000000) % 2 ^ 32 }
      else m1) = m2 at h2 ⊢
  exact ite_canError _ _ _ _ h2 h2

theorem readData_canError (hw : Hw σ) (d : Drv) (w : World σ) (args : RxArgs) :
    (readData hw d w args).2.1.canError = d.canError := by
  by_cases hE : d.canError ≠ 0
  · simp only [readData]
    rw [if_pos hE]
  · by_cases hb0 : (_readStatus hw w).1 &&& 1 <<< 0 ≠ 0
    · simp only [readData]
      rw [if_neg hE, if_pos hb0]
      simp only []
      rw [if_neg (by decide)]
      simp only []
      rw [readData_flags_canError, _readReceivMsg_canError]
    · by_cases hb1 : (_readStatus hw w).1 &&& 1 <<< 1 ≠ 0
      · simp only [readData]
        rw [if_neg hE, if_neg hb0, if_pos hb1]
        simp only []
        rw [if_neg (by decide)]
        simp only []
        rw [readData_flags_canError, _readReceivMsg_canError]
      · simp only [readData]
        rw [if_neg hE, if_neg hb0, if_neg hb1]
        simp only []
        rw [if_pos trivial]

theorem readData_not_disabled (hw : Hw σ) (d : Drv) (w : World σ) (args : RxArgs)
    (hE : d.canError = 0) : (readData hw d w args).1 ≠ 100 := by
  simp only [readData]
  rw [if_neg (not_not.mpr hE)]
  split_ifs <;> simp [RSPN_OK, RSPN_NOMSG]

theorem initialize_mcp_canError (hw : Hw σ) (fuel : Nat) (d : Drv) (w : World σ)
    (opsMod imod canSpeed : Nat) :
    (initialize_mcp hw fuel d w opsMod imod canSpeed).2.1.canError = d.canError := by
  simp only [initialize_mcp]
  generalize _setCANCTRL hw fuel (__spi_unSelect hw w) REQ_CONFIG = r
  rcases r with ⟨_ | result, w1⟩
  · rfl
  · simp only []
    split_ifs with h1
    · generalize _setCANCTRL hw fuel
        (initialize_buffers hw (initialize_bitTiming hw w1 canSpeed) imod) opsMod = r2
      rcases r2 with ⟨_ | result2, w2⟩
      · rfl
      · simp only []
        split_ifs <;> rfl
    · simp only []
      split_ifs
      rfl

theorem reachable_canError (d : Drv) (h : Reachable d) : d.canError = 0 := by
  induction h with
  | constructed d hc => exact hc.1
  | afterInitialize hw fuel d w opsMod imod canSpeed _ ih =>
    rw [initialize_mcp_canError]; exact ih
  | afterWriteData hw fuel d w id ext len buf _ ih =>
    rw [writeData_canError]; exact ih
  | afterReadData hw d w args _ ih =>
    rw [readData_canError]; exact ih

/-! ## Initialization -/

theorem __writeRegister_ext (hw : Hw σ) (w : World σ) (a v : Nat) :
    w.bus <+: (__writeRegister hw w a v).bus := by
  rw [__writeRegister_bus]; exact List.prefix_append _ _

theorem __bitModify_ext (hw : Hw σ) (w : World σ) (a m v : Nat) :
    w.bus <+: (__bitModify hw w a m v).bus := by
  rw [__bitModify_bus]; exact List.prefix_append _ _

theorem __readRegister_ext (hw : Hw σ) (w : World σ) (a : Nat) :
    w.bus <+: (__readRegister hw w a).2.bus := by
  rw [__readRegister_bus]; exact List.prefix_append _ _

theorem _toRequestMode_ext (hw : Hw σ) (fuel : Nat) (w : World σ) (m : Nat) :
    w.bus <+: (_toRequestMode hw fuel w m).2.bus := by
  obtain ⟨j, _, _, h⟩ := _toRequestMode_bus hw fuel w m
  rw [h]; exact List.prefix_append _ _

theorem _exitSleepMode_ext (hw : Hw σ) (fuel : Nat) (w : World σ) (m : Nat) :
    w.bus <+: (_exitSleepMode hw fuel w m).2.bus := by
  have h0 := __readRegister_ext hw w CTR_CANSTAT
  simp only [_exitSleepMode]
  split_ifs with hc hwie
  · have h1 := (h0.trans (__readRegister_ext hw _ CTR_CANINTE)).trans
      (__bitModify_ext hw (__readRegister hw (__readRegister hw w CTR_CANSTAT).2 CTR_CANINTE).2
        CTR_CANINTE 0x40 0x40)
    have h2 := (h1.trans (__bitModify_ext hw _ CTR_CANINTF 0x40 0x40)).trans
      (_toRequestMode_ext hw fuel _ REQ_LISTENONLY)
    split
    · exact h2
    · split_ifs
      · exact h2
      · exact (h2.trans (__bitModify_ext hw _ CTR_CANINTE 0x40 0)).trans
          (__bitModify_ext hw _ CTR_CANINTF 0x40 0)
  · have h1 := h0.trans (__readRegister_ext hw _ CTR_CANINTE)
    have h2 := (h1.trans (__bitModify_ext hw _ CTR_CANINTF 0x40 0x40)).trans
      (_toRequestMode_ext hw fuel _ REQ_LISTENONLY)
    split
    · exact h2
    · split_ifs
      · exact h2
      · exact h2.trans (__bitModify_ext hw _ CTR_CANINTF 0x40 0)
  · exact h0.trans (__bitModify_ext hw _ CTR_CANINTF 0x40 0)

theorem _setCANCTRL_ext (hw : Hw σ) (fuel : Nat) (w : World σ) (m : Nat) :
    w.bus <+: (_setCANCTRL hw fuel w m).2.bus := by
  have h0 := _exitSleepMode_ext hw fuel w m
  simp only [_setCANCTRL]
  split
  · exact h0
  · split_ifs
    · exact h0
    · exact h0.trans (_toRequestMode_ext hw fuel _ m)

theorem _writeMasknFilter_ext (hw : Hw σ) (w : World σ) (a ext id : Nat) :
    w.bus <+: (_writeMasknFilter hw w a ext id).bus := by
  simp only [_writeMasknFilter]
  rw [__writeRegisters_bus]; exact List.prefix_append _ _

theorem _initCANBuffers_for_ext (hw : Hw σ) : ∀ (k a1 a2 a3 : Nat) (w : World σ),
    w.bus <+: (_initCANBuffers_for hw k a1 a2 a3 w).bus := by
  intro k
  induction k with
  | zero => intro a1 a2 a3 w; exact List.prefix_refl _
  | succ k ih =>
    intro a1 a2 a3 w
    simp only [_initCANBuffers_for]
    exact (((__writeRegister_ext hw w a1 0).trans (__writeRegister_ext hw _ a2 0)).trans
      (__writeRegister_ext hw _ a3 0)).trans (ih _ _ _ _)

theorem _initCANBuffers_ext (hw : Hw σ) (w : World σ) : w.bus <+: (_initCANBuffers hw w).bus := by
  simp only [_initCANBuffers]
  exact ((((((((((_writeMasknFilter_ext hw w _ _ _).trans (_writeMasknFilter_ext hw _ _ _ _)).trans
    (_writeMasknFilter_ext hw _ _ _ _)).trans (_writeMasknFilter_ext hw _ _ _ _)).trans
    (_writeMasknFilter_ext hw _ _ _ _)).trans (_writeMasknFilter_ext hw _ _ _ _)).trans
    (_writeMasknFilter_ext hw _ _ _ _)).trans (_writeMasknFilter_ext hw _ _ _ _)).trans
    (_initCANBuffers_for_ext hw _ _ _ _ _)).trans (__writeRegister_ext hw _ _ _)).trans
    (__writeRegister_ext hw _ _ _)

/-- Bus traffic of the receive-mode step for the four enumerators of `IDMOD`. -/
theorem initialize_rxMode_bus (hw : Hw σ) (w : World σ) (imod : Nat) (h : imod ≤ 3) :
    (initialize_rxMode hw w imod).bus
      = w.bus ++ (if imod = IMOD_ANY then busBitModify 0x60 0x64 0x64 ++ busBitModify 0x70 0x60 0x60
          else busBitModify 0x60 0x64 0x04 ++ busBitModify 0x70 0x60 0x00) := by
  simp only [initialize_rxMode, IMOD_ANY, IMOD_STD, IMOD_EXT, IMOD_ALL]
  split_ifs with h1 h2
  · simp only [__bitModify_bus, CTR_RXB0CTRL, CTR_RXB1CTRL, RXB_RX_MASK, RXB_RX_ANY,
      List.append_assoc]
    rfl
  · simp only [__bitModify_bus, CTR_RXB0CTRL, CTR_RXB1CTRL, RXB_RX_MASK, RXB_RX_STDEXT,
      List.append_assoc]
    rfl
  · omega

theorem initialize_rxMode_STD (hw : Hw σ) (w : World σ) :
    initialize_rxMode hw w IMOD_STD = initialize_rxMode hw w IMOD_ALL := by
  rfl

theorem initialize_rxMode_EXT (hw : Hw σ) (w : World σ) :
    initialize_rxMode hw w IMOD_EXT = initialize_rxMode hw w IMOD_ALL := by
  rfl

theorem initialize_bitTiming_bus (hw : Hw σ) (w : World σ) (p : Nat) :
    (initialize_bitTiming hw w p).bus
      = w.bus ++ busWrite 0x2A ((p >>> 16) &&& 0xFF) ++ busWrite 0x29 ((p >>> 8) &&& 0xFF)
          ++ busWrite 0x28 (p &&& 0xFF) := by
  have hb : ∀ x : Nat, (x &&& 0xFF) % 256 = x &&& 0xFF := fun x =>
    Nat.mod_eq_of_lt (lt_of_le_of_lt Nat.and_le_right (by decide))
  simp only [initialize_bitTiming, __writeRegister_bus, hb, Nat.reduceMod]

theorem initialize_buffers_eq (hw : Hw σ) (w : World σ) (imod : Nat) :
    initialize_buffers hw w imod = initialize_rxMode hw (initialize_beforeRxMode hw w) imod := rfl

theorem initialize_rxMode_grows (hw : Hw σ) (w : World σ) (imod : Nat) :
    w.bus <+: (initialize_rxMode hw w imod).bus := by
  simp only [initialize_rxMode]
  split_ifs
  · exact (__bitModify_ext hw w _ _ _).trans (__bitModify_ext hw _ _ _ _)
  · exact (__bitModify_ext hw w _ _ _).trans (__bitModify_ext hw _ _ _ _)
  · exact List.prefix_refl _

theorem initialize_beforeRxMode_ext (hw : Hw σ) (w : World σ) :
    w.bus <+: (initialize_beforeRxMode hw w).bus := by
  simp only [initialize_beforeRxMode]
  exact (((_initCANBuffers_ext hw w).trans (__writeRegister_ext hw _ _ _)).trans
    (__writeRegister_ext hw _ _ _)).trans (__writeRegister_ext hw _ _ _)

/-- The world reached by the driver's initialization, once the first mode request has
returned with `result`. -/
theorem initialize_mcp_world (hw : Hw σ) (fuel : Nat) (d : Drv) (w : World σ)
    (opsMod imod canSpeed result : Nat)
    (hfirst : (_setCANCTRL hw fuel (__spi_unSelect hw w) REQ_CONFIG).1 = some result) :
    (initialize_mcp hw fuel d w opsMod imod canSpeed).2.2
      = if result = RSPN_OK then
          (_setCANCTRL hw fuel (initialize_buffers hw (initialize_bitTiming hw
            (_setCANCTRL hw fuel (__spi_unSelect hw w) REQ_CONFIG).2 canSpeed) imod) opsMod).2
        else initialize_bitTiming hw
          (_setCANCTRL hw fuel (__spi_unSelect hw w) REQ_CONFIG).2 canSpeed := by
  simp only [initialize_mcp]
  generalize _setCANCTRL hw fuel (__spi_unSelect hw w) REQ_CONFIG = r at hfirst ⊢
  rcases r with ⟨_ | res, w1⟩
  · simp at hfirst
  · simp only [Option.some.injEq] at hfirst
    subst hfirst
    simp only []
    split_ifs with h1
    · generalize _setCANCTRL hw fuel
        (initialize_buffers hw (initialize_bitTiming hw w1 canSpeed) imod) opsMod = r2
      rcases r2 with ⟨_ | result2, w2⟩
      · rfl
      · simp only []
        split_ifs <;> rfl
    · simp only []
      rw [if_neg h1]

/-! ## Sleep exit, transaction by transaction -/

theorem busOf_append (a b : List (List Nat)) : busOf (a ++ b) = busOf a ++ busOf b := by
  simp [busOf]

theorem busOf_nil : busOf [] = [] := rfl

theorem busOf_cons (t : List Nat) (ts : List (List Nat)) : busOf (t :: ts) = frame t ++ busOf ts := by
  simp [busOf]

theorem busOf_rounds (a b : List Nat) : ∀ j : Nat,
    busOf (List.replicate j [a, b]).flatten = (List.replicate j (frame a ++ frame b)).flatten := by
  intro j
  induction j with
  | zero => rfl
  | succ j ih =>
    simp only [List.replicate_succ, List.flatten_cons, busOf_append, ih]
    simp [busOf]

theorem transactionsFrom_busOf (txs : List (List Nat)) : transactionsFrom [] (busOf txs) = txs := by
  induction txs with
  | nil => rfl
  | cons t ts ih => rw [busOf_cons, transactionsFrom_frame, ih]

theorem regsAfter_busOf (regs : Nat → Nat) (txs : List (List Nat)) :
    regsAfter regs (busOf txs) = txs.foldl applyTransaction regs := by
  simp only [regsAfter, transactionsFrom_busOf]

/-- A call of `_exitSleepMode` that does not take the wake-up branch returns Ok after the
status read and the clearing bit-modify. -/
theorem _exitSleepMode_awake (hw : Hw σ) (fuel : Nat) (w : World σ) (m : Nat)
    (hc : ¬ ((__readRegister hw w CTR_CANSTAT).1 &&& 0xE0 = REQ_SLEEP ∧ m % 256 ≠ REQ_SLEEP)) :
    (_exitSleepMode hw fuel w m).1 = some RSPN_OK
      ∧ (_exitSleepMode hw fuel w m).2.bus
          = w.bus ++ busOf [[CMD_READ, CTR_CANSTAT, 0], [CMD_BITMODIF, CTR_CANINTF, 0x40, 0]] := by
  simp only [_exitSleepMode]
  rw [if_neg hc]
  refine ⟨rfl, ?_⟩
  simp only [__bitModify_bus, __readRegister_bus, busOf, busRead, busBitModify, CTR_CANSTAT,
    CTR_CANINTF, List.map, List.flatten, List.append_nil, List.nil_append, List.append_assoc, Nat.reduceMod]

/-- Bus record of a call of `_exitSleepMode` that takes the wake-up branch, by outcome. -/
theorem _exitSleepMode_wake (hw : Hw σ) (fuel : Nat) (w : World σ) (m : Nat)
    (hc : (__readRegister hw w CTR_CANSTAT).1 &&& 0xE0 = REQ_SLEEP ∧ m % 256 ≠ REQ_SLEEP) :
    ∃ j, ((_exitSleepMode hw fuel w m).1 = none
          ∧ (_exitSleepMode hw fuel w m).2.bus
              = w.bus ++ busOf (wakeTransactions
                  (decide ((__readRegister hw (__readRegister hw w CTR_CANSTAT).2
                    CTR_CANINTE).1 &&& 0x40 ≠ 0)) j false))
      ∨ ((_exitSleepMode hw fuel w m).1 = some RSPN_FAIL ∧ 1 ≤ j
          ∧ (_exitSleepMode hw fuel w m).2.bus
              = w.bus ++ busOf (wakeTransactions
                  (decide ((__readRegister hw (__readRegister hw w CTR_CANSTAT).2
                    CTR_CANINTE).1 &&& 0x40 ≠ 0)) j false))
      ∨ ((_exitSleepMode hw fuel w m).1 = some RSPN_OK ∧ 1 ≤ j
          ∧ (_exitSleepMode hw fuel w m).2.bus
              = w.bus ++ busOf (wakeTransactions
                  (decide ((__readRegister hw (__readRegister hw w CTR_CANSTAT).2
                    CTR_CANINTE).1 &&& 0x40 ≠ 0)) j true)) := by
  simp only [_exitSleepMode]
  rw [if_pos hc]
  generalize hinte : (__readRegister hw (__readRegister hw w CTR_CANSTAT).2 CTR_CANINTE).1
    &&& 0x40 = en
  by_cases he : en = 0
  · have hd : decide (en ≠ 0) = false := decide_eq_false (not_not.mpr he)
    rw [hd, if_pos he, if_pos he]
    obtain ⟨j, _, h2, h3⟩ := _toRequestMode_bus hw fuel
      (__bitModify hw (__bitModify hw (__readRegister hw (__readRegister hw w CTR_CANSTAT).2
        CTR_CANINTE).2 CTR_CANINTE 0x40 0x40) CTR_CANINTF 0x40 0x40) REQ_LISTENONLY
    refine ⟨j, ?_⟩
    generalize _toRequestMode hw fuel
      (__bitModify hw (__bitModify hw (__readRegister hw (__readRegister hw w CTR_CANSTAT).2
        CTR_CANINTE).2 CTR_CANINTE 0x40 0x40) CTR_CANINTF 0x40 0x40) REQ_LISTENONLY = r at h2 h3 ⊢
    rcases r with ⟨_ | res, w2⟩
    · simp only [] at h3 ⊢
      refine Or.inl ⟨trivial, ?_⟩
      rw [h3]
      simp only [__bitModify_bus, __readRegister_bus, wakeTransactions, busOf_append, busOf_cons,
        busOf_nil, busOf_rounds, busRead, busBitModify, CTR_CANSTAT, CTR_CANINTE,
        CTR_CANINTF, CTR_CANCTRL, REQ_LISTENONLY, List.append_nil, List.nil_append, List.append_assoc,
        Nat.reduceMod, Bool.false_eq_true, if_false]
    · simp only [] at h2 h3 ⊢
      have hj := h2 (by simp)
      by_cases hr : res ≠ RSPN_OK
      · rw [if_pos hr]
        refine Or.inr (Or.inl ⟨rfl, hj, ?_⟩)
        simp only []
        rw [h3]
        simp only [__bitModify_bus, __readRegister_bus, wakeTransactions, busOf_append,
          busOf_cons, busOf_nil, busOf_rounds, busRead, busBitModify, CTR_CANSTAT,
          CTR_CANINTE, CTR_CANINTF, CTR_CANCTRL, REQ_LISTENONLY,
          List.append_nil, List.nil_append, List.append_assoc, Nat.reduceMod, Bool.false_eq_true, if_false]
      · rw [if_neg hr]
        refine Or.inr (Or.inr ⟨rfl, hj, ?_⟩)
        simp only []
        simp only [__bitModify_bus, h3, __readRegister_bus, wakeTransactions, busOf_append,
          busOf_cons, busOf_nil, busOf_rounds, busRead, busBitModify, CTR_CANSTAT,
          CTR_CANINTE, CTR_CANINTF, CTR_CANCTRL, REQ_LISTENONLY,
          List.append_nil, List.nil_append, List.append_assoc, Nat.reduceMod, Bool.false_eq_true, if_false,
          if_true]
  · have hd : decide (en ≠ 0) = true := decide_eq_true he
    rw [hd, if_neg he, if_neg he]
    obtain ⟨j, _, h2, h3⟩ := _toRequestMode_bus hw fuel
      (__bitModify hw (__readRegister hw (__readRegister hw w CTR_CANSTAT).2
        CTR_CANINTE).2 CTR_CANINTF 0x40 0x40) REQ_LISTENONLY
    refine ⟨j, ?_⟩
    generalize _toRequestMode hw fuel
      (__bitModify hw (__readRegister hw (__readRegister hw w CTR_CANSTAT).2
        CTR_CANINTE).2 CTR_CANINTF 0x40 0x40) REQ_LISTENONLY = r at h2 h3 ⊢
    rcases r with ⟨_ | res, w2⟩
    · simp only [] at h3 ⊢
      refine Or.inl ⟨trivial, ?_⟩
      rw [h3]
      simp only [__bitModify_bus, __readRegister_bus, wakeTransactions, busOf_append, busOf_cons,
        busOf_nil, busOf_rounds, busRead, busBitModify, CTR_CANSTAT, CTR_CANINTE,
        CTR_CANINTF, CTR_CANCTRL, REQ_LISTENONLY, List.append_nil, List.nil_append, List.append_assoc,
        Nat.reduceMod, Bool.false_eq_true, if_false, if_true]
    · simp only [] at h2 h3 ⊢
      have hj := h2 (by simp)
      by_cases hr : res ≠ RSPN_OK
      · rw [if_pos hr]
        refine Or.inr (Or.inl ⟨rfl, hj, ?_⟩)
        simp only []
        rw [h3]
        simp only [__bitModify_bus, __readRegister_bus, wakeTransactions, busOf_append,
          busOf_cons, busOf_nil, busOf_rounds, busRead, busBitModify, CTR_CANSTAT,
          CTR_CANINTE, CTR_CANINTF, CTR_CANCTRL, REQ_LISTENONLY,
          List.append_nil, List.nil_append, List.append_assoc, Nat.reduceMod, Bool.false_eq_true, if_false,
          if_true]
      · rw [if_neg hr]
        refine Or.inr (Or.inr ⟨rfl, hj, ?_⟩)
        simp only []
        simp only [__bitModify_bus, h3, __readRegister_bus, wakeTransactions, busOf_append,
          busOf_cons, busOf_nil, busOf_rounds, busRead, busBitModify, CTR_CANSTAT,
          CTR_CANINTE, CTR_CANINTF, CTR_CANCTRL, REQ_LISTENONLY,
          List.append_nil, List.nil_append, List.append_assoc, Nat.reduceMod, Bool.false_eq_true, if_false,
          if_true]

/-! ## Effect of the sleep-exit traffic on the interrupt-enable register -/

theorem apply_read (rs : Nat → Nat) (a : Nat) : applyTransaction rs [CMD_READ, a, 0] = rs := by
  simp [applyTransaction, CMD_READ, CMD_WRITE, CMD_BITMODIF]

theorem apply_bitModify (rs : Nat → Nat) (a mk v b : Nat) :
    applyTransaction rs [CMD_BITMODIF, a, mk, v] b
      = if b = a then (rs a &&& (255 ^^^ mk)) ||| (v &&& mk) else rs b := by
  simp [applyTransaction, CMD_WRITE, CMD_BITMODIF, arrSet]

/-- On the register-file controller a bit-modify changes the registers as
`applyTransaction` says. -/
theorem sim_bitModify_applyTransaction (s : Sim) (b : List Ev) (a m v : Nat)
    (hs : s.selected = false) (hrx : s.rx = []) :
    (__bitModify simHw ⟨s, b⟩ a m v).board.regs
      = applyTransaction s.regs [CMD_BITMODIF, a % 256, m % 256, v % 256] := by
  rw [sim_bitModify_regs s b a m v hs hrx]
  simp [applyTransaction, CMD_WRITE, CMD_BITMODIF]

theorem wake_bit_set (x : Nat) : ((x &&& 0xBF) ||| 0x40) &&& 0x40 = 0x40 := by
  have e1 : (0xBF &&& 0x40 : Nat) = 0 := by decide
  have e2 : (0x40 &&& 0x40 : Nat) = 0x40 := by decide
  rw [Nat.and_distrib_right, Nat.and_assoc, e1, e2, Nat.and_zero, Nat.zero_or]

theorem wake_bit_clear (x : Nat) : ((x &&& 0xBF) ||| 0) &&& 0x40 = 0 := by
  have e1 : (0xBF &&& 0x40 : Nat) = 0 := by decide
  rw [Nat.or_zero, Nat.and_assoc, e1, Nat.and_zero]

theorem other_bits_keep (x v : Nat) (hv : v = 0 ∨ v = 0x40) :
    ((x &&& 0xBF) ||| v) &&& 0xBF = x &&& 0xBF := by
  have e1 : (0xBF &&& 0xBF : Nat) = 0xBF := by decide
  have e2 : (0x40 &&& 0xBF : Nat) = 0 := by decide
  have e3 : (0 &&& 0xBF : Nat) = 0 := by decide
  rw [Nat.and_distrib_right, Nat.and_assoc, e1]
  rcases hv with hv | hv
  · rw [hv, e3, Nat.or_zero]
  · rw [hv, e2, Nat.or_zero]

/-- Every transaction of the sleep-exit traffic is one of seven. -/
theorem mem_wakeTransactions (en : Bool) (j : Nat) (ok : Bool) (t : List Nat)
    (ht : t ∈ wakeTransactions en j ok) :
    t = [CMD_READ, CTR_CANSTAT, 0] ∨ t = [CMD_READ, CTR_CANINTE, 0]
      ∨ (en = false ∧ t = [CMD_BITMODIF, CTR_CANINTE, 0x40, 0x40])
      ∨ t = [CMD_BITMODIF, CTR_CANINTF, 0x40, 0x40]
      ∨ t = [CMD_BITMODIF, CTR_CANCTRL, 0xE0, REQ_LISTENONLY]
      ∨ (en = false ∧ ok = true ∧ t = [CMD_BITMODIF, CTR_CANINTE, 0x40, 0])
      ∨ (ok = true ∧ t = [CMD_BITMODIF, CTR_CANINTF, 0x40, 0]) := by
  simp only [wakeTransactions, List.mem_append, List.mem_cons, List.mem_singleton,
    List.not_mem_nil, or_false, List.mem_flatten, List.mem_replicate] at ht
  rcases ht with (((((h | h) | h) | h) | h) | h)
  · exact Or.inl h
  · exact Or.inr (Or.inl h)
  · cases en
    · simp only [Bool.false_eq_true, if_false, List.mem_singleton] at h
      exact Or.inr (Or.inr (Or.inl ⟨rfl, h⟩))
    · simp at h
  · exact Or.inr (Or.inr (Or.inr (Or.inl h)))
  · obtain ⟨l, ⟨_, hl⟩, hmem⟩ := h
    subst hl
    simp only [List.mem_cons, List.mem_singleton, List.not_mem_nil, or_false] at hmem
    rcases hmem with h | h
    · exact Or.inr (Or.inr (Or.inr (Or.inr (Or.inl h))))
    · exact Or.inl h
  · cases ok
    · simp at h
    · cases en
      · simp only [if_true, Bool.false_eq_true, if_false, List.mem_append, List.mem_singleton] at h
        rcases h with h | h
        · exact Or.inr (Or.inr (Or.inr (Or.inr (Or.inr (Or.inl ⟨rfl, rfl, h⟩)))))
        · exact Or.inr (Or.inr (Or.inr (Or.inr (Or.inr (Or.inr ⟨rfl, h⟩)))))
      · simp only [if_true, List.mem_append, List.not_mem_nil, false_or, List.mem_singleton] at h
        exact Or.inr (Or.inr (Or.inr (Or.inr (Or.inr (Or.inr ⟨rfl, h⟩)))))


theorem foldl_neutral (a : Nat) (txs : List (List Nat))
    (h : ∀ t ∈ txs, ∀ rs : Nat → Nat, applyTransaction rs t a = rs a) :
    ∀ rs : Nat → Nat, (txs.foldl applyTransaction rs) a = rs a := by
  induction txs with
  | nil => intro rs; rfl
  | cons t ts ih =>
    intro rs
    rw [List.foldl_cons, ih (fun t' ht' => h t' (List.mem_cons_of_mem _ ht')),
      h t (List.mem_cons_self _ _)]

theorem foldl_other_bits (txs : List (List Nat))
    (h : ∀ t ∈ txs, ∀ rs : Nat → Nat, applyTransaction rs t 0x2B &&& 0xBF = rs 0x2B &&& 0xBF) :
    ∀ rs : Nat → Nat, (txs.foldl applyTransaction rs) 0x2B &&& 0xBF = rs 0x2B &&& 0xBF := by
  induction txs with
  | nil => intro rs; rfl
  | cons t ts ih =>
    intro rs
    rw [List.foldl_cons, ih (fun t' ht' => h t' (List.mem_cons_of_mem _ ht')),
      h t (List.mem_cons_self _ _)]

theorem fold_rounds (j : Nat) (rs : Nat → Nat) :
    ((List.replicate j
        [[CMD_BITMODIF, CTR_CANCTRL, 0xE0, REQ_LISTENONLY], [CMD_READ, CTR_CANSTAT, 0]]).flatten.foldl
      applyTransaction rs) 0x2B = rs 0x2B := by
  apply foldl_neutral
  intro t ht rs'
  simp only [List.mem_flatten, List.mem_replicate] at ht
  obtain ⟨l, ⟨_, hl⟩, hmem⟩ := ht
  subst hl
  simp only [List.mem_cons, List.mem_singleton, List.not_mem_nil, or_false] at hmem
  rcases hmem with h | h
  · subst h
    rw [apply_bitModify, if_neg (by decide)]
  · subst h
    rw [apply_read]

/-- Content of register 0x2B after the sleep-exit traffic has been applied to a register
file. -/
theorem wake_fold (en : Bool) (j : Nat) (ok : Bool) (rs : Nat → Nat) :
    ((wakeTransactions en j ok).foldl applyTransaction rs) 0x2B
      = if en = true then rs 0x2B
        else if ok = true then (((rs 0x2B &&& 0xBF) ||| 0x40) &&& 0xBF) ||| 0
        else (rs 0x2B &&& 0xBF) ||| 0x40 := by
  have e1 : (255 ^^^ 0x40 : Nat) = 0xBF := by decide
  have e2 : (0x40 &&& 0x40 : Nat) = 0x40 := by decide
  have e3 : (0 &&& 0x40 : Nat) = 0 := by decide
  cases en <;> cases ok <;>
    simp only [wakeTransactions, if_true, if_false, Bool.false_eq_true, List.foldl_append,
      List.foldl_cons, List.foldl_nil, List.append_nil, List.nil_append, apply_bitModify,
      apply_read, fold_rounds, CTR_CANINTE, CTR_CANINTF, e1, e2, e3, Nat.reduceEqDiff]

theorem wake_tx_other_bits (en : Bool) (j : Nat) (ok : Bool) (t : List Nat)
    (ht : t ∈ wakeTransactions en j ok) (rs : Nat → Nat) :
    applyTransaction rs t 0x2B &&& 0xBF = rs 0x2B &&& 0xBF := by
  have e1 : (255 ^^^ 0x40 : Nat) = 0xBF := by decide
  have e2 : (0x40 &&& 0x40 : Nat) = 0x40 := by decide
  have e3 : (0 &&& 0x40 : Nat) = 0 := by decide
  rcases mem_wakeTransactions en j ok t ht with h | h | ⟨_, h⟩ | h | h | ⟨_, _, h⟩ | ⟨_, h⟩ <;>
    subst h
  · rw [apply_read]
  · rw [apply_read]
  · rw [apply_bitModify, if_pos (by decide), e1, e2]
    exact other_bits_keep _ _ (Or.inr rfl)
  · rw [apply_bitModify, if_neg (by decide)]
  · rw [apply_bitModify, if_neg (by decide)]
  · rw [apply_bitModify, if_pos (by decide), e1, e3]
    exact other_bits_keep _ _ (Or.inl rfl)
  · rw [apply_bitModify, if_neg (by decide)]

theorem wake_tx_sets (en : Bool) (j : Nat) (ok : Bool) (t : List Nat)
    (ht : t ∈ wakeTransactions en j ok) (rs : Nat → Nat) (h0 : rs 0x2B &&& 0x40 = 0)
    (h1 : applyTransaction rs t 0x2B &&& 0x40 ≠ 0) : en = false := by
  have e1 : (255 ^^^ 0x40 : Nat) = 0xBF := by decide
  have e3 : (0 &&& 0x40 : Nat) = 0 := by decide
  rcases mem_wakeTransactions en j ok t ht with h | h | ⟨he, _⟩ | h | h | ⟨he, _, _⟩ | ⟨_, h⟩
  · subst h; rw [apply_read] at h1; exact absurd h0 h1
  · subst h; rw [apply_read] at h1; exact absurd h0 h1
  · exact he
  · subst h; rw [apply_bitModify, if_neg (by decide)] at h1; exact absurd h0 h1
  · subst h; rw [apply_bitModify, if_neg (by decide)] at h1; exact absurd h0 h1
  · exact he
  · subst h; rw [apply_bitModify, if_neg (by decide)] at h1; exact absurd h0 h1

theorem wake_tx_set_present (j : Nat) (ok : Bool) :
    [CMD_BITMODIF, CTR_CANINTE, 0x40, 0x40] ∈ wakeTransactions false j ok := by
  simp [wakeTransactions]

theorem suffix_last_round (pre : List Ev) (a b : List Ev) (j : Nat) (hj : 1 ≤ j) :
    b <:+ pre ++ (List.replicate j (a ++ b)).flatten := by
  obtain ⟨k, rfl⟩ : ∃ k, j = k + 1 := ⟨j - 1, by omega⟩
  rw [List.replicate_succ', List.flatten_append]
  simp only [List.flatten_cons, List.flatten_nil, List.append_nil]
  exact ⟨pre ++ ((List.replicate k (a ++ b)).flatten ++ a), by simp [List.append_assoc]⟩

theorem _setCANCTRL_fail (hw : Hw σ) (fuel : Nat) (w : World σ) (m : Nat)
    (h : (_exitSleepMode hw fuel w m).1 = some RSPN_FAIL) :
    _setCANCTRL hw fuel w m = (some RSPN_FAIL, (_exitSleepMode hw fuel w m).2) := by
  simp only [_setCANCTRL, h]
  rw [if_pos (by decide)]

theorem _setCANCTRL_none (hw : Hw σ) (fuel : Nat) (w : World σ) (m : Nat)
    (h : (_exitSleepMode hw fuel w m).1 = none) :
    _setCANCTRL hw fuel w m = (none, (_exitSleepMode hw fuel w m).2) := by
  simp only [_setCANCTRL, h]

/-! # The claims -/

/-- C1 (identifier round trip). For a standard identifier `id ≤ 2047` with extended flag 0
and for an extended identifier `id < 2^29` with extended flag 1: `_writeIDs(addr, ext, id)`
puts exactly its four bytes `tbufdata[0..3]` on the bus as one write starting at `addr`;
decoding these four bytes the way `_readIDs` does gives back `(ext, id)`; hence on every
board, whenever the four bytes that `_readIDs` reads are the four bytes `_writeIDs` wrote,
`_readIDs` returns the original extended flag and the original identifier. -/
theorem C1_identifier_round_trip (hw : Hw σ) (w w' : World σ) (addr addr' ext id : Nat)
    (h : (ext = 0 ∧ id ≤ 2047) ∨ (ext = 1 ∧ id < 2 ^ 29)) :
    (_writeIDs hw w addr ext id).bus
        = w.bus ++ busWriteN (addr % 256) (arrTake (_writeIDs_tbufdata ext id) 4)
      ∧ _readIDs_decode (_writeIDs_tbufdata ext id) = (ext, id)
      ∧ ((∀ i, i < 4 →
            (__readRegisters hw w' addr' (fun _ => 0) 4).1 i = _writeIDs_tbufdata ext id i) →
          (_readIDs hw w' addr').1 = (ext, id)) := by
  refine ⟨?_, roundtrip ext id h, ?_⟩
  · simp only [_writeIDs, __writeRegisters_bus, Nat.reduceMod, tbufdata_mod]
  · intro hread
    simp only [_readIDs]
    rw [decode_congr _ _ hread]
    exact roundtrip ext id h

/-- Witness for C1 on the register-file controller: the standard identifier 0x100 and the
extended identifier 0x1ABCDEF3, written to the identifier registers of transmit slot 0 and
read back from there. -/
theorem C1_identifier_round_trip_witness :
    (_readIDs simHw (_writeIDs simHw ⟨simIdle (fun _ => 0) 0 1, []⟩ 0x31 0 0x100) 0x31).1
        = (0, 0x100)
      ∧ (_readIDs simHw (_writeIDs simHw ⟨simIdle (fun _ => 0) 0 1, []⟩ 0x31 1 0x1ABCDEF3) 0x31).1
        = (1, 0x1ABCDEF3) :=
  ⟨(C1_identifier_round_trip simHw ⟨simIdle (fun _ => 0) 0 1, []⟩
      (_writeIDs simHw ⟨simIdle (fun _ => 0) 0 1, []⟩ 0x31 0 0x100) 0x31 0x31 0 0x100
      (Or.inl ⟨rfl, by decide⟩)).2.2 (by decide),
   (C1_identifier_round_trip simHw ⟨simIdle (fun _ => 0) 0 1, []⟩
      (_writeIDs simHw ⟨simIdle (fun _ => 0) 0 1, []⟩ 0x31 1 0x1ABCDEF3) 0x31 0x31 1 0x1ABCDEF3
      (Or.inr ⟨rfl, by decide⟩)).2.2 (by decide)⟩

/-- C2 (identifier layout). For a standard identifier (`ext = 0`, `id ≤ 2047`) and for an
extended identifier (`ext = 1`, `id < 2^29`), the four bytes that `_writeIDs(addr, ext, id)`
writes, in the order SIDH, SIDL, EID8, EID0 starting at `addr`, are the bytes of the
specification's layout. -/
theorem C2_identifier_layout (hw : Hw σ) (w : World σ) (addr ext id : Nat)
    (h : (ext = 0 ∧ id ≤ 2047) ∨ (ext = 1 ∧ id < 2 ^ 29)) :
    arrTake (_writeIDs_tbufdata ext id) 4 = specLayout (decide (ext = 1)) id
      ∧ (_writeIDs hw w addr ext id).bus
          = w.bus ++ busWriteN (addr % 256) (specLayout (decide (ext = 1)) id) := by
  have hl : arrTake (_writeIDs_tbufdata ext id) 4 = specLayout (decide (ext = 1)) id := by
    rcases h with ⟨he, hid⟩ | ⟨he, hid⟩
    · subst he; exact layout_std id hid
    · subst he; exact layout_ext id hid
  refine ⟨hl, ?_⟩
  rw [← hl]
  simp only [_writeIDs, __writeRegisters_bus, Nat.reduceMod, tbufdata_mod]

/-- Witness for C2: the standard identifier 0x123 is laid out as `[0x24, 0x60, 0, 0]`, the
extended identifier 0x1ABCDEF3 as `[0xD5, 0xE8, 0xDE, 0xF3]`. -/
theorem C2_identifier_layout_witness :
    arrTake (_writeIDs_tbufdata 0 0x123) 4 = [0x24, 0x60, 0, 0]
      ∧ arrTake (_writeIDs_tbufdata 1 0x1ABCDEF3) 4 = [0xD5, 0xE8, 0xDE, 0xF3] :=
  ⟨(C2_identifier_layout simHw ⟨simIdle (fun _ => 0) 0 1, []⟩ 0x31 0 0x123
      (Or.inl ⟨rfl, by decide⟩)).1.trans (by decide),
   (C2_identifier_layout simHw ⟨simIdle (fun _ => 0) 0 1, []⟩ 0x31 1 0x1ABCDEF3
      (Or.inr ⟨rfl, by decide⟩)).1.trans (by decide)⟩

/-- C3 (transmit slot selection). Let the free-slot loop of `writeData` have gone through
`k` scans that read all three busy bits set in time, and let the next scan read the busy bit
(0x08) of slot `i` clear and those of all slots with a higher index set, with less than
2500 microseconds elapsed after it. Then, given fuel for more than `k` iterations,
the scan selects the slot address `0x30 + 0x10 * i + 1` and `writeData` continues right
after that scan by loading the frame into the register block whose control register is
`c = 0x30 + 0x10 * i`: payload (first `min len 8` bytes) from `c + 6`, DLC to `c + 5`,
identifier bytes to `c + 1 … c + 4`, transmit request on `c`. -/
theorem C3_highest_free_slot_is_loaded (hw : Hw σ) (fuel k i : Nat) (d : Drv) (w wk : World σ)
    (id ext len : Nat) (buf : Nat → Nat)
    (hE : d.canError = 0)
    (hk : afterBusyScans hw (micros hw w).1 k (micros hw w).2 = some wk)
    (hfuel : k < fuel)
    (hi : i < 3)
    (hfree : (scanReads hw wk).1.getD i 0 &&& 0x08 = 0)
    (hbusy : ∀ j, i < j → j < 3 → (scanReads hw wk).1.getD j 0 &&& 0x08 ≠ 0)
    (htime : u32sub (micros hw (scanReads hw wk).2).1 (micros hw w).1 < 2500) :
    (getNextFreeTXBuf hw wk).2.1 = 0x30 + 0x10 * i + 1
      ∧ ((scanReads hw wk).2.bus
          ++ loadFrames (0x30 + 0x10 * i) ((arrTake buf (min (len % 256) 8)).map (· % 256))
              (min (len % 256) 8) (arrTake (_writeIDs_tbufdata ext id) 4))
        <+: (writeData hw fuel d w id ext len buf).2.2.bus := by
  have hp := waitFreeTXBuf_found hw (micros hw w).1 fuel k i (micros hw w).2 wk hk hfuel hi
    hfree hbusy
  have h := writeData_load hw fuel d w id ext len buf RSPN_OK (0x30 + 0x10 * i + 1) _ hE
    (by rw [hp]) htime
  rw [hp] at h
  refine ⟨(getNextFreeTXBuf_free hw wk i hi hfree hbusy).2, ?_⟩
  simpa only [micros_bus, Nat.add_sub_cancel] using h


/-- Witness for C3 on the scripted board: after one all-busy scan, the scan that reads
(free, busy, free) makes `writeData` load slot 2 (control register 0x50). -/
theorem C3_highest_free_slot_is_loaded_witness :
    (scanFrames ++ scanFrames
        ++ loadFrames 0x50 [1, 2, 3, 4, 5, 6, 7, 8] 8 [0x20, 0, 0, 0])
      <+: (writeData scriptHw 5 newDrv c3Board 0x100 0 8 (arrOf [1, 2, 3, 4, 5, 6, 7, 8])).2.2.bus :=
  (C3_highest_free_slot_is_loaded scriptHw 5 1 2 newDrv c3Board
    ⟨⟨answer 0 ++ answer 8 ++ answer 0, [900, 1000, 1200]⟩, scanFrames⟩
    0x100 0 8 (arrOf [1, 2, 3, 4, 5, 6, 7, 8])
    rfl rfl (by decide) (by decide) (by decide) (fun j h1 h2 => absurd h1 (by omega))
    (by decide)).2


/-- Counterexample to C4 as stated. With the three slots reading (free, free, busy),
`writeData` does not load slot index 0 (control register 0x30): the scan yields the slot
address 0x41, and the frame is loaded into the block of control register 0x40. -/
theorem C4_free_free_busy_counterexample :
    (scanReads scriptHw ⟨⟨answer 0 ++ answer 0 ++ answer 8, [500, 900, 1000]⟩, []⟩).1 = [0, 0, 8]
      ∧ (getNextFreeTXBuf scriptHw ⟨⟨answer 0 ++ answer 0 ++ answer 8, [500, 900, 1000]⟩, []⟩).2.1
          = 0x41
      ∧ (writeData scriptHw 5 newDrv c4Board 0x100 0 8 (arrOf [1, 2, 3, 4, 5, 6, 7, 8])).1
          = some RSPN_OK
      ∧ (writeData scriptHw 5 newDrv c4Board 0x100 0 8 (arrOf [1, 2, 3, 4, 5, 6, 7, 8])).2.2.bus
          = scanFrames ++ loadFrames 0x40 [1, 2, 3, 4, 5, 6, 7, 8] 8 [0x20, 0, 0, 0]
              ++ busRead 0x40
      ∧ ¬ ((scanFrames ++ loadFrames 0x30 [1, 2, 3, 4, 5, 6, 7, 8] 8 [0x20, 0, 0, 0])
            <+: (writeData scriptHw 5 newDrv c4Board 0x100 0 8
                  (arrOf [1, 2, 3, 4, 5, 6, 7, 8])).2.2.bus) := by
  refine ⟨rfl, rfl, rfl, rfl, ?_⟩
  decide

/-- C4, amended. When a scan of the free-slot loop reads slot 0 free, slot 1 free and
slot 2 busy with less than 2500 microseconds elapsed (after `k` all-busy in-time scans),
the scan selects the slot address 0x41 and `writeData` loads slot index 1: the register
block of control register 0x40. -/
theorem C4_free_free_busy_loads_index_1 (hw : Hw σ) (fuel k : Nat) (d : Drv) (w wk : World σ)
    (id ext len : Nat) (buf : Nat → Nat)
    (hE : d.canError = 0)
    (hk : afterBusyScans hw (micros hw w).1 k (micros hw w).2 = some wk)
    (hfuel : k < fuel)
    (_h0 : (scanReads hw wk).1.getD 0 0 &&& 0x08 = 0)
    (h1 : (scanReads hw wk).1.getD 1 0 &&& 0x08 = 0)
    (h2 : (scanReads hw wk).1.getD 2 0 &&& 0x08 ≠ 0)
    (htime : u32sub (micros hw (scanReads hw wk).2).1 (micros hw w).1 < 2500) :
    (getNextFreeTXBuf hw wk).2.1 = 0x41
      ∧ ((scanReads hw wk).2.bus
          ++ loadFrames 0x40 ((arrTake buf (min (len % 256) 8)).map (· % 256))
              (min (len % 256) 8) (arrTake (_writeIDs_tbufdata ext id) 4))
        <+: (writeData hw fuel d w id ext len buf).2.2.bus := by
  have hb : ∀ j, 1 < j → j < 3 → (scanReads hw wk).1.getD j 0 &&& 0x08 ≠ 0 := by
    intro j hj1 hj3
    have hj : j = 2 := by omega
    subst hj
    exact h2
  have hp := waitFreeTXBuf_found hw (micros hw w).1 fuel k 1 (micros hw w).2 wk hk hfuel
    (by decide) h1 hb
  have h := writeData_load hw fuel d w id ext len buf RSPN_OK (0x30 + 0x10 * 1 + 1) _ hE
    (by rw [hp]) htime
  rw [hp] at h
  refine ⟨(getNextFreeTXBuf_free hw wk 1 (by decide) h1 hb).2, ?_⟩
  simpa only [micros_bus, Nat.add_sub_cancel] using h

/-- Witness for the amended C4 on the scripted board. -/
theorem C4_free_free_busy_loads_index_1_witness :
    (scanFrames ++ loadFrames 0x40 [1, 2, 3, 4, 5, 6, 7, 8] 8 [0x20, 0, 0, 0])
      <+: (writeData scriptHw 5 newDrv c4Board 0x100 0 8 (arrOf [1, 2, 3, 4, 5, 6, 7, 8])).2.2.bus :=
  (C4_free_free_busy_loads_index_1 scriptHw 5 0 newDrv c4Board
    ⟨⟨answer 0 ++ answer 0 ++ answer 8, [500, 900, 1000]⟩, []⟩
    0x100 0 8 (arrOf [1, 2, 3, 4, 5, 6, 7, 8])
    rfl rfl (by decide) (by decide) (by decide) (by decide) (by decide)).2

/-- C5, the code at the failing input. Receive slot 0 of the register-file controller holds
the standard frame 0x100 with DLC register byte 0x42 (remote-request bit 0x40 set, length
code 2). `_readReceivMsg` stores the length 8 and `readData` reports `*len = 8`, whereas
masking first and clamping afterwards gives `min (0x42 & 0x0F) 8 = 2`. -/
theorem C5_dlc_0x42_is_reported_as_8 :
    (_readReceivMsg simHw newDrv
        ⟨simIdle (rxSlot0 0 [0x20, 0, 0, 0] 0x42 [1, 2, 3, 4, 5, 6, 7, 8]) 1 1, []⟩
        CTR_RXB0SIDH).1.m_nDlc = 8
      ∧ (readData simHw newDrv
          ⟨simIdle (rxSlot0 0 [0x20, 0, 0, 0] 0x42 [1, 2, 3, 4, 5, 6, 7, 8]) 1 1, []⟩
          ⟨0, 0, fun _ => 0⟩).2.2.2.len = 8
      ∧ min (0x42 &&& 0x0F) 8 = 2 := by
  refine ⟨rfl, rfl, by decide⟩

/-- Counterexample to C6 as stated, on the register-file controller. With control register
0x60 = 0x08 and DLC register byte 0x02 (bit 0x40 clear) the remote-request flag is set;
with control register 0x60 = 0 and DLC register byte 0x42 (bit 0x40 set) it is clear. -/
theorem C6_rtr_not_from_dlc_counterexample :
    ((0x02 &&& 0x40 = 0)
      ∧ (_readReceivMsg simHw newDrv
          ⟨simIdle (rxSlot0 0x08 [0x20, 0, 0, 0] 0x02 [1, 2]) 1 1, []⟩ CTR_RXB0SIDH).1.m_nRtr = 1)
    ∧ ((0x42 &&& 0x40 ≠ 0)
      ∧ (_readReceivMsg simHw newDrv
          ⟨simIdle (rxSlot0 0 [0x20, 0, 0, 0] 0x42 [1, 2]) 1 1, []⟩ CTR_RXB0SIDH).1.m_nRtr = 0) := by
  refine ⟨⟨by decide, rfl⟩, ⟨by decide, rfl⟩⟩

/-- C6, amended. For every board and every receive slot SIDH address `sidh` (1..255), the
remote-request flag `m_nRtr` that `_readReceivMsg` stores is 1 if bit 0x08 of the byte it
reads from the slot's control register (`sidh - 1`, read right after the identifier
registers) is set, and 0 otherwise; the DLC register byte plays no part in it. -/
theorem C6_rtr_from_control_register (hw : Hw σ) (d : Drv) (w : World σ) (sidh : Nat)
    (h1 : 1 ≤ sidh) (h2 : sidh ≤ 255) :
    ((_readReceivMsg hw d w sidh).1.m_nRtr = 1
        ↔ (__readRegister hw (_readIDs hw w sidh).2 (sidh - 1)).1 &&& 0x08 ≠ 0)
      ∧ ((_readReceivMsg hw d w sidh).1.m_nRtr = 0
        ↔ (__readRegister hw (_readIDs hw w sidh).2 (sidh - 1)).1 &&& 0x08 = 0) := by
  have e0 : sidh % 256 = sidh := by omega
  have e1 : (sidh + 255) % 256 = sidh - 1 := by omega
  rw [_readReceivMsg_eq]
  simp only [e0, e1]
  by_cases h : (__readRegister hw (_readIDs hw w sidh).2 (sidh - 1)).1 &&& 0x08 ≠ 0
  · rw [if_pos h]
    exact ⟨⟨fun _ => h, fun _ => rfl⟩, ⟨fun h' => absurd h' (by decide), fun h' => absurd h' h⟩⟩
  · rw [if_neg h]
    have h0 : (__readRegister hw (_readIDs hw w sidh).2 (sidh - 1)).1 &&& 0x08 = 0 :=
      not_not.mp h
    exact ⟨⟨fun h' => absurd h' (by decide), fun h' => absurd h0 h'⟩, ⟨fun _ => h0, fun _ => rfl⟩⟩

/-- Witness for the amended C6 on the register-file controller: control register
0x60 = 0x08 gives the flag 1 although the DLC register byte is 0x02. -/
theorem C6_rtr_from_control_register_witness :
    (_readReceivMsg simHw newDrv
        ⟨simIdle (rxSlot0 0x08 [0x20, 0, 0, 0] 0x02 [1, 2]) 1 1, []⟩ 0x61).1.m_nRtr = 1 :=
  (C6_rtr_from_control_register simHw newDrv
    ⟨simIdle (rxSlot0 0x08 [0x20, 0, 0, 0] 0x02 [1, 2]) 1 1, []⟩ 0x61
    (by decide) (by decide)).1.mpr (by decide)

/-- C7 (transmit DLC clamp). Let a `writeData` call with requested length `len ≤ 255`
obtain a free slot: its free-slot loop is left with slot address `n` and less than
2500 microseconds elapsed. Then `n` is the SIDH address of one of the three slots (0x31,
0x41, 0x51), and the first two bus transactions after the loop are: for `9 ≤ len`, a write of exactly the first 8 bytes of the caller's payload to the payload
registers from `n + 5`, and a write of 8 to the DLC register `n + 4`; for `len ≤ 8`, a
write of exactly the first `len` payload bytes and a write of `len`. -/
theorem C7_transmit_dlc_clamp (hw : Hw σ) (fuel : Nat) (d : Drv) (w : World σ)
    (id ext len : Nat) (buf : Nat → Nat) (res n t : Nat)
    (hE : d.canError = 0) (hlen : len ≤ 255)
    (hp : (waitFreeTXBuf hw (micros hw w).1 fuel (micros hw w).2).1 = some (res, n, t))
    (ht : t < 2500) :
    (n = 0x31 ∨ n = 0x41 ∨ n = 0x51)
      ∧ (9 ≤ len →
        ((waitFreeTXBuf hw (micros hw w).1 fuel (micros hw w).2).2.bus
            ++ busWriteN (n + 5) ((arrTake buf 8).map (· % 256)) ++ busWrite (n + 4) 8)
          <+: (writeData hw fuel d w id ext len buf).2.2.bus)
      ∧ (len ≤ 8 →
        ((waitFreeTXBuf hw (micros hw w).1 fuel (micros hw w).2).2.bus
            ++ busWriteN (n + 5) ((arrTake buf len).map (· % 256)) ++ busWrite (n + 4) len)
          <+: (writeData hw fuel d w id ext len buf).2.2.bus) := by
  have hn := waitFreeTXBuf_slot hw _ fuel _ res n t hp ht
  have h := writeData_load hw fuel d w id ext len buf res n t hE hp ht
  have h5 : n - 1 + 6 = n + 5 := by omega
  have h4 : n - 1 + 5 = n + 4 := by omega
  have hm : len % 256 = len := by omega
  simp only [loadFrames, h5, h4, hm, ← List.append_assoc] at h
  refine ⟨hn, ?_, ?_⟩
  · intro h9
    rw [show min len 8 = 8 from by omega] at h
    exact List.IsPrefix.trans (List.prefix_append _ _)
      (List.IsPrefix.trans (List.prefix_append _ _) h)
  · intro h8
    rw [show min len 8 = len from by omega] at h
    exact List.IsPrefix.trans (List.prefix_append _ _)
      (List.IsPrefix.trans (List.prefix_append _ _) h)

/-- Witness for C7 on the scripted board where every slot reads free: a request of 12
bytes writes the first 8 of them and the DLC value 8 into slot 2 (payload registers from
0x56, DLC register 0x55). -/
theorem C7_transmit_dlc_clamp_witness :
    (scanFrames ++ busWriteN 0x56 [1, 2, 3, 4, 5, 6, 7, 8] ++ busWrite 0x55 8)
      <+: (writeData scriptHw 5 newDrv c7Board 0x100 0 12
            (arrOf [1, 2, 3, 4, 5, 6, 7, 8, 9, 10, 11, 12])).2.2.bus :=
  (C7_transmit_dlc_clamp scriptHw 5 newDrv c7Board 0x100 0 12
    (arrOf [1, 2, 3, 4, 5, 6, 7, 8, 9, 10, 11, 12]) RSPN_OK 0x51 490
    rfl (by decide) rfl (by decide)).2.1 (by decide)

/-- C8 (receive precedence). Whenever the status byte read by `readData` has bit 0 and
bit 1 both set, `readData` returns `RSPN_OK` and what it drives onto the bus is exactly: the
status read, the read of the four identifier registers from 0x61, the reads of 0x60 and
0x65, the read of `m_nDlc ≤ 8` payload registers from 0x66, and the bit-modify of register
0x2C with mask 0x01 and value 0. No transaction addresses slot 1 (0x70..0x7D), and the only
bit-modify has mask 0x01, so the RX1 flag (mask 0x02) is not touched. -/
theorem C8_receive_precedence (hw : Hw σ) (d : Drv) (w : World σ) (args : RxArgs)
    (hE : d.canError = 0)
    (hb0 : (_readStatus hw w).1 &&& 0x01 ≠ 0)
    (_hb1 : (_readStatus hw w).1 &&& 0x02 ≠ 0) :
    (readData hw d w args).1 = RSPN_OK
      ∧ (readData hw d w args).2.1.m_nDlc ≤ 8
      ∧ (readData hw d w args).2.2.1.bus
          = w.bus ++ busStatus ++ busReadN 0x61 4 ++ busRead 0x60 ++ busRead 0x65
              ++ busReadN 0x66 (readData hw d w args).2.1.m_nDlc
              ++ busBitModify 0x2C 0x01 0 := by
  obtain ⟨hres, hworld, hdlc, _, _, _⟩ := readData_slot0 hw d w args hE hb0
  refine ⟨hres, ?_, ?_⟩
  · rw [hdlc, _readReceivMsg_eq]
    exact Nat.min_le_right _ _
  · rw [hworld, hdlc, __bitModify_bus,
      _readReceivMsg_bus hw d (_readStatus hw w).2 CTR_RXB0SIDH (by decide) (by decide),
      _readStatus_bus]
    rfl

/-- Witness for C8 on the register-file controller with status byte 0x03 and a standard
frame of two bytes in slot 0. -/
theorem C8_receive_precedence_witness :
    (readData simHw newDrv ⟨simIdle (rxSlot0 0 [0x20, 0, 0, 0] 2 [0xAA, 0xBB]) 3 1, []⟩
        ⟨0, 0, fun _ => 0⟩).2.2.1.bus
      = busStatus ++ busReadN 0x61 4 ++ busRead 0x60 ++ busRead 0x65 ++ busReadN 0x66 2
          ++ busBitModify 0x2C 0x01 0 :=
  (C8_receive_precedence simHw newDrv
    ⟨simIdle (rxSlot0 0 [0x20, 0, 0, 0] 2 [0xAA, 0xBB]) 3 1, []⟩ ⟨0, 0, fun _ => 0⟩
    rfl (by decide) (by decide)).2.2

/-- C9 (receive returns a standard data frame unchanged). On the register-file controller,
let receive slot 0 hold a standard data frame: status bit 0 set, registers 0x61..0x64
holding the standard encoding of `id ≤ 2047` (the four bytes `_writeIDs` produces for it),
register 0x65 holding the length `n ≤ 8`, the remote-request indication (bit 0x08 of
control register 0x60) clear, and registers 0x66.. holding the `n` payload bytes. Then
`readData` returns `RSPN_OK` with `*id = id`, `*len = n` and `buf[0..n-1]` equal to the
payload. -/
theorem C9_receive_standard_frame (s : Sim) (b : List Ev) (d : Drv) (args : RxArgs) (id : Nat)
    (payload : List Nat)
    (hE : d.canError = 0) (hs : s.selected = false) (hrx : s.rx = [])
    (hid : id ≤ 2047) (hn : payload.length ≤ 8) (hbytes : ∀ x ∈ payload, x < 256)
    (hstat : s.status &&& 0x01 ≠ 0)
    (hctrl : s.regs 0x60 &&& 0x08 = 0)
    (hids : ∀ i, i < 4 → s.regs (0x61 + i) = _writeIDs_tbufdata 0 id i)
    (hdlc : s.regs 0x65 = payload.length)
    (hpay : ∀ i, i < payload.length → s.regs (0x66 + i) = payload.getD i 0) :
    (readData simHw d ⟨s, b⟩ args).1 = RSPN_OK
      ∧ (readData simHw d ⟨s, b⟩ args).2.2.2.id = id
      ∧ (readData simHw d ⟨s, b⟩ args).2.2.2.len = payload.length
      ∧ arrTake (readData simHw d ⟨s, b⟩ args).2.2.2.buf payload.length = payload := by
  have hst : (_readStatus simHw ⟨s, b⟩).1 &&& 1 ≠ 0 := by
    rw [sim_readStatus s b hs hrx]
    simp only []
    rw [land_byte s.status 1 (by decide)]
    exact hstat
  obtain ⟨hres, _, _, hlen, hident, hbuf⟩ := readData_slot0 simHw d ⟨s, b⟩ args hE hst
  have hdec : _readIDs_decode (fun j => if j < 4 then s.regs (97 + j) % 256 else 0) = (0, id) := by
    rw [decode_congr _ (_writeIDs_tbufdata 0 id)]
    · exact roundtrip_std id hid
    · intro i hi
      rw [if_pos hi, hids i hi]
      exact Nat.mod_eq_of_lt (tbufdata_lt 0 id i hi)
  have hc : s.regs 96 % 256 &&& 8 = 0 := by
    rw [land_byte (s.regs 96) 8 (by decide)]
    exact hctrl
  have hm : _readReceivMsg simHw d (_readStatus simHw ⟨s, b⟩).2 CTR_RXB0SIDH
      = ({ d with m_nExtFlg := 0, m_nID := id, m_nDlc := payload.length, m_nRtr := 0,
                  m_nDta := fun j => if j < payload.length then s.regs (102 + j) % 256
                                     else d.m_nDta j },
          ⟨s, b ++ busStatus ++ busReadN 0x61 4 ++ busRead 0x60 ++ busRead 0x65
                ++ busReadN 0x66 payload.length⟩) := by
    rw [_readReceivMsg_eq, sim_readStatus s b hs hrx]
    simp only [CTR_RXB0SIDH, Nat.reduceMod, Nat.reduceAdd, _readIDs,
      sim_readRegisters s _ _ _ _ hs hrx, sim_readRegister s _ _ hs hrx, hdec, hc, hdlc]
    have e1 : payload.length % 256 = payload.length := by omega
    have e2 : min payload.length 8 = payload.length := by omega
    simp only [e1, e2, ne_eq, not_true_eq_false, if_false, List.append_assoc]
  rw [hm] at hlen hident hbuf
  simp only [ne_eq, not_true_eq_false, if_false] at hlen hident hbuf
  refine ⟨hres, hident, hlen, ?_⟩
  rw [hbuf]
  apply List.ext_getElem
  · simp [arrTake]
  · intro i h1 h2
    simp only [arrTake, List.length_map, List.length_range] at h1
    simp only [arrTake, List.getElem_map, List.getElem_range]
    rw [if_pos h1, hpay i h1, List.getD_eq_getElem _ _ h2]
    exact Nat.mod_eq_of_lt (hbytes _ (List.getElem_mem h2))

/-- Witness for C9: the frame with identifier 0x100 and payload 1..8 in receive slot 0 is
returned unchanged. -/
theorem C9_receive_standard_frame_witness :
    (readData simHw newDrv
        ⟨simIdle (rxSlot0 0 [0x20, 0, 0, 0] 8 [1, 2, 3, 4, 5, 6, 7, 8]) 1 1, []⟩
        ⟨0, 0, fun _ => 0⟩).1 = RSPN_OK
      ∧ (readData simHw newDrv
        ⟨simIdle (rxSlot0 0 [0x20, 0, 0, 0] 8 [1, 2, 3, 4, 5, 6, 7, 8]) 1 1, []⟩
        ⟨0, 0, fun _ => 0⟩).2.2.2.id = 0x100
      ∧ (readData simHw newDrv
        ⟨simIdle (rxSlot0 0 [0x20, 0, 0, 0] 8 [1, 2, 3, 4, 5, 6, 7, 8]) 1 1, []⟩
        ⟨0, 0, fun _ => 0⟩).2.2.2.len = 8
      ∧ arrTake (readData simHw newDrv
        ⟨simIdle (rxSlot0 0 [0x20, 0, 0, 0] 8 [1, 2, 3, 4, 5, 6, 7, 8]) 1 1, []⟩
        ⟨0, 0, fun _ => 0⟩).2.2.2.buf 8 = [1, 2, 3, 4, 5, 6, 7, 8] :=
  C9_receive_standard_frame (simIdle (rxSlot0 0 [0x20, 0, 0, 0] 8 [1, 2, 3, 4, 5, 6, 7, 8]) 1 1)
    [] newDrv ⟨0, 0, fun _ => 0⟩ 0x100 [1, 2, 3, 4, 5, 6, 7, 8]
    rfl rfl rfl (by decide) (by decide) (by decide) (by decide) (by decide) (by decide) rfl
    (by decide)

/-- C10 (transmit-buffer timeout). Let the free-slot loop of `writeData` go through `k`
scans that read all three busy bits set with less than 2500 microseconds elapsed, and then
through a scan that again reads all three busy bits set, after which 2500 microseconds or
more have elapsed. Then, given fuel for more than `k` iterations, `writeData` returns
`RSPN_GETTXBFTIMEOUT` (code 6), and everything it has driven onto the bus is the `k + 1`
scans, each three single-register reads: no register write and no bit-modify. -/
theorem C10_transmit_buffer_timeout (hw : Hw σ) (fuel k : Nat) (d : Drv) (w wk : World σ)
    (id ext len : Nat) (buf : Nat → Nat)
    (hE : d.canError = 0)
    (hk : afterBusyScans hw (micros hw w).1 k (micros hw w).2 = some wk)
    (hfuel : k < fuel)
    (_hlast : ∀ v ∈ (scanReads hw wk).1, v &&& 0x08 ≠ 0)
    (htime : 2500 ≤ u32sub (micros hw (scanReads hw wk).2).1 (micros hw w).1) :
    (writeData hw fuel d w id ext len buf).1 = some RSPN_GETTXBFTIMEOUT
      ∧ RSPN_GETTXBFTIMEOUT = 6
      ∧ (writeData hw fuel d w id ext len buf).2.2.bus
          = w.bus ++ (List.replicate (k + 1) scanFrames).flatten := by
  obtain ⟨f, rfl⟩ : ∃ f, fuel = k + (f + 1) := ⟨fuel - k - 1, by omega⟩
  have hp : waitFreeTXBuf hw (micros hw w).1 (k + (f + 1)) (micros hw w).2
      = (some ((getNextFreeTXBuf hw wk).1, (getNextFreeTXBuf hw wk).2.1,
          u32sub (micros hw (scanReads hw wk).2).1 (micros hw w).1),
          (micros hw (scanReads hw wk).2).2) := by
    rw [waitFreeTXBuf_skip hw _ (f + 1) k _ wk hk]
    exact waitFreeTXBuf_leave hw _ f wk (fun hc => absurd hc.2 (by omega))
  have h := writeData_timeout hw (k + (f + 1)) d w id ext len buf _ _ _ hE (by rw [hp]) htime
  rw [h, hp]
  refine ⟨rfl, rfl, ?_⟩
  simp only [micros_bus, scanReads_bus, afterBusyScans_bus hw _ k _ wk hk]
  rw [List.replicate_succ', List.flatten_append]
  simp

/-- Witness for C10 on the scripted board: two all-busy scans in time, a third at 3000
microseconds; `writeData` returns 6 after nine register reads. -/
theorem C10_transmit_buffer_timeout_witness :
    (writeData scriptHw 5 newDrv c10Board 0x100 0 8 (arrOf [1, 2, 3, 4, 5, 6, 7, 8])).1 = some 6
      ∧ (writeData scriptHw 5 newDrv c10Board 0x100 0 8 (arrOf [1, 2, 3, 4, 5, 6, 7, 8])).2.2.bus
          = scanFrames ++ scanFrames ++ scanFrames :=
  have h := C10_transmit_buffer_timeout scriptHw 5 2 newDrv c10Board
    ⟨⟨answer 8 ++ answer 8 ++ answer 8, [3010]⟩, scanFrames ++ scanFrames⟩
    0x100 0 8 (arrOf [1, 2, 3, 4, 5, 6, 7, 8])
    rfl rfl (by decide) (by decide) (by decide)
  ⟨h.1, h.2.2.trans (by decide)⟩

/-- Counterexample to C11 as stated. On the scripted board the first scan reads all three
slots free, but the clock read after it shows 2590 microseconds elapsed: `writeData`
returns `RSPN_GETTXBFTIMEOUT` although the last scan found a free slot, and nothing is
loaded (the bus carries the three reads of the scan only). -/
theorem C11_timeout_with_free_slot_counterexample :
    (scanReads scriptHw ⟨⟨[], [2600]⟩, []⟩).1 = [0, 0, 0]
      ∧ (getNextFreeTXBuf scriptHw ⟨⟨[], [2600]⟩, []⟩).1 = RSPN_OK
      ∧ (writeData scriptHw 5 newDrv c11Board 0x100 0 8 (arrOf [1, 2, 3, 4, 5, 6, 7, 8])).1
          = some RSPN_GETTXBFTIMEOUT
      ∧ (writeData scriptHw 5 newDrv c11Board 0x100 0 8 (arrOf [1, 2, 3, 4, 5, 6, 7, 8])).2.2.bus
          = scanFrames := by
  refine ⟨rfl, rfl, rfl, rfl⟩

/-- C11, amended. Let the free-slot loop of `writeData` have gone through `k` all-busy
in-time scans, and let the next scan find slot `i` free (and all higher slots busy); let
`t` be the time elapsed since the start of the polling as read right after that scan. Then
the polling stops at that scan with the slot address `0x30 + 0x10 * i + 1`; `writeData`
returns `RSPN_GETTXBFTIMEOUT` exactly when `2500 ≤ t`, in which case nothing but the scans
has gone over the bus; and when `t < 2500` the frame is loaded into that slot. -/
theorem C11_timeout_iff_deadline_passed (hw : Hw σ) (fuel k i : Nat) (d : Drv) (w wk : World σ)
    (id ext len : Nat) (buf : Nat → Nat)
    (hE : d.canError = 0)
    (hk : afterBusyScans hw (micros hw w).1 k (micros hw w).2 = some wk)
    (hfuel : k < fuel)
    (hi : i < 3)
    (hfree : (scanReads hw wk).1.getD i 0 &&& 0x08 = 0)
    (hbusy : ∀ j, i < j → j < 3 → (scanReads hw wk).1.getD j 0 &&& 0x08 ≠ 0) :
    waitFreeTXBuf hw (micros hw w).1 fuel (micros hw w).2
        = (some (RSPN_OK, 0x30 + 0x10 * i + 1,
            u32sub (micros hw (scanReads hw wk).2).1 (micros hw w).1),
            (micros hw (scanReads hw wk).2).2)
      ∧ ((writeData hw fuel d w id ext len buf).1 = some RSPN_GETTXBFTIMEOUT
          ↔ 2500 ≤ u32sub (micros hw (scanReads hw wk).2).1 (micros hw w).1)
      ∧ (2500 ≤ u32sub (micros hw (scanReads hw wk).2).1 (micros hw w).1 →
          (writeData hw fuel d w id ext len buf).2.2.bus
            = w.bus ++ (List.replicate (k + 1) scanFrames).flatten)
      ∧ (u32sub (micros hw (scanReads hw wk).2).1 (micros hw w).1 < 2500 →
          ((scanReads hw wk).2.bus
            ++ loadFrames (0x30 + 0x10 * i) ((arrTake buf (min (len % 256) 8)).map (· % 256))
                (min (len % 256) 8) (arrTake (_writeIDs_tbufdata ext id) 4))
          <+: (writeData hw fuel d w id ext len buf).2.2.bus) := by
  have hp := waitFreeTXBuf_found hw (micros hw w).1 fuel k i (micros hw w).2 wk hk hfuel hi
    hfree hbusy
  have hp1 : (waitFreeTXBuf hw (micros hw w).1 fuel (micros hw w).2).1
      = some (RSPN_OK, 0x30 + 0x10 * i + 1,
          u32sub (micros hw (scanReads hw wk).2).1 (micros hw w).1) := by rw [hp]
  refine ⟨hp, ⟨?_, ?_⟩, ?_, ?_⟩
  · intro h6
    by_contra hlt
    have ht : u32sub (micros hw (scanReads hw wk).2).1 (micros hw w).1 < 2500 := by omega
    rw [writeData_after_load hw fuel d w id ext len buf _ _ _ hE hp1 ht] at h6
    cases hq : (waitSent hw (0x30 + 0x10 * i + 1)
        (micros hw (sendRequested hw fuel d w id ext len buf (0x30 + 0x10 * i + 1))).1 fuel
        (micros hw (sendRequested hw fuel d w id ext len buf (0x30 + 0x10 * i + 1))).2).1 with
    | none => rw [hq] at h6; simp at h6
    | some u =>
      rw [hq] at h6
      simp only [Option.map_some', Option.some.injEq] at h6
      split_ifs at h6 <;> simp [RSPN_SENDMSGTIMEOUT, RSPN_OK, RSPN_GETTXBFTIMEOUT] at h6
  · intro ht
    rw [writeData_timeout hw fuel d w id ext len buf _ _ _ hE hp1 ht]
  · intro ht
    rw [writeData_timeout hw fuel d w id ext len buf _ _ _ hE hp1 ht, hp]
    simp only [micros_bus, scanReads_bus, afterBusyScans_bus hw _ k _ wk hk]
    rw [List.replicate_succ', List.flatten_append]
    simp
  · intro ht
    have h := writeData_load hw fuel d w id ext len buf RSPN_OK (0x30 + 0x10 * i + 1) _ hE
      hp1 ht
    rw [hp] at h
    simpa only [micros_bus, Nat.add_sub_cancel] using h

/-- Witness for the amended C11 on the scripted board where the first scan finds slot 2
free at 2590 microseconds: the result is `RSPN_GETTXBFTIMEOUT`. -/
theorem C11_timeout_iff_deadline_passed_witness :
    (writeData scriptHw 5 newDrv c11Board 0x100 0 8 (arrOf [1, 2, 3, 4, 5, 6, 7, 8])).1
      = some RSPN_GETTXBFTIMEOUT :=
  (C11_timeout_iff_deadline_passed scriptHw 5 0 2 newDrv c11Board ⟨⟨[], [2600]⟩, []⟩
    0x100 0 8 (arrOf [1, 2, 3, 4, 5, 6, 7, 8])
    rfl rfl (by decide) (by decide) (by decide)
    (fun j h1 h2 => absurd h1 (by omega))).2.1.mpr (by decide)

/-- Counterexample to C12 as stated. On the scripted board the frame is loaded into slot 2
and the first completion poll reads the busy bit clear, but the clock read after that poll
shows 2570 microseconds elapsed since the send request: `writeData` returns
`RSPN_SENDMSGTIMEOUT`, not `RSPN_OK`. -/
theorem C12_timeout_with_clear_bit_counterexample :
    (pollSent scriptHw 0x51 30 ⟨⟨[], [2600]⟩, []⟩).1 &&& 0x08 = 0
      ∧ (pollSent scriptHw 0x51 30 ⟨⟨[], [2600]⟩, []⟩).2.1 = 2570
      ∧ (writeData scriptHw 5 newDrv c12Board 0x100 0 8 (arrOf [1, 2, 3, 4, 5, 6, 7, 8])).1
          = some RSPN_SENDMSGTIMEOUT
      ∧ (writeData scriptHw 5 newDrv c12Board 0x100 0 8 (arrOf [1, 2, 3, 4, 5, 6, 7, 8])).2.2.bus
          = scanFrames ++ loadFrames 0x50 [1, 2, 3, 4, 5, 6, 7, 8] 8 [0x20, 0, 0, 0]
              ++ busRead 0x50 := by
  refine ⟨rfl, rfl, rfl, rfl⟩

/-- C12, amended. Let `writeData` have loaded the slot with SIDH address `n` and set its
transmit-request bit, let `temp` be the clock read right after that, let the completion
loop have gone through `j` polls that read the busy bit set in time, and let the next poll
be the last one: it reads the busy bit clear, or the time elapsed since `temp` as read
right after it is 2500 microseconds or more. Then `writeData` returns `RSPN_OK` exactly
when that poll read the busy bit clear and the elapsed time read after it is below 2500,
and `RSPN_SENDMSGTIMEOUT` (code 7) exactly when the elapsed time read after it is 2500 or
more, whether or not that poll read the busy bit clear. -/
theorem C12_send_completion (hw : Hw σ) (fuel j : Nat) (d : Drv) (w wj : World σ)
    (id ext len : Nat) (buf : Nat → Nat) (res n t : Nat)
    (hE : d.canError = 0)
    (hp : (waitFreeTXBuf hw (micros hw w).1 fuel (micros hw w).2).1 = some (res, n, t))
    (ht : t < 2500)
    (hj : afterBusyPolls hw n (micros hw (sendRequested hw fuel d w id ext len buf n)).1 j
            (micros hw (sendRequested hw fuel d w id ext len buf n)).2 = some wj)
    (hfuel : j < fuel)
    (hlast : (pollSent hw n (micros hw (sendRequested hw fuel d w id ext len buf n)).1 wj).1
                &&& 0x08 = 0
              ∨ 2500 ≤ (pollSent hw n
                  (micros hw (sendRequested hw fuel d w id ext len buf n)).1 wj).2.1) :
    ((writeData hw fuel d w id ext len buf).1 = some RSPN_OK
        ↔ ((pollSent hw n (micros hw (sendRequested hw fuel d w id ext len buf n)).1 wj).1
              &&& 0x08 = 0
            ∧ (pollSent hw n
                (micros hw (sendRequested hw fuel d w id ext len buf n)).1 wj).2.1 < 2500))
      ∧ ((writeData hw fuel d w id ext len buf).1 = some RSPN_SENDMSGTIMEOUT
        ↔ 2500 ≤ (pollSent hw n
            (micros hw (sendRequested hw fuel d w id ext len buf n)).1 wj).2.1)
      ∧ RSPN_SENDMSGTIMEOUT = 7 := by
  obtain ⟨f, rfl⟩ : ∃ f, fuel = j + (f + 1) := ⟨fuel - j - 1, by omega⟩
  rw [writeData_after_load hw _ d w id ext len buf res n t hE hp ht,
    waitSent_skip hw n _ (f + 1) j _ wj hj]
  generalize (micros hw (sendRequested hw (j + (f + 1)) d w id ext len buf n)).1 = temp at *
  rw [waitSent_leave hw n temp f wj (by
    rcases hlast with h | h
    · exact fun hc => hc.1 h
    · exact fun hc => absurd hc.2 (by omega))]
  simp only [Option.map_some', Option.some.injEq]
  refine ⟨⟨?_, ?_⟩, ⟨?_, ?_⟩, rfl⟩
  · intro h
    split_ifs at h with hc
    · simp [RSPN_SENDMSGTIMEOUT, RSPN_OK] at h
    · rcases hlast with h' | h'
      · exact ⟨h', by omega⟩
      · omega
  · intro h
    rw [if_neg (by omega)]
  · intro h
    split_ifs at h with hc
    · exact hc
    · simp [RSPN_SENDMSGTIMEOUT, RSPN_OK] at h
  · intro h
    rw [if_pos h]

/-- Witness for the amended C12 on the scripted board: the first completion poll reads the
busy bit clear 2570 microseconds after the send request, and the result is code 7. -/
theorem C12_send_completion_witness :
    (writeData scriptHw 5 newDrv c12Board 0x100 0 8 (arrOf [1, 2, 3, 4, 5, 6, 7, 8])).1
      = some 7 :=
  (C12_send_completion scriptHw 5 0 newDrv c12Board ⟨⟨[], [2600]⟩,
      scanFrames ++ loadFrames 0x50 [1, 2, 3, 4, 5, 6, 7, 8] 8 [0x20, 0, 0, 0]⟩
    0x100 0 8 (arrOf [1, 2, 3, 4, 5, 6, 7, 8]) RSPN_OK 0x51 10
    rfl rfl (by decide) rfl (by decide) (Or.inl (by decide))).2.1.mpr (by decide)

/-- C13 (sticky fault short-circuit). For every driver state whose fault flag `canError` is
non-zero, every board and all arguments: `writeData` and `readData` return the code 100,
which is none of the `RESPONSE` values, and `available` returns false; each leaves the
world (board state and bus record), the driver fields and the output arguments exactly as
they were, so nothing went over the bus and the flag is still set. -/
theorem C13_sticky_fault_short_circuit (hw : Hw σ) (fuel : Nat) (d : Drv) (w : World σ)
    (id ext len : Nat) (buf : Nat → Nat) (args : RxArgs)
    (hE : d.canError ≠ 0) :
    writeData hw fuel d w id ext len buf = (some 100, d, w)
      ∧ readData hw d w args = (100, d, w, args)
      ∧ available hw d w = (false, w)
      ∧ 100 ∉ [RSPN_OK, RSPN_FAIL, RSPN_FAILTX, RSPN_MSGAVAIL, RSPN_NOMSG, RSPN_GETTXBFTIMEOUT,
          RSPN_SENDMSGTIMEOUT, RSPN_ALLTXBUSSY]
      ∧ (writeData hw fuel d w id ext len buf).2.1.canError ≠ 0
      ∧ (readData hw d w args).2.1.canError ≠ 0 := by
  have hw' : writeData hw fuel d w id ext len buf = (some 100, d, w) := by
    simp only [writeData]
    rw [if_pos hE]
  have hr : readData hw d w args = (100, d, w, args) := by
    simp only [readData]
    rw [if_pos hE]
  have ha : available hw d w = (false, w) := by
    simp only [available]
    rw [if_pos hE]
  refine ⟨hw', hr, ha, by decide, ?_, ?_⟩
  · rw [hw']; exact hE
  · rw [hr]; exact hE

/-- Witness for C13: a driver with `canError = 1` on the register-file controller with a
frame pending and all transmit slots free. -/
theorem C13_sticky_fault_short_circuit_witness :
    (writeData simHw 5 { newDrv with canError := 1 }
        ⟨simIdle (rxSlot0 0 [0x20, 0, 0, 0] 2 [0xAA, 0xBB]) 3 1, []⟩ 0x100 0 8
        (arrOf [1, 2, 3, 4, 5, 6, 7, 8])).1 = some 100
      ∧ (writeData simHw 5 { newDrv with canError := 1 }
        ⟨simIdle (rxSlot0 0 [0x20, 0, 0, 0] 2 [0xAA, 0xBB]) 3 1, []⟩ 0x100 0 8
        (arrOf [1, 2, 3, 4, 5, 6, 7, 8])).2.2.bus = [] :=
  have h := (C13_sticky_fault_short_circuit simHw 5 { newDrv with canError := 1 }
    ⟨simIdle (rxSlot0 0 [0x20, 0, 0, 0] 2 [0xAA, 0xBB]) 3 1, []⟩ 0x100 0 8
    (arrOf [1, 2, 3, 4, 5, 6, 7, 8]) ⟨0, 0, fun _ => 0⟩ (by decide)).1
  ⟨congrArg (fun r => r.1) h, congrArg (fun r => r.2.2.bus) h⟩

/-- C14, the code at the failing input. `_toRequestMode(REQ_CONFIG)` starts when the
millisecond clock reads 1000. At the first iteration the status readback (0x00) does not
match and the clock reads 1300, so 300 ms have elapsed; the elapsed time cast to `byte` is
44, and the call does not return Fail but keeps polling (one iteration of fuel is used up
without a result). It returns Fail only at the second iteration, with the clock at 1460,
where the elapsed 460 ms cast to `byte` are 204. -/
theorem C14_keeps_polling_after_300ms :
    u32sub 1300 1000 = 300
      ∧ u32sub 1300 (1000 % 256) % 256 = 44
      ∧ (_toRequestMode scriptHw 1 c14Board REQ_CONFIG).1 = none
      ∧ (_toRequestMode scriptHw 1 c14Board REQ_CONFIG).2.board.clock = [1460]
      ∧ (_toRequestMode scriptHw 2 c14Board REQ_CONFIG).1 = some RSPN_FAIL
      ∧ (_toRequestMode scriptHw 2 c14Board REQ_CONFIG).2.board.clock = [] := by
  refine ⟨by decide, by decide, rfl, rfl, rfl, rfl⟩

/-- C15 (requesting the current mode succeeds immediately). For every mode `m` among
Normal, Sleep, Loopback, ListenOnly and Config, on every board (whatever its clocks read):
if the top three bits of the status register equal `m` at the first readback, then
`_toRequestMode(m)` returns `RSPN_OK`, and its whole bus traffic is one bit-modify of
register 0x0F with mask 0xE0 and value `m` followed by one read of register 0x0E. -/
theorem C15_current_mode_request_is_immediate (hw : Hw σ) (fuel : Nat) (w : World σ) (m : Nat)
    (hm : m ∈ [REQ_NORMAL, REQ_SLEEP, REQ_LOOPBACK, REQ_LISTENONLY, REQ_CONFIG])
    (hfuel : 0 < fuel)
    (hstat : (__readRegister hw (__bitModify hw (millis hw w).2 CTR_CANCTRL 0xE0 m)
        CTR_CANSTAT).1 &&& 0xE0 = m) :
    (_toRequestMode hw fuel w m).1 = some RSPN_OK
      ∧ (_toRequestMode hw fuel w m).2.bus
          = w.bus ++ busBitModify 0x0F 0xE0 m ++ busRead 0x0E := by
  have hlt : m < 256 := by
    simp only [List.mem_cons, List.mem_singleton, List.not_mem_nil, or_false, REQ_NORMAL,
      REQ_SLEEP, REQ_LOOPBACK, REQ_LISTENONLY, REQ_CONFIG] at hm
    omega
  obtain ⟨f, rfl⟩ : ∃ f, fuel = f + 1 := ⟨fuel - 1, by omega⟩
  rw [_toRequestMode_match hw f w m hlt hstat]
  refine ⟨rfl, ?_⟩
  simp [__readRegister_bus, __bitModify_bus, millis_bus, CTR_CANCTRL, CTR_CANSTAT,
    Nat.mod_eq_of_lt hlt]

/-- Witness for C15 on the register-file controller whose status register reads 0x80:
requesting Config returns at once. -/
theorem C15_current_mode_request_is_immediate_witness :
    (_toRequestMode simHw 1 ⟨simIdle (fun a => if a = 0x0E then 0x80 else 0) 0 1, []⟩
        REQ_CONFIG).1 = some RSPN_OK
      ∧ (_toRequestMode simHw 1 ⟨simIdle (fun a => if a = 0x0E then 0x80 else 0) 0 1, []⟩
        REQ_CONFIG).2.bus = busBitModify 0x0F 0xE0 0x80 ++ busRead 0x0E :=
  C15_current_mode_request_is_immediate simHw 1
    ⟨simIdle (fun a => if a = 0x0E then 0x80 else 0) 0 1, []⟩ REQ_CONFIG
    (by decide) (by decide) (by decide)

/-- Counterexample to C16 as stated ("every outcome of the intermediate ListenOnly
request"). The register-file controller is in Sleep and stays there (status 0x20), the
target is Normal, and 250 ms pass between clock readings: `_exitSleepMode` returns
`RSPN_FAIL`, the last transaction on the bus is the status read of the failed request, not
the bit-modify that clears the wake flag, and the flag register still holds 0x40. -/
theorem C16_failed_wakeup_counterexample :
    (_exitSleepMode simHw 5 ⟨simIdle sleepRegs 0 250000, []⟩ REQ_NORMAL).1 = some RSPN_FAIL
      ∧ (_exitSleepMode simHw 5 ⟨simIdle sleepRegs 0 250000, []⟩ REQ_NORMAL).2.bus
          = busRead 0x0E ++ busRead 0x2B ++ busBitModify 0x2B 0x40 0x40
              ++ busBitModify 0x2C 0x40 0x40 ++ busBitModify 0x0F 0xE0 0x60 ++ busRead 0x0E
      ∧ ¬ (busBitModify 0x2C 0x40 0
            <:+ (_exitSleepMode simHw 5 ⟨simIdle sleepRegs 0 250000, []⟩ REQ_NORMAL).2.bus)
      ∧ (_exitSleepMode simHw 5 ⟨simIdle sleepRegs 0 250000, []⟩
            REQ_NORMAL).2.board.regs 0x2C = 0x40 := by
  refine ⟨rfl, rfl, ?_, rfl⟩
  decide

/-- C16, amended. For every board, starting mode and target mode: whenever `_exitSleepMode`
returns Ok, its last bus transaction is the bit-modify that clears the wake flag (register
0x2C, mask 0x40, value 0); it returns Ok, with any fuel, whenever the status read does not
show Sleep or the target is Sleep. It returns Fail only in the wake-up branch (status read
shows Sleep, target not Sleep), and then its last bus transaction is the status read of the
failed ListenOnly request, not the clearing bit-modify. -/
theorem C16_wake_flag_cleared_when_ok (hw : Hw σ) (fuel : Nat) (w : World σ) (m : Nat) :
    ((_exitSleepMode hw fuel w m).1 = some RSPN_OK →
        busBitModify 0x2C 0x40 0 <:+ (_exitSleepMode hw fuel w m).2.bus)
      ∧ (¬ ((__readRegister hw w CTR_CANSTAT).1 &&& 0xE0 = REQ_SLEEP ∧ m % 256 ≠ REQ_SLEEP) →
          (_exitSleepMode hw fuel w m).1 = some RSPN_OK)
      ∧ ((_exitSleepMode hw fuel w m).1 = some RSPN_FAIL →
          ((__readRegister hw w CTR_CANSTAT).1 &&& 0xE0 = REQ_SLEEP ∧ m % 256 ≠ REQ_SLEEP)
            ∧ busRead 0x0E <:+ (_exitSleepMode hw fuel w m).2.bus
            ∧ ¬ (busBitModify 0x2C 0x40 0 <:+ (_exitSleepMode hw fuel w m).2.bus)) := by
  refine ⟨fun h => _exitSleepMode_ok_bus hw fuel w m h,
    fun hc => (_exitSleepMode_awake hw fuel w m hc).1, ?_⟩
  intro hf
  by_cases hc : (__readRegister hw w CTR_CANSTAT).1 &&& 0xE0 = REQ_SLEEP ∧ m % 256 ≠ REQ_SLEEP
  · refine ⟨hc, ?_⟩
    obtain ⟨j, h | h | h⟩ := _exitSleepMode_wake hw fuel w m hc
    · rw [h.1] at hf; simp at hf
    · have hb : busRead 0x0E <:+ (_exitSleepMode hw fuel w m).2.bus := by
        rw [h.2.2]
        simp only [wakeTransactions, Bool.false_eq_true, if_false, List.append_nil, busOf_append,
          busOf_rounds, ← List.append_assoc]
        exact suffix_last_round _ _ _ j h.2.1
      refine ⟨hb, fun hclr => ?_⟩
      rcases List.suffix_or_suffix_of_suffix hb hclr with h1 | h1
      · exact absurd h1 (by decide)
      · exact absurd h1 (by decide)
    · rw [h.1] at hf; simp [RSPN_OK, RSPN_FAIL] at hf
  · rw [(_exitSleepMode_awake hw fuel w m hc).1] at hf
    simp [RSPN_OK, RSPN_FAIL] at hf

/-- Instance of the amended C16 on a scripted board: the controller is in Sleep, the target
is Normal, the ListenOnly request succeeds at its first readback; `_exitSleepMode` returns
Ok and its bus record ends with the clearing bit-modify. -/
theorem C16_wake_flag_cleared_when_ok_witness :
    (_exitSleepMode scriptHw 2 c16Board REQ_NORMAL).1 = some RSPN_OK
      ∧ busBitModify 0x2C 0x40 0 <:+ (_exitSleepMode scriptHw 2 c16Board REQ_NORMAL).2.bus :=
  ⟨rfl, (C16_wake_flag_cleared_when_ok scriptHw 2 c16Board REQ_NORMAL).1 rfl⟩

/-- Counterexample to C17 as stated ("for every call"). On the register-file controller in
Sleep with the wake-enable bit (0x40 of register 0x2B) clear, `_exitSleepMode(REQ_NORMAL)`
sets the bit, the intermediate ListenOnly request fails, and the call returns `RSPN_FAIL`
with the bit still set: its value at return differs from its value at entry. -/
theorem C17_wake_enable_left_set_counterexample :
    (simIdle sleepRegs 0 250000).regs 0x2B &&& 0x40 = 0
      ∧ (_exitSleepMode simHw 5 ⟨simIdle sleepRegs 0 250000, []⟩ REQ_NORMAL).1 = some RSPN_FAIL
      ∧ (_exitSleepMode simHw 5 ⟨simIdle sleepRegs 0 250000, []⟩
            REQ_NORMAL).2.board.regs 0x2B &&& 0x40 = 0x40 := by
  refine ⟨rfl, rfl, rfl⟩

/-- C17, amended. Let `regs` be a register file whose wake-enable bit (0x40 of register
0x2B) is the one the chip reports when that register is read, and let the bus traffic of a
call of `_exitSleepMode` act on it with bit-modify changing only the masked bits. Then:
for every call that returns Ok the wake-enable bit has the same value after the call as
before it; in every call, no transaction modifies any other bit of register 0x2B; a
transaction that sets the bit occurs only when the status read shows Sleep, the target is
not Sleep and the bit was clear, and in that case the setting bit-modify does occur; and
for a call that returns Fail with the bit clear at entry, the bit is set after the call. -/
theorem C17_wake_enable_restored_when_ok (hw : Hw σ) (fuel : Nat) (w : World σ) (m : Nat)
    (regs : Nat → Nat)
    (hread : (__readRegister hw (__readRegister hw w CTR_CANSTAT).2 CTR_CANINTE).1 &&& 0x40
      = regs 0x2B &&& 0x40) :
    ∃ traffic, (_exitSleepMode hw fuel w m).2.bus = w.bus ++ traffic
      ∧ ((_exitSleepMode hw fuel w m).1 = some RSPN_OK →
          regsAfter regs traffic 0x2B &&& 0x40 = regs 0x2B &&& 0x40)
      ∧ (∀ t ∈ transactionsFrom [] traffic, ∀ rs : Nat → Nat,
          applyTransaction rs t 0x2B &&& 0xBF = rs 0x2B &&& 0xBF)
      ∧ regsAfter regs traffic 0x2B &&& 0xBF = regs 0x2B &&& 0xBF
      ∧ (∀ t ∈ transactionsFrom [] traffic,
          (∃ rs : Nat → Nat, rs 0x2B &&& 0x40 = 0 ∧ applyTransaction rs t 0x2B &&& 0x40 ≠ 0) →
          (__readRegister hw w CTR_CANSTAT).1 &&& 0xE0 = REQ_SLEEP ∧ m % 256 ≠ REQ_SLEEP
            ∧ regs 0x2B &&& 0x40 = 0)
      ∧ ((__readRegister hw w CTR_CANSTAT).1 &&& 0xE0 = REQ_SLEEP → m % 256 ≠ REQ_SLEEP →
          regs 0x2B &&& 0x40 = 0 →
          [CMD_BITMODIF, 0x2B, 0x40, 0x40] ∈ transactionsFrom [] traffic)
      ∧ ((_exitSleepMode hw fuel w m).1 = some RSPN_FAIL → regs 0x2B &&& 0x40 = 0 →
          regsAfter regs traffic 0x2B &&& 0x40 = 0x40) := by
  by_cases hc : (__readRegister hw w CTR_CANSTAT).1 &&& 0xE0 = REQ_SLEEP ∧ m % 256 ≠ REQ_SLEEP
  · have key : ∀ (j : Nat) (ok : Bool),
        (_exitSleepMode hw fuel w m).2.bus
          = w.bus ++ busOf (wakeTransactions
              (decide ((__readRegister hw (__readRegister hw w CTR_CANSTAT).2
                CTR_CANINTE).1 &&& 0x40 ≠ 0)) j ok) →
        ((_exitSleepMode hw fuel w m).1 = some RSPN_OK → ok = true) →
        ((_exitSleepMode hw fuel w m).1 = some RSPN_FAIL → ok = false) →
        ∃ traffic, (_exitSleepMode hw fuel w m).2.bus = w.bus ++ traffic
          ∧ ((_exitSleepMode hw fuel w m).1 = some RSPN_OK →
              regsAfter regs traffic 0x2B &&& 0x40 = regs 0x2B &&& 0x40)
          ∧ (∀ t ∈ transactionsFrom [] traffic, ∀ rs : Nat → Nat,
              applyTransaction rs t 0x2B &&& 0xBF = rs 0x2B &&& 0xBF)
          ∧ regsAfter regs traffic 0x2B &&& 0xBF = regs 0x2B &&& 0xBF
          ∧ (∀ t ∈ transactionsFrom [] traffic,
              (∃ rs : Nat → Nat, rs 0x2B &&& 0x40 = 0
                ∧ applyTransaction rs t 0x2B &&& 0x40 ≠ 0) →
              (__readRegister hw w CTR_CANSTAT).1 &&& 0xE0 = REQ_SLEEP ∧ m % 256 ≠ REQ_SLEEP
                ∧ regs 0x2B &&& 0x40 = 0)
          ∧ ((__readRegister hw w CTR_CANSTAT).1 &&& 0xE0 = REQ_SLEEP → m % 256 ≠ REQ_SLEEP →
              regs 0x2B &&& 0x40 = 0 →
              [CMD_BITMODIF, 0x2B, 0x40, 0x40] ∈ transactionsFrom [] traffic)
          ∧ ((_exitSleepMode hw fuel w m).1 = some RSPN_FAIL → regs 0x2B &&& 0x40 = 0 →
              regsAfter regs traffic 0x2B &&& 0x40 = 0x40) := by
      intro j ok hbus hok hfail
      rw [hread] at hbus
      refine ⟨_, hbus, ?_, ?_, ?_, ?_, ?_, ?_⟩
      · intro h
        rw [regsAfter_busOf, wake_fold, hok h]
        by_cases hen : regs 0x2B &&& 0x40 = 0
        · rw [if_neg (by simpa using hen), if_pos rfl, hen]
          exact wake_bit_clear _
        · rw [if_pos (by simpa using hen)]
      · intro t ht rs
        rw [transactionsFrom_busOf] at ht
        exact wake_tx_other_bits _ _ _ t ht rs
      · rw [regsAfter_busOf]
        exact foldl_other_bits _ (fun t ht rs => wake_tx_other_bits _ _ _ t ht rs) regs
      · intro t ht hset
        rw [transactionsFrom_busOf] at ht
        obtain ⟨rs, h0, h1⟩ := hset
        have hen := wake_tx_sets _ _ _ t ht rs h0 h1
        exact ⟨hc.1, hc.2, by simpa using hen⟩
      · intro _ _ hclear
        rw [transactionsFrom_busOf]
        have hen : decide (regs 0x2B &&& 0x40 ≠ 0) = false := by simpa using hclear
        rw [hen]
        exact wake_tx_set_present j ok
      · intro h hclear
        rw [regsAfter_busOf, wake_fold, hfail h, if_neg (by simpa using hclear),
          if_neg (by decide)]
        exact wake_bit_set _
    obtain ⟨j, h | h | h⟩ := _exitSleepMode_wake hw fuel w m hc
    · exact key j false h.2 (fun h' => by rw [h.1] at h'; simp at h') (fun _ => rfl)
    · exact key j false h.2.2 (fun h' => by rw [h.1] at h'; simp [RSPN_OK, RSPN_FAIL] at h')
        (fun _ => rfl)
    · exact key j true h.2.2 (fun _ => rfl)
        (fun h' => by rw [h.1] at h'; simp [RSPN_OK, RSPN_FAIL] at h')
  · obtain ⟨hres, hbus⟩ := _exitSleepMode_awake hw fuel w m hc
    have hneutral : ∀ t ∈ [[CMD_READ, CTR_CANSTAT, 0], [CMD_BITMODIF, CTR_CANINTF, 0x40, 0]],
        ∀ rs : Nat → Nat, applyTransaction rs t 0x2B = rs 0x2B := by
      intro t ht rs
      simp only [List.mem_cons, List.mem_singleton, List.not_mem_nil, or_false] at ht
      rcases ht with h | h
      · subst h; rw [apply_read]
      · subst h; rw [apply_bitModify, if_neg (by decide)]
    refine ⟨_, hbus, ?_, ?_, ?_, ?_, ?_, ?_⟩
    · intro _
      rw [regsAfter_busOf, foldl_neutral 0x2B _ hneutral]
    · intro t ht rs
      rw [transactionsFrom_busOf] at ht
      rw [hneutral t ht]
    · rw [regsAfter_busOf, foldl_neutral 0x2B _ hneutral]
    · intro t ht hset
      rw [transactionsFrom_busOf] at ht
      obtain ⟨rs, h0, h1⟩ := hset
      rw [hneutral t ht] at h1
      exact absurd h0 h1
    · intro h1 h2 _
      exact absurd ⟨h1, h2⟩ hc
    · intro h
      rw [hres] at h
      simp [RSPN_OK, RSPN_FAIL] at h

/-- Instance of the amended C17 on a scripted board: the controller is in Sleep with the
wake-enable bit clear, the target is Normal, the ListenOnly request succeeds;
`_exitSleepMode` returns Ok, and on the register file that is all zero the wake-enable bit is
clear again after the traffic of the call. -/
theorem C17_wake_enable_restored_when_ok_witness :
    (__readRegister scriptHw (__readRegister scriptHw c16Board CTR_CANSTAT).2 CTR_CANINTE).1
        &&& 0x40 = (fun _ => 0) 0x2B &&& 0x40
      ∧ (_exitSleepMode scriptHw 2 c16Board REQ_NORMAL).1 = some RSPN_OK
      ∧ ∃ traffic, (_exitSleepMode scriptHw 2 c16Board REQ_NORMAL).2.bus = c16Board.bus ++ traffic
          ∧ regsAfter (fun _ => 0) traffic 0x2B &&& 0x40 = (fun _ => 0) 0x2B &&& 0x40
          ∧ [CMD_BITMODIF, 0x2B, 0x40, 0x40] ∈ transactionsFrom [] traffic :=
  ⟨rfl, rfl,
    match C17_wake_enable_restored_when_ok scriptHw 2 c16Board REQ_NORMAL (fun _ => 0) rfl with
    | ⟨traffic, hb, hok, _, _, _, hset, _⟩ =>
      ⟨traffic, hb, hok rfl, hset rfl (by decide) rfl⟩⟩

/-- C18 (mask configuration writes). For all 16-bit `mask0` and `mask1`, and whatever result
`r` the initial switch to Config mode returned (Ok or Fail): between its two mode changes
`setMaskFilt` drives exactly four single-register writes onto the bus, in this order:
`0x20 <- (mask0 >> 3) & 0xFF`, `0x21 <- (mask0 & 7) << 5`, `0x24 <- (m >> 3) & 0xFF`,
`0x25 <- (m & 7) << 5`, with `m = mask0` when `mask1 = 0` and `m = mask1` otherwise; what
follows is the mode change `_setCANCTRL(_opsModeUse)`. -/
theorem C18_mask_configuration_writes (hw : Hw σ) (fuel : Nat) (d : Drv) (w : World σ)
    (mask0 mask1 r : Nat) (h0 : mask0 < 65536) (h1 : mask1 < 65536)
    (hfirst : (_setCANCTRL hw fuel w REQ_CONFIG).1 = some r) :
    (setMaskFilt_masks hw (_setCANCTRL hw fuel w REQ_CONFIG).2 mask0 mask1).bus
        = (_setCANCTRL hw fuel w REQ_CONFIG).2.bus
          ++ busWrite 0x20 ((mask0 >>> 3) &&& 0xFF) ++ busWrite 0x21 ((mask0 &&& 0x07) <<< 5)
          ++ busWrite 0x24 (((if mask1 = 0 then mask0 else mask1) >>> 3) &&& 0xFF)
          ++ busWrite 0x25 (((if mask1 = 0 then mask0 else mask1) &&& 0x07) <<< 5)
      ∧ setMaskFilt hw fuel d w mask0 mask1
        = _setCANCTRL hw fuel
            (setMaskFilt_masks hw (_setCANCTRL hw fuel w REQ_CONFIG).2 mask0 mask1)
            d._opsModeUse :=
  ⟨setMaskFilt_masks_bus hw _ mask0 mask1 h0 h1,
    setMaskFilt_eq hw fuel d w mask0 mask1 r h0 h1 hfirst⟩

/-- Witness for C18 on the register-file controller that stays in Sleep, where the switch
to Config mode fails: `setMaskFilt(0x7FF, 0x123)` still writes 0xFF, 0xE0 to 0x20, 0x21 and
0x24, 0x60 to 0x24, 0x25. -/
theorem C18_mask_configuration_writes_witness :
    (_setCANCTRL simHw 5 ⟨simIdle sleepRegs 0 250000, []⟩ REQ_CONFIG).1 = some RSPN_FAIL
      ∧ (setMaskFilt_masks simHw (_setCANCTRL simHw 5 ⟨simIdle sleepRegs 0 250000, []⟩
            REQ_CONFIG).2 0x7FF 0x123).bus
          = (_setCANCTRL simHw 5 ⟨simIdle sleepRegs 0 250000, []⟩ REQ_CONFIG).2.bus
            ++ busWrite 0x20 0xFF ++ busWrite 0x21 0xE0 ++ busWrite 0x24 0x24
            ++ busWrite 0x25 0x60 :=
  ⟨rfl, (C18_mask_configuration_writes simHw 5 newDrv ⟨simIdle sleepRegs 0 250000, []⟩
    0x7FF 0x123 RSPN_FAIL (by decide) (by decide) rfl).1⟩

/-- Counterexample to C19 as stated. A newly constructed driver (`_opsModeUse` is
`REQ_NORMAL`) calls `setMaskFilt` while the controller is in Config mode, as it is after a
reset: the first status read shows 0x80. The final step requests Normal (bit-modify of
0x0F with mask 0xE0 and value 0x00), not the Config mode that was active at the call. -/
theorem C19_final_mode_not_chip_mode_counterexample :
    (__readRegister scriptHw c19Board CTR_CANSTAT).1 &&& 0xE0 = REQ_CONFIG
      ∧ (setMaskFilt scriptHw 3 newDrv c19Board 0x7FF 0).1 = some RSPN_OK
      ∧ (setMaskFilt scriptHw 3 newDrv c19Board 0x7FF 0).2.bus
          = busRead 0x0E ++ busBitModify 0x2C 0x40 0 ++ busBitModify 0x0F 0xE0 0x80
            ++ busRead 0x0E
            ++ busWrite 0x20 0xFF ++ busWrite 0x21 0xE0 ++ busWrite 0x24 0xFF
            ++ busWrite 0x25 0xE0
            ++ busRead 0x0E ++ busBitModify 0x2C 0x40 0 ++ busBitModify 0x0F 0xE0 0x00
            ++ busRead 0x0E
      ∧ REQ_CONFIG ≠ REQ_NORMAL := by
  refine ⟨rfl, rfl, rfl, by decide⟩

/-- C19, amended. For every driver and board state in which the initial switch to Config
mode returns: the final step of `setMaskFilt` is `_setCANCTRL(_opsModeUse)`, the mode
recorded in the driver field (which is `REQ_NORMAL` for a newly constructed driver); the
mode active on the chip is not consulted. The sleep-exit part of that step returns Ok
whenever its status read does not show Sleep or `_opsModeUse` is Sleep, and whenever it
returns Ok what follows on the bus is `j` rounds of the mode request for `_opsModeUse`:
bit-modify of 0x0F with mask 0xE0 and value `_opsModeUse`, then a read of 0x0E (`j ≥ 1`
provided the request returned). When the sleep-exit part returns Fail (the chip reported
Sleep and the wake-up failed), `setMaskFilt` returns Fail in the world the sleep-exit part
left: the bus record ends with the wake-up sequence, whose mode requests are for
ListenOnly, and the request for `_opsModeUse` is not issued. When the sleep-exit part does
not return, neither does `setMaskFilt`. -/
theorem C19_final_mode_is_recorded_mode (hw : Hw σ) (fuel : Nat) (d : Drv) (w : World σ)
    (mask0 mask1 r : Nat) (h0 : mask0 < 65536) (h1 : mask1 < 65536)
    (hfirst : (_setCANCTRL hw fuel w REQ_CONFIG).1 = some r) :
    setMaskFilt hw fuel d w mask0 mask1
        = _setCANCTRL hw fuel
            (setMaskFilt_masks hw (_setCANCTRL hw fuel w REQ_CONFIG).2 mask0 mask1)
            d._opsModeUse
      ∧ ((_exitSleepMode hw fuel
            (setMaskFilt_masks hw (_setCANCTRL hw fuel w REQ_CONFIG).2 mask0 mask1)
            d._opsModeUse).1 = some RSPN_OK →
          ∃ j, ((setMaskFilt hw fuel d w mask0 mask1).1 ≠ none → 1 ≤ j)
            ∧ (setMaskFilt hw fuel d w mask0 mask1).2.bus
              = (_exitSleepMode hw fuel
                  (setMaskFilt_masks hw (_setCANCTRL hw fuel w REQ_CONFIG).2 mask0 mask1)
                  d._opsModeUse).2.bus
                ++ (List.replicate j
                    (busBitModify 0x0F 0xE0 (d._opsModeUse % 256) ++ busRead 0x0E)).flatten)
      ∧ newDrv._opsModeUse = REQ_NORMAL
      ∧ (¬ ((__readRegister hw
              (setMaskFilt_masks hw (_setCANCTRL hw fuel w REQ_CONFIG).2 mask0 mask1)
              CTR_CANSTAT).1 &&& 0xE0 = REQ_SLEEP ∧ d._opsModeUse % 256 ≠ REQ_SLEEP) →
          (_exitSleepMode hw fuel
            (setMaskFilt_masks hw (_setCANCTRL hw fuel w REQ_CONFIG).2 mask0 mask1)
            d._opsModeUse).1 = some RSPN_OK)
      ∧ ((_exitSleepMode hw fuel
            (setMaskFilt_masks hw (_setCANCTRL hw fuel w REQ_CONFIG).2 mask0 mask1)
            d._opsModeUse).1 = some RSPN_FAIL →
          ((__readRegister hw
              (setMaskFilt_masks hw (_setCANCTRL hw fuel w REQ_CONFIG).2 mask0 mask1)
              CTR_CANSTAT).1 &&& 0xE0 = REQ_SLEEP ∧ d._opsModeUse % 256 ≠ REQ_SLEEP)
            ∧ setMaskFilt hw fuel d w mask0 mask1
              = (some RSPN_FAIL, (_exitSleepMode hw fuel
                  (setMaskFilt_masks hw (_setCANCTRL hw fuel w REQ_CONFIG).2 mask0 mask1)
                  d._opsModeUse).2)
            ∧ ∃ j, 1 ≤ j ∧ (setMaskFilt hw fuel d w mask0 mask1).2.bus
                = (setMaskFilt_masks hw (_setCANCTRL hw fuel w REQ_CONFIG).2 mask0 mask1).bus
                  ++ busOf (wakeTransactions
                      (decide ((__readRegister hw (__readRegister hw
                        (setMaskFilt_masks hw (_setCANCTRL hw fuel w REQ_CONFIG).2 mask0 mask1)
                        CTR_CANSTAT).2 CTR_CANINTE).1 &&& 0x40 ≠ 0)) j false))
      ∧ ((_exitSleepMode hw fuel
            (setMaskFilt_masks hw (_setCANCTRL hw fuel w REQ_CONFIG).2 mask0 mask1)
            d._opsModeUse).1 = none →
          setMaskFilt hw fuel d w mask0 mask1
            = (none, (_exitSleepMode hw fuel
                (setMaskFilt_masks hw (_setCANCTRL hw fuel w REQ_CONFIG).2 mask0 mask1)
                d._opsModeUse).2)) := by
  have heq := setMaskFilt_eq hw fuel d w mask0 mask1 r h0 h1 hfirst
  refine ⟨heq, ?_, rfl, ?_, ?_, ?_⟩
  · intro he
    rw [heq, _setCANCTRL_awake hw fuel _ _ he]
    obtain ⟨j, _, h2, h3⟩ := _toRequestMode_bus hw fuel
      (_exitSleepMode hw fuel
        (setMaskFilt_masks hw (_setCANCTRL hw fuel w REQ_CONFIG).2 mask0 mask1)
        d._opsModeUse).2 d._opsModeUse
    exact ⟨j, h2, h3⟩
  · intro hc
    exact (_exitSleepMode_awake hw fuel _ _ hc).1
  · intro hf
    have hres : setMaskFilt hw fuel d w mask0 mask1
        = (some RSPN_FAIL, (_exitSleepMode hw fuel
            (setMaskFilt_masks hw (_setCANCTRL hw fuel w REQ_CONFIG).2 mask0 mask1)
            d._opsModeUse).2) := by
      rw [heq]
      exact _setCANCTRL_fail hw fuel _ _ hf
    by_cases hc : (__readRegister hw
        (setMaskFilt_masks hw (_setCANCTRL hw fuel w REQ_CONFIG).2 mask0 mask1)
        CTR_CANSTAT).1 &&& 0xE0 = REQ_SLEEP ∧ d._opsModeUse % 256 ≠ REQ_SLEEP
    · refine ⟨hc, hres, ?_⟩
      rw [hres]
      obtain ⟨j, h | h | h⟩ := _exitSleepMode_wake hw fuel _ _ hc
      · rw [h.1] at hf; simp at hf
      · exact ⟨j, h.2.1, h.2.2⟩
      · rw [h.1] at hf; simp [RSPN_OK, RSPN_FAIL] at hf
    · rw [(_exitSleepMode_awake hw fuel _ _ hc).1] at hf
      simp [RSPN_OK, RSPN_FAIL] at hf
  · intro hn
    rw [heq]
    exact _setCANCTRL_none hw fuel _ _ hn

/-- Witness for the amended C19 on the scripted board (controller in Config mode, new
driver): the sleep-exit part of the final step returns Ok and the call ends with rounds of
the request for Normal. -/
theorem C19_final_mode_is_recorded_mode_witness :
    setMaskFilt scriptHw 3 newDrv c19Board 0x7FF 0
        = _setCANCTRL scriptHw 3
            (setMaskFilt_masks scriptHw (_setCANCTRL scriptHw 3 c19Board REQ_CONFIG).2 0x7FF 0)
            REQ_NORMAL
      ∧ ∃ j, ((setMaskFilt scriptHw 3 newDrv c19Board 0x7FF 0).1 ≠ none → 1 ≤ j)
          ∧ (setMaskFilt scriptHw 3 newDrv c19Board 0x7FF 0).2.bus
            = (_exitSleepMode scriptHw 3
                (setMaskFilt_masks scriptHw (_setCANCTRL scriptHw 3 c19Board REQ_CONFIG).2
                  0x7FF 0) newDrv._opsModeUse).2.bus
              ++ (List.replicate j
                  (busBitModify 0x0F 0xE0 (newDrv._opsModeUse % 256) ++ busRead 0x0E)).flatten :=
  ⟨(C19_final_mode_is_recorded_mode scriptHw 3 newDrv c19Board 0x7FF 0 RSPN_OK
      (by decide) (by decide) rfl).1,
    (C19_final_mode_is_recorded_mode scriptHw 3 newDrv c19Board 0x7FF 0 RSPN_OK
      (by decide) (by decide) rfl).2.1 rfl⟩

/-- C20 (filter setter). For every identifier `id ≤ 2047`: for a filter index `i ≤ 5`,
`_setStdFilt(i, id)` drives exactly two register writes onto the bus, `base <- id >> 3` and
`base + 1 <- (id & 7) << 5`, with `base` = 0x00, 0x04, 0x08, 0x10, 0x14, 0x18 for
`i` = 0..5, and these two bytes are the SIDH and SIDL bytes of `_writeIDs` for the standard
identifier `id`; for an index from 6 to 255 it leaves the world as it was, so nothing goes
over the bus. In neither case is there a mode change (no bit-modify at all). -/
theorem C20_filter_setter (hw : Hw σ) (w : World σ) (i id : Nat) (hid : id ≤ 2047)
    (hi : i ≤ 255) :
    (i ≤ 5 →
        (_setStdFilt hw w i id).bus
          = w.bus ++ busWrite ([0x00, 0x04, 0x08, 0x10, 0x14, 0x18].getD i 0) (id >>> 3)
              ++ busWrite ([0x00, 0x04, 0x08, 0x10, 0x14, 0x18].getD i 0 + 1)
                  ((id &&& 0x07) <<< 5))
      ∧ [id >>> 3, (id &&& 0x07) <<< 5] = (arrTake (_writeIDs_tbufdata 0 id) 4).take 2
      ∧ (5 < i → _setStdFilt hw w i id = w) := by
  refine ⟨?_, ?_, ?_⟩
  · intro h5
    rw [_setStdFilt_bus hw w i id h5 (by omega)]
    have e : (id >>> 3) &&& 0xFF = id >>> 3 := by
      rw [land_255, Nat.shiftRight_eq_div_pow]
      apply Nat.mod_eq_of_lt
      have : id / 2 ^ 3 ≤ 255 := by omega
      omega
    rw [e]
  · rw [layout_std id hid]
    rfl
  · intro h5
    exact _setStdFilt_none hw w i id h5 hi

/-- Witness for C20: filter 0 with identifier 0x123 gets SIDH 0x24 at 0x00 and SIDL 0x60 at
0x01; filter index 6 does nothing. -/
theorem C20_filter_setter_witness :
    (_setStdFilt scriptHw ⟨⟨[], []⟩, []⟩ 0 0x123).bus = busWrite 0x00 0x24 ++ busWrite 0x01 0x60
      ∧ (_setStdFilt scriptHw ⟨⟨[], []⟩, []⟩ 6 0x123).bus = [] :=
  ⟨(C20_filter_setter scriptHw ⟨⟨[], []⟩, []⟩ 0 0x123 (by decide) (by decide)).1 (by decide),
    congrArg (fun w => w.bus)
      ((C20_filter_setter scriptHw ⟨⟨[], []⟩, []⟩ 6 0x123 (by decide) (by decide)).2.2
        (by decide))⟩

/-- C21 (bit-timing bytes). For every speed profile `p` of the `SPEED` table, `p` is a 24-bit
value, and whenever the request for Config mode at the start of `initialize` returns, the
bus traffic of `initialize` continues, directly after the traffic of that request, with a
write of `(p >> 16) & 0xFF` to register 0x2A, a write of `(p >> 8) & 0xFF` to register 0x29
and a write of `p & 0xFF` to register 0x28, in that order, whatever the request returned and
whatever follows. The 16 MHz / 500 kbit/s profile is in the table and its three bytes are
0x00, 0xF0, 0x86. -/
theorem C21_bit_timing_bytes (hw : Hw σ) (fuel : Nat) (d : Drv) (w : World σ)
    (opsMod imod p result : Nat) (hp : p ∈ SPEED)
    (hfirst : (_setCANCTRL hw fuel (__spi_unSelect hw w) REQ_CONFIG).1 = some result) :
    p < 2 ^ 24
      ∧ (∃ rest, (initialize_mcp hw fuel d w opsMod imod p).2.2.bus
          = (_setCANCTRL hw fuel (__spi_unSelect hw w) REQ_CONFIG).2.bus
            ++ busWrite 0x2A ((p >>> 16) &&& 0xFF) ++ busWrite 0x29 ((p >>> 8) &&& 0xFF)
            ++ busWrite 0x28 (p &&& 0xFF) ++ rest)
      ∧ SPD_16MHz_500K ∈ SPEED
      ∧ (SPD_16MHz_500K >>> 16) &&& 0xFF = 0x00
      ∧ (SPD_16MHz_500K >>> 8) &&& 0xFF = 0xF0
      ∧ SPD_16MHz_500K &&& 0xFF = 0x86 := by
  have hall : ∀ q ∈ SPEED, q < 2 ^ 24 := by decide
  refine ⟨hall p hp, ?_, by decide, by decide, by decide, by decide⟩
  rw [initialize_mcp_world hw fuel d w opsMod imod p result hfirst]
  split_ifs with h
  · obtain ⟨t, ht⟩ := ((initialize_beforeRxMode_ext hw
        (initialize_bitTiming hw (_setCANCTRL hw fuel (__spi_unSelect hw w) REQ_CONFIG).2 p)).trans
      (initialize_rxMode_grows hw _ imod)).trans
      (_setCANCTRL_ext hw fuel (initialize_buffers hw (initialize_bitTiming hw
        (_setCANCTRL hw fuel (__spi_unSelect hw w) REQ_CONFIG).2 p) imod) opsMod)
    refine ⟨t, ?_⟩
    rw [← ht, initialize_bitTiming_bus]
  · exact ⟨[], by rw [initialize_bitTiming_bus, List.append_nil]⟩

/-- Instance of C21 on a scripted board whose controller answers the Config request at
once: the bus traffic of `initialize` with the 16 MHz / 500 kbit/s profile continues after
the request with writes of 0x00 to 0x2A, 0xF0 to 0x29 and 0x86 to 0x28. -/
theorem C21_bit_timing_bytes_witness :
    SPD_16MHz_500K ∈ SPEED
      ∧ (_setCANCTRL scriptHw 3 (__spi_unSelect scriptHw c26Board) REQ_CONFIG).1 = some RSPN_OK
      ∧ ∃ rest, (initialize_mcp scriptHw 3 newDrv c26Board REQ_NORMAL IMOD_ANY
            SPD_16MHz_500K).2.2.bus
          = (_setCANCTRL scriptHw 3 (__spi_unSelect scriptHw c26Board) REQ_CONFIG).2.bus
            ++ busWrite 0x2A ((SPD_16MHz_500K >>> 16) &&& 0xFF)
            ++ busWrite 0x29 ((SPD_16MHz_500K >>> 8) &&& 0xFF)
            ++ busWrite 0x28 (SPD_16MHz_500K &&& 0xFF) ++ rest :=
  ⟨by decide, rfl,
    (C21_bit_timing_bytes scriptHw 3 newDrv c26Board REQ_NORMAL IMOD_ANY SPD_16MHz_500K RSPN_OK
      (by decide) rfl).2.1⟩

/-- C22 (transmit load sequence). Let a `writeData` call with `len ≤ 255` leave its free-slot
loop in time with the slot address `c + 1`. Then `c` is one of 0x30, 0x40, 0x50, and the
bus traffic between the end of the free-slot polling and the completion polling is exactly,
in order: a multi-register write of the first `min len 8` payload bytes starting at
`c + 6`, a write of the DLC byte `min len 8` to `c + 5`, a write of the four encoded
identifier bytes starting at `c + 1`, and a bit-modify of `c` with mask 0x08 and value
0x08; all that follows are the completion polls, single reads of `c`. The DLC byte has the
remote-request bit 0x40 clear. -/
theorem C22_transmit_load_sequence (hw : Hw σ) (fuel : Nat) (d : Drv) (w : World σ)
    (id ext len : Nat) (buf : Nat → Nat) (res c t : Nat)
    (hE : d.canError = 0) (hlen : len ≤ 255)
    (hp : (waitFreeTXBuf hw (micros hw w).1 fuel (micros hw w).2).1 = some (res, c + 1, t))
    (ht : t < 2500) :
    (c = 0x30 ∨ c = 0x40 ∨ c = 0x50)
      ∧ (sendRequested hw fuel d w id ext len buf (c + 1)).bus
          = (waitFreeTXBuf hw (micros hw w).1 fuel (micros hw w).2).2.bus
            ++ busWriteN (c + 6) ((arrTake buf (min len 8)).map (· % 256))
            ++ busWrite (c + 5) (min len 8)
            ++ busWriteN (c + 1) (arrTake (_writeIDs_tbufdata ext id) 4)
            ++ busBitModify c 0x08 0x08
      ∧ (∃ j, (writeData hw fuel d w id ext len buf).2.2.bus
          = (sendRequested hw fuel d w id ext len buf (c + 1)).bus
            ++ (List.replicate j (busRead c)).flatten)
      ∧ min len 8 &&& 0x40 = 0 := by
  have hn := waitFreeTXBuf_slot hw _ fuel _ res (c + 1) t hp ht
  have hc : c + 6 < 256 := by omega
  have hm : len % 256 = len := by omega
  refine ⟨by omega, ?_, ?_, ?_⟩
  · rw [sendRequested_bus hw fuel d w id ext len buf c hc, hm]
    simp only [loadFrames, List.append_assoc]
  · rw [writeData_world_after_load hw fuel d w id ext len buf res (c + 1) t hE hp ht]
    obtain ⟨j, hj⟩ := waitSent_bus_exact hw (c + 1)
      (micros hw (sendRequested hw fuel d w id ext len buf (c + 1))).1 fuel
      (micros hw (sendRequested hw fuel d w id ext len buf (c + 1))).2
    refine ⟨j, ?_⟩
    rw [hj, micros_bus, show (c + 1 + 255) % 256 = c from by omega]
  · have h8 : min len 8 ≤ 8 := Nat.min_le_right _ _
    have hall : ∀ x, x ≤ 8 → x &&& 0x40 = 0 := by decide
    exact hall _ h8

/-- Witness for C22 on the scripted board where every slot reads free: a request of 12
bytes loads slot 2 with the first 8 bytes, DLC 8, the identifier bytes of 0x100 and the
transmit request. -/
theorem C22_transmit_load_sequence_witness :
    (sendRequested scriptHw 5 newDrv c7Board 0x100 0 12
        (arrOf [1, 2, 3, 4, 5, 6, 7, 8, 9, 10, 11, 12]) 0x51).bus
      = scanFrames ++ busWriteN 0x56 [1, 2, 3, 4, 5, 6, 7, 8] ++ busWrite 0x55 8
          ++ busWriteN 0x51 [0x20, 0, 0, 0] ++ busBitModify 0x50 0x08 0x08 :=
  (C22_transmit_load_sequence scriptHw 5 newDrv c7Board 0x100 0 12
    (arrOf [1, 2, 3, 4, 5, 6, 7, 8, 9, 10, 11, 12]) RSPN_OK 0x50 490
    rfl (by decide) rfl (by decide)).2.1

/-- Counterexample to C23 as worded ("for an extended frame with identifier x the value
returned is x | 0x80000000"): receive slot 0 holds the extended remote frame with identifier
0x20000 (control register 0x08, identifier registers 00 0A 00 00). `readData` returns Ok,
`_readIDs` decodes the extended identifier 0x20000, and the value handed out is
0xC0020000 = 0x20000 | 0x80000000 | 0x40000000, which is not 0x20000 | 0x80000000. -/
theorem C23_extended_remote_frame_counterexample :
    (readData simHw newDrv ⟨simIdle (rxSlot0 0x08 [0, 0x0A, 0, 0] 0 []) 1 1, []⟩
        ⟨0, 0, fun _ => 0⟩).1 = RSPN_OK
      ∧ (_readIDs simHw (_readStatus simHw
          ⟨simIdle (rxSlot0 0x08 [0, 0x0A, 0, 0] 0 []) 1 1, []⟩).2
          (servicedSlot simHw ⟨simIdle (rxSlot0 0x08 [0, 0x0A, 0, 0] 0 []) 1 1, []⟩)).1
          = (1, 0x20000)
      ∧ (readData simHw newDrv ⟨simIdle (rxSlot0 0x08 [0, 0x0A, 0, 0] 0 []) 1 1, []⟩
          ⟨0, 0, fun _ => 0⟩).2.2.2.id = 0xC0020000
      ∧ (0xC0020000 : Nat) ≠ 0x20000 ||| 0x80000000 := by
  refine ⟨?_, ?_, ?_, ?_⟩
  · rfl
  · rfl
  · rfl
  · decide

/-- C23 (amended): for every frame that `readData` returns with Ok, the low 29 bits of the
value stored through `id` equal the identifier decoded by `_readIDs` from the serviced slot,
bit 31 is set if and only if the frame was decoded as extended, bit 30 is set if and only if
the remote-request flag was decoded, and bit 29 is clear. Hence for an extended frame with
identifier x the value returned is never x: it is x | 0x80000000 for a data frame and
x | 0x80000000 | 0x40000000 for a remote frame. -/
theorem C23_flag_bits_in_received_identifier (hw : Hw σ) (d : Drv) (w : World σ) (args : RxArgs)
    (hok : (readData hw d w args).1 = RSPN_OK) :
    (_readReceivMsg hw d (_readStatus hw w).2 (servicedSlot hw w)).1.m_nID
        = (_readIDs hw (_readStatus hw w).2 (servicedSlot hw w)).1.2
      ∧ (_readReceivMsg hw d (_readStatus hw w).2 (servicedSlot hw w)).1.m_nExtFlg
        = (_readIDs hw (_readStatus hw w).2 (servicedSlot hw w)).1.1
      ∧ (readData hw d w args).2.2.2.id % 2 ^ 29
        = (_readIDs hw (_readStatus hw w).2 (servicedSlot hw w)).1.2
      ∧ ((readData hw d w args).2.2.2.id.testBit 31 = true
          ↔ (_readIDs hw (_readStatus hw w).2 (servicedSlot hw w)).1.1 = 1)
      ∧ ((readData hw d w args).2.2.2.id.testBit 30 = true
          ↔ (_readReceivMsg hw d (_readStatus hw w).2 (servicedSlot hw w)).1.m_nRtr = 1)
      ∧ (readData hw d w args).2.2.2.id.testBit 29 = false
      ∧ ((_readIDs hw (_readStatus hw w).2 (servicedSlot hw w)).1.1 = 1 →
          (readData hw d w args).2.2.2.id
              ≠ (_readIDs hw (_readStatus hw w).2 (servicedSlot hw w)).1.2
            ∧ ((_readReceivMsg hw d (_readStatus hw w).2 (servicedSlot hw w)).1.m_nRtr = 0 →
                (readData hw d w args).2.2.2.id
                  = (_readIDs hw (_readStatus hw w).2 (servicedSlot hw w)).1.2 ||| 0x80000000)
            ∧ ((_readReceivMsg hw d (_readStatus hw w).2 (servicedSlot hw w)).1.m_nRtr = 1 →
                (readData hw d w args).2.2.2.id
                  = ((_readIDs hw (_readStatus hw w).2 (servicedSlot hw w)).1.2 ||| 0x80000000)
                      ||| 0x40000000)) := by
  have hid := readData_ok_id hw d w args hok
  have hslot : servicedSlot hw w % 256 = servicedSlot hw w := by
    simp only [servicedSlot]
    split_ifs <;> rfl
  have hmsg := _readReceivMsg_eq hw d (_readStatus hw w).2 (servicedSlot hw w)
  rw [hslot] at hmsg
  have hb := _readIDs_bound hw (_readStatus hw w).2 (servicedSlot hw w)
  generalize (readData hw d w args).2.2.2.id = out at hid ⊢
  rw [hmsg] at hid ⊢
  simp only [] at hid ⊢
  generalize (_readIDs hw (_readStatus hw w).2 (servicedSlot hw w)).1 = dec at hid hb ⊢
  generalize (__readRegister hw (_readIDs hw (_readStatus hw w).2 (servicedSlot hw w)).2
    ((servicedSlot hw w + 255) % 256)).1 = ctrl at hid ⊢
  rcases dec with ⟨e, x⟩
  simp only [] at hid hb ⊢
  obtain ⟨hx, he⟩ := hb
  have h31 := lor_bit31 x hx
  have h30 := lor_bit30 x hx
  have h3130 := lor_bit31_bit30 x hx
  have e31 : x ||| 0x80000000 = 2 ^ 31 + x := by
    have e := Nat.mul_add_lt_is_or (i := 31) (b := x) (by omega) 1
    rw [Nat.lor_comm, show (0x80000000 : Nat) = 2 ^ 31 * 1 from by decide, ← e]
    omega
  have e3130 : (x ||| 0x80000000) ||| 0x40000000 = 2 ^ 31 + 2 ^ 30 + x := by
    have e2 := Nat.mul_add_lt_is_or (i := 30) (b := x) (by omega) 2
    have e3 := Nat.mul_add_lt_is_or (i := 30) (b := x) (by omega) 3
    have hc : (2 ^ 30 * 2 ||| 0x40000000 : Nat) = 2 ^ 30 * 3 := by decide
    rw [e31, show 2 ^ 31 + x = 2 ^ 30 * 2 + x from by omega, e2, Nat.lor_assoc, Nat.lor_comm x,
      ← Nat.lor_assoc, hc, ← e3]
    omega
  simp only [Nat.testBit_to_div_mod, decide_eq_true_eq, decide_eq_false_iff_not]
  by_cases hc : ctrl &&& 0x08 ≠ 0
  · rw [if_pos hc] at hid
    rw [if_pos hc]
    rw [if_pos (show (1 : Nat) ≠ 0 by decide)] at hid
    rcases he with he | he
    · subst he
      rw [if_neg (show ¬ ((0 : Nat) ≠ 0) by decide), h30] at hid
      subst hid
      refine ⟨trivial, trivial, ?_, ?_, ?_, ?_, ?_⟩ <;> omega
    · subst he
      rw [if_pos (show (1 : Nat) ≠ 0 by decide), h31, h3130] at hid
      subst hid
      rw [e3130, e31]
      refine ⟨trivial, trivial, ?_, ?_, ?_, ?_, ?_⟩ <;> omega
  · rw [if_neg hc] at hid
    rw [if_neg hc]
    rw [if_neg (show ¬ ((0 : Nat) ≠ 0) by decide)] at hid
    rcases he with he | he
    · subst he
      rw [if_neg (show ¬ ((0 : Nat) ≠ 0) by decide)] at hid
      subst hid
      refine ⟨trivial, trivial, ?_, ?_, ?_, ?_, ?_⟩ <;> omega
    · subst he
      rw [if_pos (show (1 : Nat) ≠ 0 by decide), h31] at hid
      subst hid
      rw [e3130, e31]
      refine ⟨trivial, trivial, ?_, ?_, ?_, ?_, ?_⟩ <;> omega

/-- Instance of C23 on the register-file controller: receive slot 0 holds the extended data
frame with identifier 0x20000; `readData` returns Ok and the value handed out is
0x80020000. -/
theorem C23_flag_bits_in_received_identifier_witness :
    (readData simHw newDrv ⟨simIdle (rxSlot0 0 [0, 0x0A, 0, 0] 0 []) 1 1, []⟩
        ⟨0, 0, fun _ => 0⟩).1 = RSPN_OK
      ∧ (readData simHw newDrv ⟨simIdle (rxSlot0 0 [0, 0x0A, 0, 0] 0 []) 1 1, []⟩
          ⟨0, 0, fun _ => 0⟩).2.2.2.id % 2 ^ 29
        = (_readIDs simHw (_readStatus simHw
            ⟨simIdle (rxSlot0 0 [0, 0x0A, 0, 0] 0 []) 1 1, []⟩).2
            (servicedSlot simHw ⟨simIdle (rxSlot0 0 [0, 0x0A, 0, 0] 0 []) 1 1, []⟩)).1.2 :=
  ⟨rfl, (C23_flag_bits_in_received_identifier simHw newDrv
    ⟨simIdle (rxSlot0 0 [0, 0x0A, 0, 0] 0 []) 1 1, []⟩ ⟨0, 0, fun _ => 0⟩ rfl).2.2.1⟩

/-- C24 (the fault flag is never set). A constructed driver has `canError = 0`, and each
operation that writes driver members (`initialize`, `writeData`, `readData`) hands back the
`canError` it was given; `setMaskFilt`, the filter setters and `available` write no member.
So in every state reachable from a constructed driver `canError = 0`, on every board
`writeData` and `readData` do not return the disabled code 100, and the answer of `available`
is decided by the two receive bits of the status byte alone. -/
theorem C24_fault_flag_never_set (d : Drv) (h : Reachable d) :
    d.canError = 0
      ∧ (∀ (d0 : Drv), Constructed d0 → d0.canError = 0)
      ∧ (∀ (τ : Type) (hw : Hw τ) (fuel : Nat) (w : World τ) (opsMod imod canSpeed : Nat),
          (initialize_mcp hw fuel d w opsMod imod canSpeed).2.1.canError = d.canError)
      ∧ (∀ (τ : Type) (hw : Hw τ) (fuel : Nat) (w : World τ) (id ext len : Nat) (buf : Nat → Nat),
          (writeData hw fuel d w id ext len buf).2.1.canError = d.canError
            ∧ (writeData hw fuel d w id ext len buf).1 ≠ some 100)
      ∧ (∀ (τ : Type) (hw : Hw τ) (w : World τ) (args : RxArgs),
          (readData hw d w args).2.1.canError = d.canError
            ∧ (readData hw d w args).1 ≠ 100)
      ∧ (∀ (τ : Type) (hw : Hw τ) (w : World τ),
          (available hw d w).1 = decide ((_readStatus hw w).1 &&& 0x03 ≠ 0)) := by
  have hE := reachable_canError d h
  refine ⟨hE, fun d0 h0 => h0.1, ?_, ?_, ?_, ?_⟩
  · intro τ hw fuel w opsMod imod canSpeed
    exact initialize_mcp_canError hw fuel d w opsMod imod canSpeed
  · intro τ hw fuel w id ext len buf
    exact ⟨writeData_canError hw fuel d w id ext len buf,
      writeData_not_disabled hw fuel d w id ext len buf hE⟩
  · intro τ hw w args
    exact ⟨readData_canError hw d w args, readData_not_disabled hw d w args hE⟩
  · intro τ hw w
    simp only [available]
    rw [if_neg (not_not.mpr hE)]
    split_ifs with hs
    · simp [hs]
    · simp [hs]

/-- Instance of C24: the driver state reached from a constructed driver by an `initialize`
(on a scripted board whose registers read 0), then a `readData` on the register-file
controller with a frame in slot 0, then a `writeData` on a scripted board. -/
theorem C24_fault_flag_never_set_witness :
    (writeData scriptHw 2
        (readData simHw
          (initialize_mcp scriptHw 3 newDrv c7Board REQ_NORMAL IMOD_ANY SPD_16MHz_500K).2.1
          ⟨simIdle (rxSlot0 0 [0x20, 0, 0, 0] 2 [0xAA, 0xBB]) 3 1, []⟩
          ⟨0, 0, fun _ => 0⟩).2.1
        c7Board 0x100 0 8 (fun _ => 0)).2.1.canError = 0 :=
  (C24_fault_flag_never_set _
    (Reachable.afterWriteData scriptHw 2 _ c7Board 0x100 0 8 (fun _ => 0)
      (Reachable.afterReadData simHw _
        ⟨simIdle (rxSlot0 0 [0x20, 0, 0, 0] 2 [0xAA, 0xBB]) 3 1, []⟩ ⟨0, 0, fun _ => 0⟩
        (Reachable.afterInitialize scriptHw 3 newDrv c7Board REQ_NORMAL IMOD_ANY SPD_16MHz_500K
          (Reachable.constructed newDrv ⟨rfl, rfl⟩))))).1

/-- C25 (transmit never uses an unselected slot). Whenever `writeData` proceeds past the
free-slot polling (the loop is left with less than 2500 microseconds elapsed), the slot
address `n` it uses is 0x31, 0x41 or 0x51, never the initial 0x00; `n - 1` taken as a
`byte` is the control register of that slot, not 0xFF; and every register address that the
whole call writes or bit-modifies lies in that slot's block `n - 1 … n - 1 + 0xD`. -/
theorem C25_only_selected_slot_is_used (hw : Hw σ) (fuel : Nat) (d : Drv) (w : World σ)
    (id ext len : Nat) (buf : Nat → Nat) (res n t : Nat)
    (hE : d.canError = 0)
    (hp : (waitFreeTXBuf hw (micros hw w).1 fuel (micros hw w).2).1 = some (res, n, t))
    (ht : t < 2500) :
    (n = 0x31 ∨ n = 0x41 ∨ n = 0x51)
      ∧ n ≠ 0x00
      ∧ (n + 255) % 256 = n - 1
      ∧ (n + 255) % 256 ≠ 0xFF
      ∧ ∃ traffic, (writeData hw fuel d w id ext len buf).2.2.bus = w.bus ++ traffic
          ∧ ∀ a ∈ modifiedRegsOf traffic, n - 1 ≤ a ∧ a ≤ n - 1 + 0xD := by
  have hn := waitFreeTXBuf_slot hw _ fuel _ res n t hp ht
  refine ⟨hn, by omega, by omega, by omega, ?_⟩
  obtain ⟨c, rfl, hc⟩ : ∃ c, n = c + 1 ∧ c + 6 < 256 := ⟨n - 1, by omega, by omega⟩
  obtain ⟨k, hk⟩ := waitFreeTXBuf_bus hw (micros hw w).1 fuel (micros hw w).2
  obtain ⟨j, hj⟩ := waitSent_bus_exact hw (c + 1)
    (micros hw (sendRequested hw fuel d w id ext len buf (c + 1))).1 fuel
    (micros hw (sendRequested hw fuel d w id ext len buf (c + 1))).2
  refine ⟨(List.replicate k scanFrames).flatten
      ++ (loadFrames c ((arrTake buf (min (len % 256) 8)).map (· % 256)) (min (len % 256) 8)
            (arrTake (_writeIDs_tbufdata ext id) 4)
          ++ ((List.replicate j (busRead c)).flatten ++ [])), ?_, ?_⟩
  · rw [writeData_world_after_load hw fuel d w id ext len buf res (c + 1) t hE hp ht, hj,
      micros_bus, sendRequested_bus hw fuel d w id ext len buf c hc, hk, micros_bus,
      show (c + 1 + 255) % 256 = c from by omega]
    simp only [List.append_assoc, List.append_nil]
  · intro a ha
    rw [modifiedRegsOf_scans, modifiedRegsOf_load, modifiedRegsOf_reads, modifiedRegsOf_nil] at ha
    have h8 : min (len % 256) 8 ≤ 8 := Nat.min_le_right _ _
    simp only [arrTake, List.length_map, List.length_range, List.append_nil, List.mem_append,
      List.mem_map, List.mem_range, List.mem_singleton] at ha
    rcases ha with ((⟨i, hi, rfl⟩ | rfl) | ⟨i, hi, rfl⟩) | rfl <;> omega

/-- Witness for C25 on the scripted board where every slot reads free: slot address 0x51
is used. -/
theorem C25_only_selected_slot_is_used_witness :
    ∃ traffic, (writeData scriptHw 5 newDrv c7Board 0x100 0 12
          (arrOf [1, 2, 3, 4, 5, 6, 7, 8, 9, 10, 11, 12])).2.2.bus = [] ++ traffic
        ∧ ∀ a ∈ modifiedRegsOf traffic, 0x51 - 1 ≤ a ∧ a ≤ 0x51 - 1 + 0xD :=
  (C25_only_selected_slot_is_used scriptHw 5 newDrv c7Board 0x100 0 12
    (arrOf [1, 2, 3, 4, 5, 6, 7, 8, 9, 10, 11, 12]) RSPN_OK 0x51 490
    rfl rfl (by decide)).2.2.2.2

/-- C26 (the identifier-mode argument does not distinguish standard-only, extended-only and
all). For every board, operating mode and speed value, `initialize` called with `IMOD_STD`
and with `IMOD_EXT` gives the same result, driver state and bus traffic as with `IMOD_ALL`:
the receive-mode step bit-modifies 0x60 with mask 0x64 and value 0x04 and 0x70 with mask
0x60 and value 0x00 (receive-mode bits 0x00). With `IMOD_ANY` the step bit-modifies 0x60 with
mask 0x64 and value 0x64 and 0x70 with mask 0x60 and value 0x60 (receive-mode bits 0x60),
and whenever the request for Config mode returned Ok the bus traffic of `initialize`
differs from that with `IMOD_ALL`. -/
theorem C26_identifier_mode_std_ext_all_alike (hw : Hw σ) (fuel : Nat) (d : Drv) (w : World σ)
    (opsMod p : Nat) :
    initialize_mcp hw fuel d w opsMod IMOD_STD p = initialize_mcp hw fuel d w opsMod IMOD_ALL p
      ∧ initialize_mcp hw fuel d w opsMod IMOD_EXT p = initialize_mcp hw fuel d w opsMod IMOD_ALL p
      ∧ (∀ w0 : World σ, ∀ imod, imod = IMOD_STD ∨ imod = IMOD_EXT ∨ imod = IMOD_ALL →
          (initialize_rxMode hw w0 imod).bus
            = w0.bus ++ busBitModify 0x60 0x64 0x04 ++ busBitModify 0x70 0x60 0x00)
      ∧ (∀ w0 : World σ, (initialize_rxMode hw w0 IMOD_ANY).bus
            = w0.bus ++ busBitModify 0x60 0x64 0x64 ++ busBitModify 0x70 0x60 0x60)
      ∧ ((_setCANCTRL hw fuel (__spi_unSelect hw w) REQ_CONFIG).1 = some RSPN_OK →
          (initialize_mcp hw fuel d w opsMod IMOD_ANY p).2.2.bus
            ≠ (initialize_mcp hw fuel d w opsMod IMOD_ALL p).2.2.bus) := by
  refine ⟨?_, ?_, ?_, ?_, ?_⟩
  · simp only [initialize_mcp, initialize_buffers_eq, initialize_rxMode_STD]
  · simp only [initialize_mcp, initialize_buffers_eq, initialize_rxMode_EXT]
  · intro w0 imod h
    rcases h with h | h | h <;> subst h <;>
      rw [initialize_rxMode_bus hw w0 _ (by decide), if_neg (by decide), List.append_assoc]
  · intro w0
    rw [initialize_rxMode_bus hw w0 _ (by decide), if_pos rfl, List.append_assoc]
  · intro hfirst
    rw [initialize_mcp_world hw fuel d w opsMod IMOD_ANY p RSPN_OK hfirst,
      initialize_mcp_world hw fuel d w opsMod IMOD_ALL p RSPN_OK hfirst, if_pos rfl, if_pos rfl]
    obtain ⟨t1, h1⟩ := _setCANCTRL_ext hw fuel (initialize_buffers hw (initialize_bitTiming hw
      (_setCANCTRL hw fuel (__spi_unSelect hw w) REQ_CONFIG).2 p) IMOD_ANY) opsMod
    obtain ⟨t2, h2⟩ := _setCANCTRL_ext hw fuel (initialize_buffers hw (initialize_bitTiming hw
      (_setCANCTRL hw fuel (__spi_unSelect hw w) REQ_CONFIG).2 p) IMOD_ALL) opsMod
    rw [← h1, ← h2, initialize_buffers_eq, initialize_buffers_eq,
      initialize_rxMode_bus hw _ _ (by decide), initialize_rxMode_bus hw _ _ (by decide),
      if_pos rfl, if_neg (by decide), List.append_assoc, List.append_assoc]
    intro he
    simp only [List.append_assoc] at he
    have he2 := List.append_cancel_left he
    have he3 := (List.append_inj he2 rfl).1
    exact absurd he3 (by decide)

set_option maxRecDepth 100000 in
/-- Instance of C26 on a scripted board whose controller answers the Config request at once:
the request returns Ok, `initialize` returns true with `IMOD_ANY` and with `IMOD_ALL`, and
the two bus records differ. -/
theorem C26_identifier_mode_std_ext_all_alike_witness :
    (_setCANCTRL scriptHw 3 (__spi_unSelect scriptHw c26Board) REQ_CONFIG).1 = some RSPN_OK
      ∧ (initialize_mcp scriptHw 3 newDrv c26Board REQ_NORMAL IMOD_ANY SPD_16MHz_500K).1 = some 1
      ∧ (initialize_mcp scriptHw 3 newDrv c26Board REQ_NORMAL IMOD_ALL SPD_16MHz_500K).1 = some 1
      ∧ (initialize_mcp scriptHw 3 newDrv c26Board REQ_NORMAL IMOD_ANY SPD_16MHz_500K).2.2.bus
          ≠ (initialize_mcp scriptHw 3 newDrv c26Board REQ_NORMAL IMOD_ALL SPD_16MHz_500K).2.2.bus :=
  ⟨rfl, rfl, rfl,
    (C26_identifier_mode_std_ext_all_alike scriptHw 3 newDrv c26Board REQ_NORMAL
      SPD_16MHz_500K).2.2.2.2 rfl⟩

end MCP2515
